import Mathlib

/-!
# node_http2.cc: settings, priority and header-dispatch core

A shallow embedding of `src/node_http2.cc`, the binding between a host and the
nghttp2 protocol engine.  Pure helpers become Lean functions, the wrapper
objects become records, and the engine is represented only through the part of
its interface the binding calls.

Machine integers are `Nat` or `Int`; conversions between the 32-bit types are
written out where the source performs them.
-/

namespace Http2

/-! ## Constants of the engine's public header (`nghttp2/nghttp2.h`) -/

/-- Modelled from the spec: `NGHTTP2_DEFAULT_WEIGHT` is defined in the engine's
header, which is not part of the sources at hand.  The spec calls it the
"protocol default weight"; HTTP/2 (RFC 7540, section 5.3.5) fixes it at 16. -/
def NGHTTP2_DEFAULT_WEIGHT : Int := 16

/-- Modelled from the spec: `NGHTTP2_MIN_WEIGHT`, from the same header, the
"protocol minimum" of a weight; HTTP/2 (RFC 7540, section 5.3.2) fixes it at 1. -/
def NGHTTP2_MIN_WEIGHT : Int := 1

/-- Modelled from the spec: `NGHTTP2_MAX_WEIGHT`, from the same header, the
"protocol maximum" of a weight; HTTP/2 (RFC 7540, section 5.3.2) fixes it at
256. -/
def NGHTTP2_MAX_WEIGHT : Int := 256

/-! ## The `MIN` and `MAX` macros -/

/-- Modelled from the spec: the `MIN` macro is defined in a header that is not
part of the sources at hand; section 4.1 of the spec reads its use as
`min(value, MAX_INITIAL_WINDOW_SIZE)`.  It is written here as the usual
conditional expression `a < b ? a : b`. -/
def MIN {α : Type} [LT α] [DecidableRel (fun a b : α => a < b)] (a b : α) : α :=
  if a < b then a else b

/-- Modelled from the spec: the `MAX` macro, counterpart of `MIN`, written as
the conditional expression `a > b ? a : b`. -/
def MAX {α : Type} [LT α] [DecidableRel (fun a b : α => a < b)] (a b : α) : α :=
  if a > b then a else b

/-! ## Http2Priority -/

/-- Modelled from the spec: the engine's record `nghttp2_priority_spec`, the
"(parentId, weight, exclusive) triple" of the spec; its declaration is in the
engine's header. -/
structure nghttp2_priority_spec where
  stream_id : Int
  weight : Int
  exclusive : Int
  deriving DecidableEq, Repr

/-- Modelled from the spec: the engine's `nghttp2_priority_spec_init`, whose
body is not part of the sources at hand; it fills the record with its
arguments, the exclusive flag as 0 or 1 ("Exclusive is boolean"). -/
def nghttp2_priority_spec_init (stream_id weight exclusive : Int) : nghttp2_priority_spec :=
  { stream_id := stream_id, weight := weight, exclusive := if exclusive ≠ 0 then 1 else 0 }

/-- The wrapper `Http2Priority`, which holds one `nghttp2_priority_spec`. -/
structure Http2Priority where
  spec_ : nghttp2_priority_spec
  deriving DecidableEq, Repr

/-- The constructor `Http2Priority::Http2Priority(parent, weight, exclusive)`. -/
def Http2Priority.new (parent weight : Int) (exclusive : Bool) : Http2Priority :=
  let weight := if weight < 0 then NGHTTP2_DEFAULT_WEIGHT else weight
  let weight := MAX (MIN weight NGHTTP2_MAX_WEIGHT) NGHTTP2_MIN_WEIGHT
  { spec_ := nghttp2_priority_spec_init parent weight (if exclusive then 1 else 0) }

/-! ## Values handed over by the host -/

/-- Modelled from the spec: the host's value type and its conversions belong
to the host's runtime, which is not part of the sources at hand.  The values
the property setters are handed are taken to be `undefined`, an integral
number, or a boolean. -/
inductive Value
  | undefined
  | number (n : Int)
  | boolean (b : Bool)
  deriving DecidableEq, Repr

/-- Modelled from the spec: the test `value->IsUndefined()`. -/
def Value.IsUndefined : Value → Bool
  | .undefined => true
  | _ => false

/-- Modelled from the spec: the conversion `value->Uint32Value()`, by which
values "pass through as `uint32`": the number modulo 2^32. -/
def Value.Uint32Value : Value → Nat
  | .undefined => 0
  | .number n => (n % 4294967296).toNat
  | .boolean b => if b then 1 else 0

/-- Modelled from the spec: the conversion `value->BooleanValue()`, the
"boolean" a value is coerced to: a number is true unless it is 0. -/
def Value.BooleanValue : Value → Bool
  | .undefined => false
  | .number n => decide (n ≠ 0)
  | .boolean b => b

/-! ## Http2Settings -/

/-- Modelled from the spec: the engine's enumeration `nghttp2_settings_id` is
declared in the engine's header; these are the six enumerators the binding
names, the spec's "small closed set of setting identifiers". -/
inductive nghttp2_settings_id
  | NGHTTP2_SETTINGS_HEADER_TABLE_SIZE
  | NGHTTP2_SETTINGS_ENABLE_PUSH
  | NGHTTP2_SETTINGS_MAX_CONCURRENT_STREAMS
  | NGHTTP2_SETTINGS_INITIAL_WINDOW_SIZE
  | NGHTTP2_SETTINGS_MAX_FRAME_SIZE
  | NGHTTP2_SETTINGS_MAX_HEADER_LIST_SIZE
  deriving DecidableEq, Repr

open nghttp2_settings_id

/-- Modelled from the spec: the numeric value of each enumerator, which is the
identifier the wire format carries; HTTP/2 (RFC 7540, section 6.5.2) numbers
the six settings 1 to 6 in this order. -/
def nghttp2_settings_id.toNat : nghttp2_settings_id → Nat
  | NGHTTP2_SETTINGS_HEADER_TABLE_SIZE => 1
  | NGHTTP2_SETTINGS_ENABLE_PUSH => 2
  | NGHTTP2_SETTINGS_MAX_CONCURRENT_STREAMS => 3
  | NGHTTP2_SETTINGS_INITIAL_WINDOW_SIZE => 4
  | NGHTTP2_SETTINGS_MAX_FRAME_SIZE => 5
  | NGHTTP2_SETTINGS_MAX_HEADER_LIST_SIZE => 6

/-- Modelled from the spec: the numeric macros `DEFAULT_SETTINGS_*`,
`MAX_INITIAL_WINDOW_SIZE`, `MIN_MAX_FRAME_SIZE` and `MAX_MAX_FRAME_SIZE` are
defined in a header that is not part of the sources at hand.  The spec names
them only as the protocol-recommended defaults and the protocol-defined
bounds, so they are parameters of every definition that uses them. -/
structure Constants where
  DEFAULT_SETTINGS_HEADER_TABLE_SIZE : Nat
  DEFAULT_SETTINGS_ENABLE_PUSH : Nat
  DEFAULT_SETTINGS_INITIAL_WINDOW_SIZE : Nat
  DEFAULT_SETTINGS_MAX_FRAME_SIZE : Nat
  MAX_INITIAL_WINDOW_SIZE : Nat
  MIN_MAX_FRAME_SIZE : Nat
  MAX_MAX_FRAME_SIZE : Nat
  deriving DecidableEq, Repr

/-- The values RFC 7540 section 6.5.2 gives these constants; the concrete
instance at which statements are evaluated. -/
def rfc7540 : Constants :=
  { DEFAULT_SETTINGS_HEADER_TABLE_SIZE := 4096
    DEFAULT_SETTINGS_ENABLE_PUSH := 1
    DEFAULT_SETTINGS_INITIAL_WINDOW_SIZE := 65535
    DEFAULT_SETTINGS_MAX_FRAME_SIZE := 16384
    MAX_INITIAL_WINDOW_SIZE := 2147483647
    MIN_MAX_FRAME_SIZE := 16384
    MAX_MAX_FRAME_SIZE := 16777215 }

/-- Modelled from the spec: the engine's record `nghttp2_settings_entry`, a
numeric identifier and a value, declared in the engine's header. -/
structure nghttp2_settings_entry where
  settings_id : Nat
  value : Nat
  deriving DecidableEq, Repr

/-- Modelled from the spec: the part of the engine's session state that the
settings snapshot reads "through six accessor calls into the engine": what
`nghttp2_session_get_local_settings` and `nghttp2_session_get_remote_settings`
report for each identifier.  The engine is not part of the sources at hand, so
what it reports is arbitrary. -/
structure nghttp2_settings_view where
  nghttp2_session_get_local_settings : nghttp2_settings_id → Nat
  nghttp2_session_get_remote_settings : nghttp2_settings_id → Nat

/-- Modelled from the spec: the class body of `Http2Settings` (its container
`settings_` and the helpers `Set`, `Erase`, `Find`, `CollectSettings`) is
declared in a header that is not part of the sources at hand.  The spec calls
the collection an "ordered mapping of setting-id → value"; it is held here as
an association list that the operations keep in ascending order of the
identifier, with one entry per identifier. -/
structure Http2Settings where
  settings_ : List (nghttp2_settings_id × Nat)
  deriving DecidableEq, Repr

namespace Http2Settings

/-- Modelled from the spec: insertion into the ordered mapping, which
"inserts/overwrites" the entry of the identifier. -/
def insertEntry (id : nghttp2_settings_id) (value : Nat) :
    List (nghttp2_settings_id × Nat) → List (nghttp2_settings_id × Nat)
  | [] => [(id, value)]
  | (k, v) :: rest =>
    if id.toNat < k.toNat then (id, value) :: (k, v) :: rest
    else if id = k then (id, value) :: rest
    else (k, v) :: insertEntry id value rest

/-- Modelled from the spec: `Set(id, value)`, which "inserts/overwrites". -/
def Set (settings : Http2Settings) (id : nghttp2_settings_id) (value : Nat) : Http2Settings :=
  { settings_ := insertEntry id value settings.settings_ }

/-- Modelled from the spec: `Erase(id)`, which "removes entry". -/
def Erase (settings : Http2Settings) (id : nghttp2_settings_id) : Http2Settings :=
  { settings_ := settings.settings_.filter (fun e => e.1 ≠ id) }

/-- Modelled from the spec: `Find(id, info)`, the lookup behind the property
getters; `none` stands for a return value left `undefined`. -/
def Find (settings : Http2Settings) (id : nghttp2_settings_id) : Option Nat :=
  (settings.settings_.find? (fun e => e.1 = id)).map (fun e => e.2)

/-- Modelled from the spec: `CollectSettings(&entries)`, which appends one
`nghttp2_settings_entry` per stored entry, in the order of the mapping. -/
def CollectSettings (settings : Http2Settings) : List nghttp2_settings_entry :=
  settings.settings_.map (fun e => { settings_id := e.1.toNat, value := e.2 })

/-- The state `settings_.clear()` leaves: no entries. -/
def empty : Http2Settings :=
  { settings_ := [] }

/-- The constructor `Http2Settings::Http2Settings(env, wrap, session,
localSettings)`; `none` is the null session of the default argument. -/
def new (session : Option nghttp2_settings_view) (localSettings : Bool) : Http2Settings :=
  match session with
  | none => empty
  | some session =>
    let fn := if localSettings then session.nghttp2_session_get_local_settings
      else session.nghttp2_session_get_remote_settings
    let settings := empty
    let settings := settings.Set NGHTTP2_SETTINGS_HEADER_TABLE_SIZE
      (fn NGHTTP2_SETTINGS_HEADER_TABLE_SIZE)
    let settings := settings.Set NGHTTP2_SETTINGS_ENABLE_PUSH (fn NGHTTP2_SETTINGS_ENABLE_PUSH)
    let settings := settings.Set NGHTTP2_SETTINGS_MAX_CONCURRENT_STREAMS
      (fn NGHTTP2_SETTINGS_MAX_CONCURRENT_STREAMS)
    let settings := settings.Set NGHTTP2_SETTINGS_INITIAL_WINDOW_SIZE
      (fn NGHTTP2_SETTINGS_INITIAL_WINDOW_SIZE)
    let settings := settings.Set NGHTTP2_SETTINGS_MAX_FRAME_SIZE
      (fn NGHTTP2_SETTINGS_MAX_FRAME_SIZE)
    settings.Set NGHTTP2_SETTINGS_MAX_HEADER_LIST_SIZE
      (fn NGHTTP2_SETTINGS_MAX_HEADER_LIST_SIZE)

/-- The handler `Http2Settings::Defaults`. -/
def Defaults (K : Constants) (_settings : Http2Settings) : Http2Settings :=
  let settings := empty
  let settings := settings.Set NGHTTP2_SETTINGS_HEADER_TABLE_SIZE
    K.DEFAULT_SETTINGS_HEADER_TABLE_SIZE
  let settings := settings.Set NGHTTP2_SETTINGS_ENABLE_PUSH K.DEFAULT_SETTINGS_ENABLE_PUSH
  let settings := settings.Set NGHTTP2_SETTINGS_INITIAL_WINDOW_SIZE
    K.DEFAULT_SETTINGS_INITIAL_WINDOW_SIZE
  settings.Set NGHTTP2_SETTINGS_MAX_FRAME_SIZE K.DEFAULT_SETTINGS_MAX_FRAME_SIZE

/-- The handler `Http2Settings::Reset`. -/
def Reset (_settings : Http2Settings) : Http2Settings :=
  empty

/-- The property setter `Http2Settings::SetHeaderTableSize`. -/
def SetHeaderTableSize (settings : Http2Settings) (value : Value) : Http2Settings :=
  if value.IsUndefined then settings.Erase NGHTTP2_SETTINGS_HEADER_TABLE_SIZE
  else settings.Set NGHTTP2_SETTINGS_HEADER_TABLE_SIZE value.Uint32Value

/-- The property setter `Http2Settings::SetEnablePush`. -/
def SetEnablePush (settings : Http2Settings) (value : Value) : Http2Settings :=
  if value.IsUndefined then settings.Erase NGHTTP2_SETTINGS_ENABLE_PUSH
  else settings.Set NGHTTP2_SETTINGS_ENABLE_PUSH (if value.BooleanValue then 1 else 0)

/-- The property setter `Http2Settings::SetMaxConcurrentStreams`. -/
def SetMaxConcurrentStreams (settings : Http2Settings) (value : Value) : Http2Settings :=
  if value.IsUndefined then settings.Erase NGHTTP2_SETTINGS_MAX_CONCURRENT_STREAMS
  else settings.Set NGHTTP2_SETTINGS_MAX_CONCURRENT_STREAMS value.Uint32Value

/-- The property setter `Http2Settings::SetInitialWindowSize`. -/
def SetInitialWindowSize (K : Constants) (settings : Http2Settings) (value : Value) :
    Http2Settings :=
  if value.IsUndefined then settings.Erase NGHTTP2_SETTINGS_INITIAL_WINDOW_SIZE
  else settings.Set NGHTTP2_SETTINGS_INITIAL_WINDOW_SIZE
    (MIN K.MAX_INITIAL_WINDOW_SIZE value.Uint32Value)

/-- The property setter `Http2Settings::SetMaxFrameSize`. -/
def SetMaxFrameSize (K : Constants) (settings : Http2Settings) (value : Value) :
    Http2Settings :=
  if value.IsUndefined then settings.Erase NGHTTP2_SETTINGS_MAX_FRAME_SIZE
  else settings.Set NGHTTP2_SETTINGS_MAX_FRAME_SIZE
    (MAX (MIN value.Uint32Value K.MAX_MAX_FRAME_SIZE) K.MIN_MAX_FRAME_SIZE)

/-- The property setter `Http2Settings::SetMaxHeaderListSize`. -/
def SetMaxHeaderListSize (settings : Http2Settings) (value : Value) : Http2Settings :=
  if value.IsUndefined then settings.Erase NGHTTP2_SETTINGS_MAX_HEADER_LIST_SIZE
  else settings.Set NGHTTP2_SETTINGS_MAX_HEADER_LIST_SIZE value.Uint32Value

/-- The accessor table of `Initialize` registers one setter per property
(`headerTableSize`, `enablePush`, `maxConcurrentStreams`, `initialWindowSize`,
`maxFrameSize`, `maxHeaderListSize`); this selects the setter of the property
that is stored under the given identifier. -/
def setProperty (K : Constants) (id : nghttp2_settings_id) (settings : Http2Settings)
    (value : Value) : Http2Settings :=
  match id with
  | NGHTTP2_SETTINGS_HEADER_TABLE_SIZE => settings.SetHeaderTableSize value
  | NGHTTP2_SETTINGS_ENABLE_PUSH => settings.SetEnablePush value
  | NGHTTP2_SETTINGS_MAX_CONCURRENT_STREAMS => settings.SetMaxConcurrentStreams value
  | NGHTTP2_SETTINGS_INITIAL_WINDOW_SIZE => settings.SetInitialWindowSize K value
  | NGHTTP2_SETTINGS_MAX_FRAME_SIZE => settings.SetMaxFrameSize K value
  | NGHTTP2_SETTINGS_MAX_HEADER_LIST_SIZE => settings.SetMaxHeaderListSize value

end Http2Settings

/-! ## Packing the settings payload -/

/-- Modelled from the spec: the engine's error code
`NGHTTP2_ERR_INVALID_ARGUMENT`, a negative number, as "negative = specific
protocol/library error code". -/
def NGHTTP2_ERR_INVALID_ARGUMENT : Int := -501

/-- Modelled from the spec: the engine's error code
`NGHTTP2_ERR_INSUFF_BUFSIZE`, a negative number. -/
def NGHTTP2_ERR_INSUFF_BUFSIZE : Int := -525

/-- Two bytes, most significant first, of a 16-bit number. -/
def put_uint16be (n : Nat) : List Nat :=
  [n / 256 % 256, n % 256]

/-- Four bytes, most significant first, of a 32-bit number. -/
def put_uint32be (n : Nat) : List Nat :=
  [n / 16777216 % 256, n / 65536 % 256, n / 256 % 256, n % 256]

/-- Modelled from the spec: the engine's wire format of a settings payload,
whose code is not part of the sources at hand: "6 bytes per entry: 2-byte id +
4-byte value, network byte order". -/
def nghttp2_frame_pack_settings_payload : List nghttp2_settings_entry → List Nat
  | [] => []
  | e :: rest =>
    put_uint16be e.settings_id ++ put_uint32be e.value ++
      nghttp2_frame_pack_settings_payload rest

/-- Modelled from the spec: the engine's
`nghttp2_pack_settings_payload(buf, buflen, iv, niv)`, whose code is not part
of the sources at hand.  It refuses, with a negative number, entries that its
own validation rejects and a buffer shorter than six bytes per entry, and
otherwise writes the payload and returns its length.  Which entries the engine
rejects is not said anywhere in the sources or the spec, so the validation
`iv_check` is a parameter.  The result is the returned number and the bytes
written. -/
def nghttp2_pack_settings_payload (iv_check : List nghttp2_settings_entry → Bool)
    (buflen : Nat) (iv : List nghttp2_settings_entry) : Int × List Nat :=
  if iv_check iv = false then (NGHTTP2_ERR_INVALID_ARGUMENT, [])
  else if buflen < iv.length * 6 then (NGHTTP2_ERR_INSUFF_BUFSIZE, [])
  else (((iv.length * 6 : Nat) : Int), nghttp2_frame_pack_settings_payload iv)

/-- The way an element access of a `std::vector` goes wrong. -/
inductive VectorFault
  | indexOutOfRange (index size : Nat)
  deriving DecidableEq, Repr

/-- The expression `v[i]` on a `std::vector`: it has a meaning only for an
index below the size. -/
def vectorAt {α : Type} (v : List α) (i : Nat) : Except VectorFault α :=
  match v.get? i with
  | some a => .ok a
  | none => .error (.indexOutOfRange i v.length)

/-- The handler `Http2Settings::Pack`.  The result `some bytes` is the buffer
set as the return value, `none` is a return value left unset. -/
def Http2Settings.Pack (iv_check : List nghttp2_settings_entry → Bool)
    (settings : Http2Settings) : Except VectorFault (Option (List Nat)) :=
  let entries := settings.CollectSettings
  let len := entries.length * 6
  match vectorAt entries 0 with
  | .error fault => .error fault
  | .ok _ =>
    let (ret, buf) := nghttp2_pack_settings_payload iv_check len entries
    if ret ≥ 0 then .ok (some (buf.take len)) else .ok none

/-- The reading of a settings payload back into entries, six bytes at a time:
the inverse of the wire format, used to state what a payload contains. -/
def unpack_settings_payload : List Nat → List nghttp2_settings_entry
  | b0 :: b1 :: b2 :: b3 :: b4 :: b5 :: rest =>
    { settings_id := b0 * 256 + b1
      value := ((b2 * 256 + b3) * 256 + b4) * 256 + b5 } :: unpack_settings_payload rest
  | _ => []

/-- The value a payload carries for an identifier, if it has an entry for it. -/
def payloadValue (payload : List Nat) (id : nghttp2_settings_id) : Option Nat :=
  ((unpack_settings_payload payload).find? (fun e => e.settings_id = id.toNat)).map
    (fun e => e.value)

/-- The clamp rule the spec states for each setting: "initial-window-size →
`min(value, MAX_INITIAL_WINDOW_SIZE)`; max-frame-size → `clamp(value,
MIN_MAX_FRAME_SIZE, MAX_MAX_FRAME_SIZE)`; enable-push → boolean coerced to
0/1; others pass through as `uint32`". -/
def clampedForm (K : Constants) (id : nghttp2_settings_id) (v : Nat) : Nat :=
  match id with
  | NGHTTP2_SETTINGS_INITIAL_WINDOW_SIZE => min v K.MAX_INITIAL_WINDOW_SIZE
  | NGHTTP2_SETTINGS_MAX_FRAME_SIZE =>
    if v < K.MIN_MAX_FRAME_SIZE then K.MIN_MAX_FRAME_SIZE
    else if K.MAX_MAX_FRAME_SIZE < v then K.MAX_MAX_FRAME_SIZE
    else v
  | NGHTTP2_SETTINGS_ENABLE_PUSH => if v = 0 then 0 else 1
  | _ => v

/-- An engine validation that accepts every list of entries. -/
def acceptAll (_iv : List nghttp2_settings_entry) : Bool :=
  true

/-! ## The bounds invariant of a settings collection -/

/-- Whether a value stored under an identifier respects the bounds the spec
names: initial-window-size at most `MAX_INITIAL_WINDOW_SIZE`, max-frame-size
between `MIN_MAX_FRAME_SIZE` and `MAX_MAX_FRAME_SIZE`; the other settings are
not bounded. -/
def entryWithinBounds (K : Constants) (id : nghttp2_settings_id) (v : Nat) : Bool :=
  match id with
  | NGHTTP2_SETTINGS_INITIAL_WINDOW_SIZE => decide (v ≤ K.MAX_INITIAL_WINDOW_SIZE)
  | NGHTTP2_SETTINGS_MAX_FRAME_SIZE =>
    decide (K.MIN_MAX_FRAME_SIZE ≤ v) && decide (v ≤ K.MAX_MAX_FRAME_SIZE)
  | _ => true

/-- The invariant of the claim: every entry the collection holds respects its
bounds. -/
def withinBounds (K : Constants) (settings : Http2Settings) : Bool :=
  settings.settings_.all (fun e => entryWithinBounds K e.1 e.2)

/-- The collections that can be built: by the constructor without a session,
by the constructor from a session (for the sessions and the selection flag
that `allowed` admits), and from those by `Defaults`, `Reset` and the property
setters, a write of `undefined` being the erasure of the entry. -/
inductive Reachable (K : Constants) (allowed : nghttp2_settings_view → Bool → Prop) :
    Http2Settings → Prop
  | construct_empty (localSettings : Bool) :
      Reachable K allowed (Http2Settings.new none localSettings)
  | construct_snapshot (session : nghttp2_settings_view) (localSettings : Bool) :
      allowed session localSettings →
      Reachable K allowed (Http2Settings.new (some session) localSettings)
  | defaults (settings : Http2Settings) :
      Reachable K allowed settings → Reachable K allowed (settings.Defaults K)
  | reset (settings : Http2Settings) :
      Reachable K allowed settings → Reachable K allowed settings.Reset
  | write (settings : Http2Settings) (id : nghttp2_settings_id) (value : Value) :
      Reachable K allowed settings →
      Reachable K allowed (Http2Settings.setProperty K id settings value)

/-- Every session and either selection: the snapshots the claim speaks of,
"for any values the engine reports". -/
def anySnapshot (_session : nghttp2_settings_view) (_localSettings : Bool) : Prop :=
  True

/-- The snapshots in which the selected side of the engine reports an
initial-window-size and a max-frame-size that respect the bounds. -/
def boundedSnapshot (K : Constants) (session : nghttp2_settings_view)
    (localSettings : Bool) : Prop :=
  let fn := if localSettings then session.nghttp2_session_get_local_settings
    else session.nghttp2_session_get_remote_settings
  fn NGHTTP2_SETTINGS_INITIAL_WINDOW_SIZE ≤ K.MAX_INITIAL_WINDOW_SIZE ∧
  K.MIN_MAX_FRAME_SIZE ≤ fn NGHTTP2_SETTINGS_MAX_FRAME_SIZE ∧
  fn NGHTTP2_SETTINGS_MAX_FRAME_SIZE ≤ K.MAX_MAX_FRAME_SIZE

/-- An engine that reports 4294967295 for every setting of either side. -/
def reportsAllOnes : nghttp2_settings_view :=
  { nghttp2_session_get_local_settings := fun _ => 4294967295
    nghttp2_session_get_remote_settings := fun _ => 4294967295 }

/-- An engine that reports the RFC 7540 initial values for both sides. -/
def reportsInitialValues : nghttp2_settings_view :=
  { nghttp2_session_get_local_settings := fun id =>
      match id with
      | NGHTTP2_SETTINGS_HEADER_TABLE_SIZE => 4096
      | NGHTTP2_SETTINGS_ENABLE_PUSH => 1
      | NGHTTP2_SETTINGS_MAX_CONCURRENT_STREAMS => 4294967295
      | NGHTTP2_SETTINGS_INITIAL_WINDOW_SIZE => 65535
      | NGHTTP2_SETTINGS_MAX_FRAME_SIZE => 16384
      | NGHTTP2_SETTINGS_MAX_HEADER_LIST_SIZE => 4294967295
    nghttp2_session_get_remote_settings := fun id =>
      match id with
      | NGHTTP2_SETTINGS_HEADER_TABLE_SIZE => 4096
      | NGHTTP2_SETTINGS_ENABLE_PUSH => 1
      | NGHTTP2_SETTINGS_MAX_CONCURRENT_STREAMS => 4294967295
      | NGHTTP2_SETTINGS_INITIAL_WINDOW_SIZE => 65535
      | NGHTTP2_SETTINGS_MAX_FRAME_SIZE => 16384
      | NGHTTP2_SETTINGS_MAX_HEADER_LIST_SIZE => 4294967295 }

/-! ## Http2Stream, the engine's stream table and Http2Session -/

/-- The conversion of a signed 32-bit number to `uint32_t`. -/
def toUint32 (x : Int) : Nat :=
  (x % 4294967296).toNat

/-- The conversion of an unsigned 32-bit number to `int32_t`. -/
def toInt32 (n : Nat) : Int :=
  if n % 4294967296 < 2147483648 then (n % 4294967296 : Nat)
  else ((n % 4294967296 : Nat) : Int) - 4294967296

/-- The wrapper `Http2Stream`, as its constructor fills it: the host object it
is wrapped in (`object()`, named by the order in which the objects were made)
and the stream id it was constructed with (`stream_id_`). -/
structure Http2Stream where
  object : Nat
  stream_id_ : Int
  deriving DecidableEq, Repr

/-- Modelled from the spec: the engine is not part of the sources at hand.
This is the part of its session state that the stream lookups go through, the
spec's "lookup by stream-user-data": the streams the engine holds, each with
the user data attached to it, if any; and whether the engine was made as a
server (`nghttp2_session_server_new2`) or as a client
(`nghttp2_session_client_new2`). -/
structure nghttp2_session where
  streams : List (Int × Option Http2Stream)
  server : Bool
  deriving DecidableEq, Repr

/-- Whether the engine holds a stream with this id. -/
def nghttp2_session.holds (session : nghttp2_session) (stream_id : Int) : Bool :=
  session.streams.any (fun e => e.1 = stream_id)

/-- Modelled from the spec: the engine's `nghttp2_session_get_stream_user_data`,
the user data attached to the stream; it is `NULL` ("absent") when the engine
holds no such stream or nothing is attached to it. -/
def nghttp2_session_get_stream_user_data (session : nghttp2_session) (stream_id : Int) :
    Option Http2Stream :=
  (session.streams.find? (fun e => e.1 = stream_id)).bind (fun e => e.2)

/-- Modelled from the spec: the engine's `nghttp2_session_set_stream_user_data`,
by which a wrapper is "registered".  It attaches the user data to the stream,
replacing what was attached.  The data lives on the engine's stream, so when
the engine holds no such stream there is nothing to attach it to and nothing
changes (nghttp2 then returns `NGHTTP2_ERR_INVALID_ARGUMENT`; the binding does
not read the returned number). -/
def nghttp2_session_set_stream_user_data (session : nghttp2_session) (stream_id : Int)
    (stream_user_data : Http2Stream) : nghttp2_session :=
  let attach := fun (e : Int × Option Http2Stream) =>
    if e.1 = stream_id then (e.1, some stream_user_data) else e
  { session with streams := session.streams.map attach }

/-- The events the binding emits to the host, each with the arguments the
`EMIT` or `EMIT0` call hands over: `send`, `rst-stream`, `goaway`, `data`,
`data-chunk`, `headers-complete`, `stream-close`, `header`, `begin-headers`,
`frame-sent`, and the notifications `destroy` and `canClose`. -/
inductive Event
  | begin_headers (stream : Http2Stream) (cat : Nat)
  | send (buffer : List Nat)
  | rst_stream (id : Int) (error_code : Nat)
  | goaway (error_code : Nat) (last_stream_id : Int) (opaque_data : Option (List Nat))
  | data (stream : Http2Stream) (flags : Nat) (length : Int) (padlen : Int)
  | data_chunk (stream : Http2Stream) (flags : Nat) (buffer : List Nat)
  | headers_complete (stream : Http2Stream) (flags : Nat)
  | stream_close (stream : Http2Stream) (error_code : Nat)
  | header (stream : Http2Stream) (name value : List Nat)
  | frame_sent (stream_id : Nat) (type : Nat) (flags : Nat)
  | destroy
  | canClose
  deriving DecidableEq, Repr

/-- The wrapper `Http2Session`: its type, the engine handle `session_` (`none`
once it is null), the events emitted so far, oldest first, and the number of
host objects constructed for streams so far. -/
structure Http2Session where
  type_ : Int
  session_ : Option nghttp2_session
  emitted : List Event
  objects : Nat
  deriving DecidableEq, Repr

/-- Modelled from the spec: the `EMIT` macro is defined in a header that is not
part of the sources at hand; the spec has each callback "translated to exactly
one host-visible event", recorded here at the end of the emitted events. -/
def EMIT (session : Http2Session) (event : Event) : Http2Session :=
  { session with emitted := session.emitted ++ [event] }

/-- The function `Http2Stream::AddStream`, whose body is empty. -/
def Http2Stream.AddStream (_stream : Http2Stream) (session : Http2Session) : Http2Session :=
  session

/-- The function `Http2Session::create_stream(env, session, stream_id)`, with
`stream_id` a `uint32_t`.  It constructs a host object and the wrapper around
it and asks the engine to attach the wrapper to the stream.  It dereferences
the engine handle, so it has no result when the handle is null.  The two
`CHECK_EQ` assertions on the constructor template hold once `Initialize` has
stored the template, which is taken for granted; the engine's own stream
pointer that the wrapper's constructor looks up is not represented. -/
def Http2Session.create_stream (session : Http2Session) (stream_id : Nat) :
    Option (Http2Session × Http2Stream) :=
  match session.session_ with
  | none => none
  | some engine =>
    let stream : Http2Stream := { object := session.objects, stream_id_ := toInt32 stream_id }
    let session := { session with objects := session.objects + 1 }
    let session := if stream_id > 0 then Http2Stream.AddStream stream session else session
    let engine := nghttp2_session_set_stream_user_data engine (toInt32 stream_id) stream
    some ({ session with session_ := some engine }, stream)

/-- Modelled from the spec: the engine's record `nghttp2_frame_hd`, the header
of a frame, declared in the engine's header. -/
structure nghttp2_frame_hd where
  length : Nat
  stream_id : Int
  type : Nat
  flags : Nat
  deriving DecidableEq, Repr

/-- Modelled from the spec: the part of the engine's `nghttp2_frame` that the
callbacks read: the frame header, the category of a HEADERS frame
(`headers.cat`), the error code of a RST_STREAM frame, the error code, last
stream id and opaque data of a GOAWAY frame, and the pad length of a DATA
frame. -/
structure nghttp2_frame where
  hd : nghttp2_frame_hd
  headers_cat : Nat
  rst_stream_error_code : Nat
  goaway_error_code : Nat
  goaway_last_stream_id : Int
  goaway_opaque_data : List Nat
  data_padlen : Nat
  deriving DecidableEq, Repr

/-- The callback `Http2Session::on_begin_headers(session, frame, user_data)`.
The engine passes its own session, which is the one the wrapper's handle
points to; the callback runs inside an engine call, so it has no result when
there is no engine.  The result is the wrapper afterwards and the returned
number. -/
def Http2Session.on_begin_headers (session_obj : Http2Session) (frame : nghttp2_frame) :
    Option (Http2Session × Int) :=
  match session_obj.session_ with
  | none => none
  | some session =>
    match nghttp2_session_get_stream_user_data session frame.hd.stream_id with
    | some stream_data =>
      some (EMIT session_obj (Event.begin_headers stream_data frame.headers_cat), 0)
    | none =>
      match session_obj.create_stream (toUint32 frame.hd.stream_id) with
      | none => none
      | some (session_obj, stream_data) =>
        some (EMIT session_obj (Event.begin_headers stream_data frame.headers_cat), 0)

/-- Modelled from the spec: the macro `SESSION_OR_RETURN` is defined in a
header that is not part of the sources at hand; by the spec an operation
"against a Session/Stream after `destroy()` must fail soft (no-op / empty
return)", so it is the test that the engine handle is null. -/
def Http2Session.sessionIsNull (session : Http2Session) : Bool :=
  session.session_.isNone

/-- The method `Http2Session::GetStream`, given the `Int32Value` of its
argument: the wrapper attached to the stream, or no return value. -/
def Http2Session.GetStream (session : Http2Session) (id : Int) : Option Http2Stream :=
  if session.sessionIsNull then none
  else
    match session.session_ with
    | none => none
    | some engine => nghttp2_session_get_stream_user_data engine id

/-- A server session whose engine holds stream 1 with nothing attached and
stream 3 with a wrapper attached. -/
def sampleSession : Http2Session :=
  { type_ := 0
    session_ := some
      { streams := [(1, none), (3, some { object := 0, stream_id_ := 3 })], server := true }
    emitted := []
    objects := 1 }

/-- A HEADERS frame on the given stream that opens a request. -/
def sampleFrame (stream_id : Int) : nghttp2_frame :=
  { hd := { length := 0, stream_id := stream_id, type := 1, flags := 4 }
    headers_cat := 0
    rst_stream_error_code := 0
    goaway_error_code := 0
    goaway_last_stream_id := 0
    goaway_opaque_data := []
    data_padlen := 0 }

/-! ## The callbacks the engine invokes -/

/-- Modelled from the spec: the engine's frame type `NGHTTP2_DATA`, declared in
the engine's header; HTTP/2 (RFC 7540, section 6) numbers the DATA frame 0. -/
def NGHTTP2_DATA : Nat := 0

/-- Modelled from the spec: the engine's frame type `NGHTTP2_HEADERS`; HTTP/2
numbers the HEADERS frame 1. -/
def NGHTTP2_HEADERS : Nat := 1

/-- Modelled from the spec: the engine's frame type `NGHTTP2_RST_STREAM`;
HTTP/2 numbers the RST_STREAM frame 3. -/
def NGHTTP2_RST_STREAM : Nat := 3

/-- Modelled from the spec: the engine's frame type `NGHTTP2_GOAWAY`; HTTP/2
numbers the GOAWAY frame 7. -/
def NGHTTP2_GOAWAY : Nat := 7

/-- The ways a piece of the binding stops short of returning: a `CHECK` whose
condition is false aborts the process; a member reached through a null
pointer, the engine called with a null session handle, a stream pointer of a
released engine, and an element access outside a vector have no defined
behaviour; and a callback has nobody to invoke it without an engine. -/
inductive Fault
  | checkFailed
  | nullDereference
  | nullHandle
  | releasedStream
  | vector (fault : VectorFault)
  | noEngine
  deriving DecidableEq, Repr

/-- The callback `Http2Session::send`: it emits `send` with a copy of the bytes
and returns their number. -/
def Http2Session.send (session_obj : Http2Session) (data : List Nat) (_flags : Int) :
    Except Fault (Http2Session × Int) :=
  .ok (EMIT session_obj (Event.send data), (data.length : Int))

/-- The function `Http2Session::on_rst_stream_frame`. -/
def Http2Session.on_rst_stream_frame (session : Http2Session) (id : Int)
    (_hd : nghttp2_frame_hd) (rst_error_code : Nat) : Except Fault (Http2Session × Int) :=
  .ok (EMIT session (Event.rst_stream id rst_error_code), 0)

/-- The function `Http2Session::on_goaway_frame`, given the members of the
GOAWAY frame: the opaque data is copied when its length is positive and is
`undefined` otherwise. -/
def Http2Session.on_goaway_frame (session : Http2Session) (_hd : nghttp2_frame_hd)
    (error_code : Nat) (last_stream_id : Int) (opaque_data : List Nat) :
    Except Fault (Http2Session × Int) :=
  let copied : Option (List Nat) := if opaque_data.length > 0 then some opaque_data else none
  .ok (EMIT session (Event.goaway error_code last_stream_id copied), 0)

/-- The function `Http2Session::on_data_frame`; `stream` is the pointer it is
handed, `none` when null.  It reaches `stream->object()` without a test. -/
def Http2Session.on_data_frame (session : Http2Session) (stream : Option Http2Stream)
    (hd : nghttp2_frame_hd) (data_padlen : Nat) : Except Fault (Http2Session × Int) :=
  match stream with
  | none => .error Fault.nullDereference
  | some stream =>
    .ok (EMIT session (Event.data stream hd.flags (toInt32 hd.length) (toInt32 data_padlen)), 0)

/-- The callback `Http2Session::on_data_chunk_recv`; `session` is the engine.
It reaches `stream->object()` without a test of the looked-up pointer. -/
def Http2Session.on_data_chunk_recv (session : nghttp2_session) (flags : Nat)
    (stream_id : Int) (data : List Nat) (session_obj : Http2Session) :
    Except Fault (Http2Session × Int) :=
  match nghttp2_session_get_stream_user_data session stream_id with
  | none => .error Fault.nullDereference
  | some stream => .ok (EMIT session_obj (Event.data_chunk stream flags data), 0)

/-- The function `Http2Session::on_headers_frame`; `stream` is the pointer it
is handed, `none` when null.  It reaches `stream->object()` without a test. -/
def Http2Session.on_headers_frame (session : Http2Session) (stream : Option Http2Stream)
    (hd : nghttp2_frame_hd) : Except Fault (Http2Session × Int) :=
  match stream with
  | none => .error Fault.nullDereference
  | some stream => .ok (EMIT session (Event.headers_complete stream hd.flags), 0)

/-- The callback `Http2Session::on_frame_recv`; `session` is the engine.  The
`switch` on the frame type has four cases and a `default` that returns 0. -/
def Http2Session.on_frame_recv (session : nghttp2_session) (frame : nghttp2_frame)
    (session_obj : Http2Session) : Except Fault (Http2Session × Int) :=
  if frame.hd.type = NGHTTP2_RST_STREAM then
    session_obj.on_rst_stream_frame frame.hd.stream_id frame.hd frame.rst_stream_error_code
  else if frame.hd.type = NGHTTP2_GOAWAY then
    session_obj.on_goaway_frame frame.hd frame.goaway_error_code frame.goaway_last_stream_id
      frame.goaway_opaque_data
  else if frame.hd.type = NGHTTP2_DATA then
    let stream_data := nghttp2_session_get_stream_user_data session frame.hd.stream_id
    session_obj.on_data_frame stream_data frame.hd frame.data_padlen
  else if frame.hd.type = NGHTTP2_HEADERS then
    let stream_data := nghttp2_session_get_stream_user_data session frame.hd.stream_id
    session_obj.on_headers_frame stream_data frame.hd
  else
    .ok (session_obj, 0)

/-- The callback `Http2Session::on_stream_close`; `session` is the engine. -/
def Http2Session.on_stream_close (session : nghttp2_session) (stream_id : Int)
    (error_code : Nat) (session_obj : Http2Session) : Except Fault (Http2Session × Int) :=
  match nghttp2_session_get_stream_user_data session stream_id with
  | none => .ok (session_obj, 0)
  | some stream_data => .ok (EMIT session_obj (Event.stream_close stream_data error_code), 0)

/-- The callback `Http2Session::on_header`; `session` is the engine.  The
`CHECK(stream_data != nullptr)` comes before the event. -/
def Http2Session.on_header (session : nghttp2_session) (frame : nghttp2_frame)
    (name value : List Nat) (_flags : Nat) (session_obj : Http2Session) :
    Except Fault (Http2Session × Int) :=
  match nghttp2_session_get_stream_user_data session frame.hd.stream_id with
  | none => .error Fault.checkFailed
  | some stream_data => .ok (EMIT session_obj (Event.header stream_data name value), 0)

/-- The callback `Http2Session::on_frame_send`. -/
def Http2Session.on_frame_send (frame : nghttp2_frame) (session_obj : Http2Session) :
    Except Fault (Http2Session × Int) :=
  .ok (EMIT session_obj
    (Event.frame_sent (toUint32 frame.hd.stream_id) frame.hd.type frame.hd.flags), 0)

/-- The callback `Http2Session::select_padding`: it returns the length of the
frame and emits nothing. -/
def Http2Session.select_padding (frame : nghttp2_frame) (_max_payloadlen : Nat)
    (session_obj : Http2Session) : Except Fault (Http2Session × Int) :=
  .ok (session_obj, (frame.hd.length : Int))

/-- One invocation of an entry of the callback table that the constructor
`Http2Session::Http2Session` registers with `SET_SESSION_CALLBACK`, with the
arguments the engine passes. -/
inductive Callback
  | send (data : List Nat) (flags : Int)
  | on_frame_recv (frame : nghttp2_frame)
  | on_stream_close (stream_id : Int) (error_code : Nat)
  | on_header (frame : nghttp2_frame) (name value : List Nat) (flags : Nat)
  | on_begin_headers (frame : nghttp2_frame)
  | on_data_chunk_recv (flags : Nat) (stream_id : Int) (data : List Nat)
  | on_frame_send (frame : nghttp2_frame)
  | select_padding (frame : nghttp2_frame) (max_payloadlen : Nat)
  deriving DecidableEq, Repr

/-- The engine invoking one callback of the table on the wrapper it was given
as user data; the engine passes itself as `session`. -/
def Http2Session.dispatch (session_obj : Http2Session) (callback : Callback) :
    Except Fault (Http2Session × Int) :=
  match session_obj.session_ with
  | none => .error Fault.noEngine
  | some session =>
    match callback with
    | .send data flags => session_obj.send data flags
    | .on_frame_recv frame => Http2Session.on_frame_recv session frame session_obj
    | .on_stream_close stream_id error_code =>
      Http2Session.on_stream_close session stream_id error_code session_obj
    | .on_header frame name value flags =>
      Http2Session.on_header session frame name value flags session_obj
    | .on_begin_headers frame =>
      match session_obj.on_begin_headers frame with
      | none => .error Fault.noEngine
      | some result => .ok result
    | .on_data_chunk_recv flags stream_id data =>
      Http2Session.on_data_chunk_recv session flags stream_id data session_obj
    | .on_frame_send frame => Http2Session.on_frame_send frame session_obj
    | .select_padding frame max_payloadlen =>
      Http2Session.select_padding frame max_payloadlen session_obj

/-- The engine invoking a sequence of callbacks, one after the other; a fault
ends the sequence. -/
def Http2Session.dispatchAll (session_obj : Http2Session) :
    List Callback → Except Fault Http2Session
  | [] => .ok session_obj
  | callback :: rest =>
    match session_obj.dispatch callback with
    | .error fault => .error fault
    | .ok (session_obj, _) => session_obj.dispatchAll rest

/-- Whether an invocation is of a kind for which the source emits nothing on
any path: `select_padding`, and a received frame whose type is none of
RST_STREAM, GOAWAY, DATA and HEADERS. -/
def Callback.neverEmits : Callback → Bool
  | .select_padding _ _ => true
  | .on_frame_recv frame =>
    !(frame.hd.type = NGHTTP2_RST_STREAM || frame.hd.type = NGHTTP2_GOAWAY ||
      frame.hd.type = NGHTTP2_DATA || frame.hd.type = NGHTTP2_HEADERS)
  | _ => false

/-- Whether an invocation of `on_stream_close`, the one callback that skips its
event when no wrapper is attached to the stream. -/
def Callback.isStreamClose : Callback → Bool
  | .on_stream_close _ _ => true
  | _ => false

/-- The event the spec's table (section 4.6) derives from an invocation,
compared on the arguments that come from the invocation itself: the event is
of the kind of the callback and carries the callback's values. -/
def Callback.derives : Callback → Event → Bool
  | .send data _, .send buffer => buffer = data
  | .on_frame_recv frame, .rst_stream id error_code =>
    frame.hd.type = NGHTTP2_RST_STREAM && id = frame.hd.stream_id &&
      error_code = frame.rst_stream_error_code
  | .on_frame_recv frame, .goaway error_code last_stream_id _ =>
    frame.hd.type = NGHTTP2_GOAWAY && error_code = frame.goaway_error_code &&
      last_stream_id = frame.goaway_last_stream_id
  | .on_frame_recv frame, .data _ flags _ _ =>
    frame.hd.type = NGHTTP2_DATA && flags = frame.hd.flags
  | .on_frame_recv frame, .headers_complete _ flags =>
    frame.hd.type = NGHTTP2_HEADERS && flags = frame.hd.flags
  | .on_stream_close _ error_code, .stream_close _ code => code = error_code
  | .on_header _ name value _, .header _ n v => n = name && v = value
  | .on_begin_headers frame, .begin_headers _ cat => cat = frame.headers_cat
  | .on_data_chunk_recv flags _ data, .data_chunk _ f buffer => f = flags && buffer = data
  | .on_frame_send frame, .frame_sent stream_id type flags =>
    stream_id = toUint32 frame.hd.stream_id && type = frame.hd.type && flags = frame.hd.flags
  | _, _ => false

/-- Whether an invocation emits an event in the state it finds: every kind
does, except the two that never do and a stream close for a stream to which no
wrapper is attached. -/
def Callback.emitsOn (session_obj : Http2Session) (callback : Callback) : Bool :=
  match callback with
  | .on_stream_close stream_id _ => (session_obj.GetStream stream_id).isSome
  | _ => !callback.neverEmits

/-- What a list of events has to be for it to be the share of one invocation:
at most one event, none for the kinds that never emit, exactly one for every
other kind but the stream close, and every event derived from the invocation. -/
def Callback.accountsFor (callback : Callback) (events : List Event) : Prop :=
  events.length ≤ 1 ∧
  (callback.neverEmits = true → events = []) ∧
  (callback.neverEmits = false → callback.isStreamClose = false → events.length = 1) ∧
  ∀ e ∈ events, callback.derives e = true

/-- The stream whose wrapper an invocation reaches through the looked-up
pointer without being able to construct one: the stream of a header, of a data
chunk, and of a received DATA or HEADERS frame. -/
def Callback.needsStream : Callback → Option Int
  | .on_header frame _ _ _ => some frame.hd.stream_id
  | .on_data_chunk_recv _ stream_id _ => some stream_id
  | .on_frame_recv frame =>
    if frame.hd.type = NGHTTP2_RST_STREAM then none
    else if frame.hd.type = NGHTTP2_GOAWAY then none
    else if frame.hd.type = NGHTTP2_DATA then some frame.hd.stream_id
    else if frame.hd.type = NGHTTP2_HEADERS then some frame.hd.stream_id
    else none
  | _ => none

/-- A DATA frame on the given stream. -/
def sampleDataFrame (stream_id : Int) : nghttp2_frame :=
  { sampleFrame stream_id with hd := { length := 5, stream_id := stream_id, type := 0, flags := 1 } }

/-- A SETTINGS frame (type 4), which belongs to the connection. -/
def sampleSettingsFrame : nghttp2_frame :=
  { sampleFrame 0 with hd := { length := 0, stream_id := 0, type := 4, flags := 0 } }

/-! ## Calls into the engine and what a method leaves behind -/

/-- Modelled from the spec: the engine's record `nghttp2_nv`, one header as the
engine takes it: the bytes of the name, the bytes of the value and the flags. -/
structure nghttp2_nv where
  name : List Nat
  value : List Nat
  flags : Nat
  deriving DecidableEq, Repr

/-- Modelled from the spec: an element of the host array handed over as a
header list, seen the way `GetHeaders` tests it: an object that wraps an
`Http2Header`, an object that wraps none, or a value that is no object.  The
host's value type is not part of the sources at hand. -/
inductive HeaderItem
  | header (nv : nghttp2_nv)
  | otherObject
  | notObject
  deriving DecidableEq, Repr

/-- Modelled from the spec: the argument a method collects its headers from,
a host array or any other value. -/
inductive HeaderList
  | array (items : List HeaderItem)
  | notArray
  deriving DecidableEq, Repr

/-- The loop of `GetHeaders` over the elements of the array.  The macro
`ASSIGN_OR_RETURN_UNWRAP` is defined outside the sources at hand and is read
by its name: it leaves the function when the object wraps nothing. -/
def GetHeadersLoop : List HeaderItem → List nghttp2_nv → List nghttp2_nv
  | [], vector => vector
  | .notObject :: rest, vector => GetHeadersLoop rest vector
  | .otherObject :: _, vector => vector
  | .header nv :: rest, vector => GetHeadersLoop rest (vector ++ [nv])

/-- The function `GetHeaders(obj, vector)`. -/
def GetHeaders (obj : HeaderList) (vector : List nghttp2_nv) : List nghttp2_nv :=
  match obj with
  | .array items => GetHeadersLoop items vector
  | .notArray => vector

/-- Modelled from the spec: the argument a method expects an
`Http2DataProvider` in: an object that wraps one (named by a number), an
object that wraps none, or a value that is no object. -/
inductive ProviderArg
  | provider (id : Nat)
  | otherObject
  | notObject
  deriving DecidableEq, Repr

/-- The conversion `value->Int32Value()`: the number brought into the signed
32-bit range. -/
def Value.Int32Value (value : Value) : Int :=
  toInt32 value.Uint32Value

/-- One call of the binding into the engine, named after the engine function,
with the arguments that tell the calls apart. -/
inductive EngineCall
  | nghttp2_stream_get_state (stream_id : Int)
  | nghttp2_stream_get_sum_dependency_weight (stream_id : Int)
  | nghttp2_stream_get_weight (stream_id : Int)
  | nghttp2_session_get_stream_local_window_size (stream_id : Int)
  | nghttp2_session_set_local_window_size (stream_id : Int) (size : Int)
  | nghttp2_session_get_stream_local_close (stream_id : Int)
  | nghttp2_session_get_stream_remote_close (stream_id : Int)
  | nghttp2_submit_trailer (stream_id : Int) (nva : List nghttp2_nv)
  | nghttp2_session_resume_data (stream_id : Int)
  | nghttp2_submit_headers (stream_id : Int) (nva : List nghttp2_nv)
  | nghttp2_submit_response (stream_id : Int) (nva : List nghttp2_nv) (provider : Option Nat)
  | nghttp2_submit_data (flags : Nat) (stream_id : Int) (provider : Nat)
  | nghttp2_submit_rst_stream (stream_id : Int) (error_code : Nat)
  | nghttp2_submit_priority (stream_id : Int) (pri_spec : nghttp2_priority_spec)
  | nghttp2_session_change_stream_priority (stream_id : Int) (pri_spec : nghttp2_priority_spec)
  | nghttp2_session_check_server_session
  | nghttp2_submit_push_promise (stream_id : Int) (nva : List nghttp2_nv)
  | nghttp2_session_find_stream (stream_id : Int)
  | nghttp2_session_get_stream_user_data (stream_id : Int)
  | nghttp2_session_set_stream_user_data (stream_id : Int)
  | nghttp2_session_want_read
  | nghttp2_session_want_write
  | nghttp2_session_get_effective_local_window_size
  | nghttp2_session_get_effective_recv_data_length
  | nghttp2_session_get_next_stream_id
  | nghttp2_session_set_next_stream_id (id : Int)
  | nghttp2_session_get_local_window_size
  | nghttp2_session_get_last_proc_stream_id
  | nghttp2_session_get_remote_window_size
  | nghttp2_session_get_outbound_queue_size
  | nghttp2_session_get_hd_deflate_dynamic_table_size
  | nghttp2_session_get_hd_inflate_dynamic_table_size
  | nghttp2_session_get_local_settings (id : nghttp2_settings_id)
  | nghttp2_session_get_remote_settings (id : nghttp2_settings_id)
  | nghttp2_submit_settings (iv : List nghttp2_settings_entry)
  | nghttp2_session_del
  | nghttp2_session_terminate_session2 (last_stream_id : Nat) (error_code : Nat)
  | nghttp2_session_terminate_session (error_code : Nat)
  | nghttp2_session_send
  | nghttp2_submit_shutdown_notice
  | nghttp2_session_create_idle_stream (stream_id : Int) (pri_spec : nghttp2_priority_spec)
  | nghttp2_session_mem_recv (data : List Nat)
  deriving DecidableEq, Repr

/-- What a method sets as its return value: a signed number, an unsigned
number, a boolean, the host object of a stream, or a settings object. -/
inductive ReturnValue
  | integer (n : Int)
  | unsigned (n : Nat)
  | boolean (b : Bool)
  | stream (stream : Http2Stream)
  | settings (settings : Http2Settings)
  deriving DecidableEq, Repr

/-- What a method called by the host leaves behind when it returns: the
session wrapper afterwards, the return value it set (if it set one), the error
it threw (if it threw one) and the calls its own body (and `create_stream`,
where it calls that) made into the engine, in order.  What the callbacks ask
the engine while an engine call runs is not listed. -/
structure Completion where
  session : Http2Session
  returned : Option ReturnValue
  thrown : Option String
  calls : List EngineCall
  deriving DecidableEq, Repr

/-- A method that returns at once: nothing returned, nothing thrown, no call
into the engine, the session as it was. -/
def Completion.nothing (session : Http2Session) : Completion :=
  { session := session, returned := none, thrown := none, calls := [] }

/-- A method that makes the given calls and sets the given return value. -/
def Completion.value (session : Http2Session) (value : ReturnValue)
    (calls : List EngineCall) : Completion :=
  { session := session, returned := some value, thrown := none, calls := calls }

/-- A method that makes the given calls and throws the given error. -/
def Completion.error (session : Http2Session) (message : String)
    (calls : List EngineCall) : Completion :=
  { session := session, returned := none, thrown := some message, calls := calls }

/-- The expression `&v[0]` on a `std::vector`, as the methods evaluate it
before they hand the vector to the engine. -/
def firstElement {α : Type} (v : List α) : Except Fault α :=
  match vectorAt v 0 with
  | .ok a => .ok a
  | .error fault => .error (Fault.vector fault)

/-! ## Http2Stream: accessors and submissions

Each method is given what the engine answers to the calls it makes
(`reply`), the stream wrapper it is called on and the session wrapper the
stream belongs to (`stream->session()`). -/

namespace Http2Stream

/-- The accessor `Http2Stream::GetState`.  There is no test of the session: the
engine's own stream pointer `**stream`, looked up when the wrapper was
constructed, is handed to the engine; once the engine is released it points
into released memory. -/
def GetState (reply : EngineCall → Int) (stream : Http2Stream) (session : Http2Session) :
    Except Fault Completion :=
  match session.session_ with
  | none => .error Fault.releasedStream
  | some _ =>
    let call := EngineCall.nghttp2_stream_get_state stream.stream_id_
    .ok (Completion.value session (.integer (reply call)) [call])

/-- The accessor `Http2Stream::GetSumDependencyWeight`, which has no test of
the session either. -/
def GetSumDependencyWeight (reply : EngineCall → Int) (stream : Http2Stream)
    (session : Http2Session) : Except Fault Completion :=
  match session.session_ with
  | none => .error Fault.releasedStream
  | some _ =>
    let call := EngineCall.nghttp2_stream_get_sum_dependency_weight stream.stream_id_
    .ok (Completion.value session (.integer (reply call)) [call])

/-- The accessor `Http2Stream::GetWeight`, which has no test of the session
either. -/
def GetWeight (reply : EngineCall → Int) (stream : Http2Stream) (session : Http2Session) :
    Except Fault Completion :=
  match session.session_ with
  | none => .error Fault.releasedStream
  | some _ =>
    let call := EngineCall.nghttp2_stream_get_weight stream.stream_id_
    .ok (Completion.value session (.integer (reply call)) [call])

/-- The accessor `Http2Stream::GetLocalWindowSize`. -/
def GetLocalWindowSize (reply : EngineCall → Int) (stream : Http2Stream)
    (session : Http2Session) : Except Fault Completion :=
  if session.sessionIsNull then .ok (Completion.nothing session)
  else
    let call := EngineCall.nghttp2_session_get_stream_local_window_size stream.stream_id_
    .ok (Completion.value session (.integer (reply call)) [call])

/-- The setter `Http2Stream::SetLocalWindowSize`. -/
def SetLocalWindowSize (stream : Http2Stream) (session : Http2Session) (value : Value) :
    Except Fault Completion :=
  if session.sessionIsNull then .ok (Completion.nothing session)
  else
    .ok { Completion.nothing session with
      calls := [.nghttp2_session_set_local_window_size stream.stream_id_ value.Int32Value] }

/-- The accessor `Http2Stream::GetStreamLocalClose`. -/
def GetStreamLocalClose (reply : EngineCall → Int) (stream : Http2Stream)
    (session : Http2Session) : Except Fault Completion :=
  if session.sessionIsNull then .ok (Completion.nothing session)
  else
    let call := EngineCall.nghttp2_session_get_stream_local_close stream.stream_id_
    .ok (Completion.value session (.integer (reply call)) [call])

/-- The accessor `Http2Stream::GetStreamRemoteClose`. -/
def GetStreamRemoteClose (reply : EngineCall → Int) (stream : Http2Stream)
    (session : Http2Session) : Except Fault Completion :=
  if session.sessionIsNull then .ok (Completion.nothing session)
  else
    let call := EngineCall.nghttp2_session_get_stream_remote_close stream.stream_id_
    .ok (Completion.value session (.integer (reply call)) [call])

/-- The method `Http2Stream::SendTrailers`. -/
def SendTrailers (reply : EngineCall → Int) (stream : Http2Stream) (session : Http2Session)
    (arg0 : HeaderList) : Except Fault Completion :=
  if session.sessionIsNull then .ok (Completion.nothing session)
  else
    let headers := GetHeaders arg0 []
    match firstElement headers with
    | .error fault => .error fault
    | .ok _ =>
      let call := EngineCall.nghttp2_submit_trailer stream.stream_id_ headers
      .ok (Completion.value session (.integer (reply call)) [call])

/-- The method `Http2Stream::ResumeData`.  Modelled from the spec:
`IsLocalOpen` is declared in a header that is not part of the sources at hand,
so what it answers ("the stream's local side is still open") is the parameter
`localOpen`, and whatever it asks the engine in order to answer is not among
the calls listed. -/
def ResumeData (reply : EngineCall → Int) (localOpen : Bool) (stream : Http2Stream)
    (session : Http2Session) : Except Fault Completion :=
  if session.sessionIsNull then .ok (Completion.nothing session)
  else if localOpen then
    let state := EngineCall.nghttp2_stream_get_state stream.stream_id_
    let call := EngineCall.nghttp2_session_resume_data stream.stream_id_
    .ok (Completion.value session (.integer (reply call)) [state, call])
  else
    .ok (Completion.value session (.integer 0) [])

/-- Modelled from the spec: the one header `SendContinue` submits, written in
the source with the macros `MAKE_NV` and `HTTP2_HEADER_STATUS` of the missing
header: "a provisional 100-status HEADERS frame", the name `:status` and the
value `100`. -/
def continueHeaders : List nghttp2_nv :=
  [{ name := [58, 115, 116, 97, 116, 117, 115], value := [49, 48, 48], flags := 0 }]

/-- The method `Http2Stream::SendContinue`. -/
def SendContinue (reply : EngineCall → Int) (stream : Http2Stream) (session : Http2Session) :
    Except Fault Completion :=
  if session.sessionIsNull then .ok (Completion.nothing session)
  else
    let headers := continueHeaders
    let call := EngineCall.nghttp2_submit_headers stream.stream_id_ headers
    .ok (Completion.value session (.integer (reply call)) [call])

/-- The method `Http2Stream::Respond`; `arg1` is `none` when fewer than two
arguments are passed. -/
def Respond (reply : EngineCall → Int) (stream : Http2Stream) (session : Http2Session)
    (arg0 : HeaderList) (arg1 : Option ProviderArg) : Except Fault Completion :=
  if session.sessionIsNull then .ok (Completion.nothing session)
  else
    let headers := GetHeaders arg0 []
    let submit := fun (provider : Option Nat) =>
      match firstElement headers with
      | .error fault => Except.error fault
      | .ok _ =>
        let call := EngineCall.nghttp2_submit_response stream.stream_id_ headers provider
        .ok (Completion.value session (.integer (reply call)) [call])
    match arg1 with
    | none => submit none
    | some .notObject =>
      .ok (Completion.error session "Second argument must be an Http2DataProvider object" [])
    | some .otherObject => .ok (Completion.nothing session)
    | some (.provider dataProvider) => submit (some dataProvider)

/-- Modelled from the spec: the engine's flag `NGHTTP2_FLAG_END_STREAM`,
declared in the engine's header; HTTP/2 (RFC 7540, section 6.1) gives the
END_STREAM flag the bit 0x1. -/
def NGHTTP2_FLAG_END_STREAM : Nat := 1

/-- The method `Http2Stream::SendDataFrame`. -/
def SendDataFrame (reply : EngineCall → Int) (stream : Http2Stream) (session : Http2Session)
    (arg0 : Value) (arg1 : ProviderArg) : Except Fault Completion :=
  if session.sessionIsNull then .ok (Completion.nothing session)
  else
    let flags : Nat := if arg0.BooleanValue then 0 ||| NGHTTP2_FLAG_END_STREAM else 0
    match arg1 with
    | .notObject =>
      .ok (Completion.error session "Second argument must be an Http2DataProvider object" [])
    | .otherObject => .ok (Completion.nothing session)
    | .provider provider =>
      let call := EngineCall.nghttp2_submit_data flags stream.stream_id_ provider
      .ok (Completion.value session (.integer (reply call)) [call])

/-- The method `Http2Stream::SendRstStream`. -/
def SendRstStream (reply : EngineCall → Int) (stream : Http2Stream) (session : Http2Session)
    (arg0 : Value) : Except Fault Completion :=
  if session.sessionIsNull then .ok (Completion.nothing session)
  else
    let call := EngineCall.nghttp2_submit_rst_stream stream.stream_id_ arg0.Uint32Value
    .ok (Completion.value session (.integer (reply call)) [call])

/-- The method `Http2Stream::SendPriority`. -/
def SendPriority (reply : EngineCall → Int) (stream : Http2Stream) (session : Http2Session)
    (arg0 arg1 arg2 : Value) : Except Fault Completion :=
  if session.sessionIsNull then .ok (Completion.nothing session)
  else
    let priority := Http2Priority.new arg0.Int32Value arg1.Int32Value arg2.BooleanValue
    let call := EngineCall.nghttp2_submit_priority stream.stream_id_ priority.spec_
    .ok (Completion.value session (.integer (reply call)) [call])

/-- The method `Http2Stream::ChangeStreamPriority`. -/
def ChangeStreamPriority (reply : EngineCall → Int) (stream : Http2Stream)
    (session : Http2Session) (arg0 arg1 arg2 : Value) : Except Fault Completion :=
  if session.sessionIsNull then .ok (Completion.nothing session)
  else
    let priority := Http2Priority.new arg0.Int32Value arg1.Int32Value arg2.BooleanValue
    let call := EngineCall.nghttp2_session_change_stream_priority stream.stream_id_
      priority.spec_
    .ok (Completion.value session (.integer (reply call)) [call])

end Http2Stream

/-- Modelled from the spec: the engine's `nghttp2_session_check_server_session`,
nonzero for an engine made as a server. -/
def nghttp2_session_check_server_session (session : nghttp2_session) : Int :=
  if session.server then 1 else 0

/-- Modelled from the spec: what the engine's `nghttp2_submit_push_promise`
does to the engine's stream table, given the number it returns.  A positive
number is the id of the promised stream, which the engine has then reserved
(the spec's "newly created (reserved) Stream") with the user data handed over
attached; any other number is a failure and leaves the table as it was. -/
def nghttp2_submit_push_promise (session : nghttp2_session) (returned : Int)
    (promised_stream_user_data : Http2Stream) : nghttp2_session :=
  if returned > 0 then
    { session with streams := session.streams ++ [(returned, some promised_stream_user_data)] }
  else session

/-- The method `Http2Stream::SendPushPromise`.  The calls `create_stream` makes
into the engine close the list of calls. -/
def Http2Stream.SendPushPromise (reply : EngineCall → Int) (stream : Http2Stream)
    (session : Http2Session) (arg0 : HeaderList) : Except Fault Completion :=
  if session.sessionIsNull then .ok (Completion.nothing session)
  else
    match session.session_ with
    | none => .error Fault.nullHandle
    | some engine =>
      if nghttp2_session_check_server_session engine = 0 then
        .ok (Completion.error session "Client Http2Session instances cannot use push"
          [.nghttp2_session_check_server_session])
      else
        let headers := GetHeaders arg0 []
        match firstElement headers with
        | .error fault => .error fault
        | .ok _ =>
          let call := EngineCall.nghttp2_submit_push_promise stream.stream_id_ headers
          let ret := reply call
          let engine := nghttp2_submit_push_promise engine ret stream
          let session := { session with session_ := some engine }
          if ret > 0 then
            match session.create_stream (toUint32 ret) with
            | none => .error Fault.nullHandle
            | some (session, created) =>
              .ok (Completion.value session (.stream created)
                [.nghttp2_session_check_server_session, call,
                  .nghttp2_session_find_stream ret, .nghttp2_session_set_stream_user_data ret])
          else
            .ok (Completion.value session (.integer ret)
              [.nghttp2_session_check_server_session, call])

/-! ## Http2Session: accessors and operations

Each method is given what the engine answers to the calls it makes (`reply`)
and, where the engine call is one during which the engine invokes callbacks,
the invocations it makes (`dispatched`). -/

/-- Modelled from the spec: the argument of `createIdleStream` that names the
stream, seen the way `GetStreamID` tests it: an object that wraps an
`Http2Stream`, an object that wraps none, or any other value. -/
inductive StreamIdArg
  | stream (stream : Http2Stream)
  | otherObject
  | value (value : Value)
  deriving DecidableEq, Repr

/-- The function `GetStreamID(val)`. -/
def GetStreamID (val : StreamIdArg) : Int :=
  match val with
  | .stream stream => stream.stream_id_
  | .otherObject => 0
  | .value value => value.Int32Value

namespace Http2Session

/-- The accessor `Http2Session::GetWantRead`.  There is no test of the handle:
the engine is called with `**session`, whatever it is. -/
def GetWantRead (reply : EngineCall → Int) (session : Http2Session) :
    Except Fault Completion :=
  match session.session_ with
  | none => .error Fault.nullHandle
  | some _ =>
    let call := EngineCall.nghttp2_session_want_read
    .ok (Completion.value session (.boolean (decide (reply call ≠ 0))) [call])

/-- The accessor `Http2Session::GetWantWrite`, which has no test of the handle
either. -/
def GetWantWrite (reply : EngineCall → Int) (session : Http2Session) :
    Except Fault Completion :=
  match session.session_ with
  | none => .error Fault.nullHandle
  | some _ =>
    let call := EngineCall.nghttp2_session_want_write
    .ok (Completion.value session (.boolean (decide (reply call ≠ 0))) [call])

/-- The accessor `Http2Session::GetEffectiveLocalWindowSize`. -/
def GetEffectiveLocalWindowSize (reply : EngineCall → Int) (session : Http2Session) :
    Except Fault Completion :=
  if session.sessionIsNull then .ok (Completion.nothing session)
  else
    let call := EngineCall.nghttp2_session_get_effective_local_window_size
    .ok (Completion.value session (.integer (reply call)) [call])

/-- The accessor `Http2Session::GetEffectiveRecvDataLength`. -/
def GetEffectiveRecvDataLength (reply : EngineCall → Int) (session : Http2Session) :
    Except Fault Completion :=
  if session.sessionIsNull then .ok (Completion.nothing session)
  else
    let call := EngineCall.nghttp2_session_get_effective_recv_data_length
    .ok (Completion.value session (.integer (reply call)) [call])

/-- The accessor `Http2Session::GetNextStreamID`; the engine returns a
`uint32_t`. -/
def GetNextStreamID (reply : EngineCall → Int) (session : Http2Session) :
    Except Fault Completion :=
  if session.sessionIsNull then .ok (Completion.nothing session)
  else
    let call := EngineCall.nghttp2_session_get_next_stream_id
    .ok (Completion.value session (.unsigned (toUint32 (reply call))) [call])

/-- The setter `Http2Session::SetNextStreamID`. -/
def SetNextStreamID (session : Http2Session) (value : Value) : Except Fault Completion :=
  if session.sessionIsNull then .ok (Completion.nothing session)
  else
    let id := value.Int32Value
    .ok { Completion.nothing session with calls := [.nghttp2_session_set_next_stream_id id] }

/-- The accessor `Http2Session::GetLocalWindowSize`. -/
def GetLocalWindowSize (reply : EngineCall → Int) (session : Http2Session) :
    Except Fault Completion :=
  if session.sessionIsNull then .ok (Completion.nothing session)
  else
    let call := EngineCall.nghttp2_session_get_local_window_size
    .ok (Completion.value session (.integer (reply call)) [call])

/-- The setter `Http2Session::SetLocalWindowSize`. -/
def SetLocalWindowSize (session : Http2Session) (value : Value) : Except Fault Completion :=
  if session.sessionIsNull then .ok (Completion.nothing session)
  else
    .ok { Completion.nothing session with
      calls := [.nghttp2_session_set_local_window_size 0 value.Int32Value] }

/-- The accessor `Http2Session::GetLastProcStreamID`. -/
def GetLastProcStreamID (reply : EngineCall → Int) (session : Http2Session) :
    Except Fault Completion :=
  if session.sessionIsNull then .ok (Completion.nothing session)
  else
    let call := EngineCall.nghttp2_session_get_last_proc_stream_id
    .ok (Completion.value session (.integer (reply call)) [call])

/-- The accessor `Http2Session::GetRemoteWindowSize`. -/
def GetRemoteWindowSize (reply : EngineCall → Int) (session : Http2Session) :
    Except Fault Completion :=
  if session.sessionIsNull then .ok (Completion.nothing session)
  else
    let call := EngineCall.nghttp2_session_get_remote_window_size
    .ok (Completion.value session (.integer (reply call)) [call])

/-- The accessor `Http2Session::GetOutboundQueueSize`; the engine returns a
`size_t`, which `Integer::New` takes as a signed 32-bit number. -/
def GetOutboundQueueSize (reply : EngineCall → Int) (session : Http2Session) :
    Except Fault Completion :=
  if session.sessionIsNull then .ok (Completion.nothing session)
  else
    let call := EngineCall.nghttp2_session_get_outbound_queue_size
    let size := (reply call).toNat
    .ok (Completion.value session (.integer (toInt32 size)) [call])

/-- The accessor `Http2Session::GetDeflateDynamicTableSize`. -/
def GetDeflateDynamicTableSize (reply : EngineCall → Int) (session : Http2Session) :
    Except Fault Completion :=
  if session.sessionIsNull then .ok (Completion.nothing session)
  else
    let call := EngineCall.nghttp2_session_get_hd_deflate_dynamic_table_size
    let size := (reply call).toNat
    .ok (Completion.value session (.integer (toInt32 size)) [call])

/-- The accessor `Http2Session::GetInflateDynamicTableSize`. -/
def GetInflateDynamicTableSize (reply : EngineCall → Int) (session : Http2Session) :
    Except Fault Completion :=
  if session.sessionIsNull then .ok (Completion.nothing session)
  else
    let call := EngineCall.nghttp2_session_get_hd_inflate_dynamic_table_size
    let size := (reply call).toNat
    .ok (Completion.value session (.integer (toInt32 size)) [call])

/-- What the engine reports for the settings of either side, read off its
answers to the accessor calls. -/
def settingsView (reply : EngineCall → Int) : nghttp2_settings_view :=
  { nghttp2_session_get_local_settings := fun id =>
      toUint32 (reply (.nghttp2_session_get_local_settings id))
    nghttp2_session_get_remote_settings := fun id =>
      toUint32 (reply (.nghttp2_session_get_remote_settings id)) }

/-- The six identifiers in the order in which the constructor of
`Http2Settings` asks the engine for them. -/
def snapshotOrder : List nghttp2_settings_id :=
  [NGHTTP2_SETTINGS_HEADER_TABLE_SIZE, NGHTTP2_SETTINGS_ENABLE_PUSH,
    NGHTTP2_SETTINGS_MAX_CONCURRENT_STREAMS, NGHTTP2_SETTINGS_INITIAL_WINDOW_SIZE,
    NGHTTP2_SETTINGS_MAX_FRAME_SIZE, NGHTTP2_SETTINGS_MAX_HEADER_LIST_SIZE]

/-- The accessor `Http2Session::GetLocalSettings`. -/
def GetLocalSettings (reply : EngineCall → Int) (session : Http2Session) :
    Except Fault Completion :=
  if session.sessionIsNull then .ok (Completion.nothing session)
  else
    .ok (Completion.value session
      (.settings (Http2Settings.new (some (settingsView reply)) true))
      (snapshotOrder.map EngineCall.nghttp2_session_get_local_settings))

/-- The accessor `Http2Session::GetRemoteSettings`. -/
def GetRemoteSettings (reply : EngineCall → Int) (session : Http2Session) :
    Except Fault Completion :=
  if session.sessionIsNull then .ok (Completion.nothing session)
  else
    .ok (Completion.value session
      (.settings (Http2Settings.new (some (settingsView reply)) false))
      (snapshotOrder.map EngineCall.nghttp2_session_get_remote_settings))

/-- The setter `Http2Session::SetLocalSettings`; `value` is `none` when the
object handed over wraps no `Http2Settings`. -/
def SetLocalSettings (session : Http2Session) (value : Option Http2Settings) :
    Except Fault Completion :=
  if session.sessionIsNull then .ok (Completion.nothing session)
  else
    match value with
    | none => .ok (Completion.nothing session)
    | some settings =>
      let entries := settings.CollectSettings
      match firstElement entries with
      | .error fault => .error fault
      | .ok _ =>
        .ok { Completion.nothing session with calls := [.nghttp2_submit_settings entries] }

/-- The method `Http2Session::Destroy`. -/
def Destroy (session : Http2Session) : Except Fault Completion :=
  if session.sessionIsNull then .ok (Completion.nothing session)
  else
    let session := { session with session_ := none }
    let session := EMIT session Event.destroy
    .ok { Completion.nothing session with calls := [.nghttp2_session_del] }

/-- The method `Http2Session::Terminate`.  The engine invokes callbacks while
`nghttp2_session_send` runs. -/
def Terminate (reply : EngineCall → Int) (dispatched : List Callback)
    (session : Http2Session) (arg0 : Value) : Except Fault Completion :=
  if session.sessionIsNull then .ok (Completion.nothing session)
  else
    let error_code := arg0.Uint32Value
    let last_proc := toUint32 (reply .nghttp2_session_get_last_proc_stream_id)
    let submit :=
      if last_proc > 0 then EngineCall.nghttp2_session_terminate_session2 last_proc error_code
      else EngineCall.nghttp2_session_terminate_session error_code
    let rv := reply submit
    if rv = 0 then
      match session.dispatchAll dispatched with
      | .error fault => .error fault
      | .ok session =>
        .ok (Completion.value session (.integer (reply .nghttp2_session_send))
          [.nghttp2_session_get_last_proc_stream_id, submit, .nghttp2_session_send])
    else
      .ok (Completion.value session (.integer rv)
        [.nghttp2_session_get_last_proc_stream_id, submit])

/-- The method `Http2Session::GracefulTerminate`. -/
def GracefulTerminate (reply : EngineCall → Int) (dispatched : List Callback)
    (session : Http2Session) : Except Fault Completion :=
  if session.sessionIsNull then .ok (Completion.nothing session)
  else
    let rv := reply .nghttp2_submit_shutdown_notice
    if rv = 0 then
      match session.dispatchAll dispatched with
      | .error fault => .error fault
      | .ok session =>
        .ok (Completion.value session (.integer (reply .nghttp2_session_send))
          [.nghttp2_submit_shutdown_notice, .nghttp2_session_send])
    else
      .ok (Completion.value session (.integer rv) [.nghttp2_submit_shutdown_notice])

/-- The method `Http2Session::CreateIdleStream`. -/
def CreateIdleStream (reply : EngineCall → Int) (session : Http2Session)
    (arg0 : StreamIdArg) (arg1 arg2 arg3 : Value) : Except Fault Completion :=
  if session.sessionIsNull then .ok (Completion.nothing session)
  else
    let priority := Http2Priority.new arg1.Int32Value arg2.Int32Value arg3.BooleanValue
    let call := EngineCall.nghttp2_session_create_idle_stream (GetStreamID arg0) priority.spec_
    .ok (Completion.value session (.integer (reply call)) [call])

/-- Modelled from the spec: `WantReadOrWrite` is declared in a header that is
not part of the sources at hand; by the spec the can-close notification goes
out when "the engine no longer wants to read or write", so it is the
disjunction of the engine's two answers. -/
def WantReadOrWrite (reply : EngineCall → Int) : Bool :=
  decide (reply .nghttp2_session_want_read ≠ 0) ||
    decide (reply .nghttp2_session_want_write ≠ 0)

/-- The method `Http2Session::ReceiveData`; `arg0` is `none` when the argument
is no buffer, in which case the macro `THROW_AND_RETURN_UNLESS_BUFFER`, defined
outside the sources at hand and read by its name, throws and returns.  The
engine invokes callbacks while `nghttp2_session_mem_recv` runs; the number it
returns is set through `Integer::NewFromUnsigned`. -/
def ReceiveData (reply : EngineCall → Int) (dispatched : List Callback)
    (session : Http2Session) (arg0 : Option (List Nat)) : Except Fault Completion :=
  if session.session_.isNone then .ok (Completion.nothing session)
  else
    match arg0 with
    | none => .ok (Completion.error session "argument should be a Buffer" [])
    | some data =>
      match session.dispatchAll dispatched with
      | .error fault => .error fault
      | .ok session =>
        let call := EngineCall.nghttp2_session_mem_recv data
        let readlen := reply call
        let session := if !WantReadOrWrite reply then EMIT session Event.canClose else session
        .ok (Completion.value session (.unsigned (toUint32 readlen))
          [call, .nghttp2_session_want_read, .nghttp2_session_want_write])

/-- The method `Http2Session::SendData`.  The engine invokes callbacks while
`nghttp2_session_send` runs. -/
def SendData (reply : EngineCall → Int) (dispatched : List Callback)
    (session : Http2Session) : Except Fault Completion :=
  if session.session_.isNone then .ok (Completion.nothing session)
  else
    match session.dispatchAll dispatched with
    | .error fault => .error fault
    | .ok session =>
      let call := EngineCall.nghttp2_session_send
      let session := if !WantReadOrWrite reply then EMIT session Event.canClose else session
      .ok (Completion.value session (.integer (reply call))
        [call, .nghttp2_session_want_read, .nghttp2_session_want_write])

end Http2Session

/-! ## Sequences of operations on one session -/

/-- One operation the host performs on a session or on one of its streams,
with its arguments. -/
inductive Operation
  | receiveData (arg0 : Option (List Nat))
  | sendData
  | terminate (arg0 : Value)
  | gracefulTerminate
  | createIdleStream (arg0 : StreamIdArg) (arg1 arg2 arg3 : Value)
  | setLocalSettings (value : Option Http2Settings)
  | setNextStreamID (value : Value)
  | setLocalWindowSize (value : Value)
  | destroy
  | streamSetLocalWindowSize (stream : Http2Stream) (value : Value)
  | sendTrailers (stream : Http2Stream) (arg0 : HeaderList)
  | sendContinue (stream : Http2Stream)
  | respond (stream : Http2Stream) (arg0 : HeaderList) (arg1 : Option ProviderArg)
  | sendDataFrame (stream : Http2Stream) (arg0 : Value) (arg1 : ProviderArg)
  | sendRstStream (stream : Http2Stream) (arg0 : Value)
  | sendPriority (stream : Http2Stream) (arg0 arg1 arg2 : Value)
  | changeStreamPriority (stream : Http2Stream) (arg0 arg1 arg2 : Value)
  | resumeData (stream : Http2Stream) (localOpen : Bool)
  | sendPushPromise (stream : Http2Stream) (arg0 : HeaderList)
  deriving DecidableEq, Repr

/-- One step of the host: an operation together with what the engine does
while it runs, its answers and the callbacks it invokes. -/
structure Invocation where
  operation : Operation
  reply : EngineCall → Int
  dispatched : List Callback

/-- The method an operation stands for, run on the session. -/
def Http2Session.perform (session : Http2Session) (step : Invocation) :
    Except Fault Completion :=
  match step.operation with
  | .receiveData arg0 => session.ReceiveData step.reply step.dispatched arg0
  | .sendData => session.SendData step.reply step.dispatched
  | .terminate arg0 => session.Terminate step.reply step.dispatched arg0
  | .gracefulTerminate => session.GracefulTerminate step.reply step.dispatched
  | .createIdleStream arg0 arg1 arg2 arg3 =>
    session.CreateIdleStream step.reply arg0 arg1 arg2 arg3
  | .setLocalSettings value => session.SetLocalSettings value
  | .setNextStreamID value => session.SetNextStreamID value
  | .setLocalWindowSize value => session.SetLocalWindowSize value
  | .destroy => session.Destroy
  | .streamSetLocalWindowSize stream value => stream.SetLocalWindowSize session value
  | .sendTrailers stream arg0 => stream.SendTrailers step.reply session arg0
  | .sendContinue stream => stream.SendContinue step.reply session
  | .respond stream arg0 arg1 => stream.Respond step.reply session arg0 arg1
  | .sendDataFrame stream arg0 arg1 => stream.SendDataFrame step.reply session arg0 arg1
  | .sendRstStream stream arg0 => stream.SendRstStream step.reply session arg0
  | .sendPriority stream arg0 arg1 arg2 =>
    stream.SendPriority step.reply session arg0 arg1 arg2
  | .changeStreamPriority stream arg0 arg1 arg2 =>
    stream.ChangeStreamPriority step.reply session arg0 arg1 arg2
  | .resumeData stream localOpen => stream.ResumeData step.reply localOpen session
  | .sendPushPromise stream arg0 => stream.SendPushPromise step.reply session arg0

/-- A sequence of steps, each on the session the step before left; a fault
ends the sequence. -/
def Http2Session.performAll (session : Http2Session) :
    List Invocation → Except Fault Http2Session
  | [] => .ok session
  | step :: rest =>
    match session.perform step with
    | .error fault => .error fault
    | .ok completion => completion.session.performAll rest

/-- Modelled from the spec: the engine as `nghttp2_session_client_new2` makes
it: a client, holding no stream yet. -/
def nghttp2_session_client_new2 : nghttp2_session :=
  { streams := [], server := false }

/-- Modelled from the spec: the engine as `nghttp2_session_server_new2` makes
it: a server, holding no stream yet. -/
def nghttp2_session_server_new2 : nghttp2_session :=
  { streams := [], server := true }

/-- A client session: the engine is a client's and holds stream 1 with a
wrapper attached. -/
def sampleClientSession : Http2Session :=
  { type_ := 1
    session_ := some { nghttp2_session_client_new2 with
      streams := [(1, some { object := 0, stream_id_ := 1 })] }
    emitted := []
    objects := 1 }

/-- An engine that answers every call with the same number. -/
def constantReply (n : Int) (_call : EngineCall) : Int :=
  n

/-- A header list of one header, `:status` with the value `200`. -/
def sampleHeaders : HeaderList :=
  .array [.header { name := [58, 115, 116, 97, 116, 117, 115], value := [50, 48, 48], flags := 0 }]

/-- An engine that has processed no stream and refuses every submission: it
answers 0 when asked for the last processed stream id and -901
(`NGHTTP2_ERR_NOMEM`) to every other call. -/
def refusingReply (call : EngineCall) : Int :=
  if call = EngineCall.nghttp2_session_get_last_proc_stream_id then 0 else -901

/-- An engine that reports stream 7 as the last processed one and answers 0
to every other call. -/
def processedReply (call : EngineCall) : Int :=
  if call = EngineCall.nghttp2_session_get_last_proc_stream_id then 7 else 0

/-! ## Http2DataProvider -/

/-- Modelled from the spec: the engine's data flag `NGHTTP2_DATA_FLAG_EOF`,
declared in the engine's header with the value 0x01 (the same bit as
`NGHTTP2_FLAG_END_STREAM`). -/
def NGHTTP2_DATA_FLAG_EOF : Nat := 1

/-- Modelled from the spec: the engine's data flag
`NGHTTP2_DATA_FLAG_NO_END_STREAM`, declared in the engine's header with the
value 0x02. -/
def NGHTTP2_DATA_FLAG_NO_END_STREAM : Nat := 2

/-- Modelled from the spec: the engine's error code `NGHTTP2_ERR_DEFERRED`,
the spec's "defer" sentinel, declared in the engine's header as -508. -/
def NGHTTP2_ERR_DEFERRED : Int := -508

/-- Modelled from the spec: what the call of the host's `_read` function with
`(buffer, retFlags)` comes to; the host's runtime is not part of the sources
at hand.  The function either throws, and the `MaybeLocal` the call gives back
is then empty, or it returns a value, having left on the object `retFlags` the
properties named `FLAG_ENDSTREAM`, `FLAG_ENDDATA` and `FLAG_NOENDSTREAM`, each
read as `undefined` when the function did not set it. -/
inductive HostRead
  | threw
  | returned (ret : Value) (endStream endData noEndStream : Value)
  deriving DecidableEq, Repr

/-- The callback `Http2DataProvider::on_read`, given whether the property
`_read` of the provider object is a function, what the call of that function
comes to, and the flags word `*flags` as the engine hands it over.  The result
is the returned number and the flags word afterwards.  A `CHECK` that fails
ends the process. -/
def Http2DataProvider.on_read (readIsFunction : Bool) (host : HostRead) (flags : Nat) :
    Except Fault (Int × Nat) :=
  if !readIsFunction then .error Fault.checkFailed
  else
    match host with
    | .threw => .error Fault.checkFailed
    | .returned ret endStream endData noEndStream =>
      let val := ret.Int32Value
      let flags :=
        if endStream.BooleanValue then flags ||| Http2Stream.NGHTTP2_FLAG_END_STREAM
        else flags
      let flags := if endData.BooleanValue then flags ||| NGHTTP2_DATA_FLAG_EOF else flags
      let flags :=
        if noEndStream.BooleanValue then flags ||| NGHTTP2_DATA_FLAG_NO_END_STREAM
        else flags
      .ok (val, flags)

/-! ## Http2Options -/

/-- Modelled from the spec: the options argument of the session constructor as
`Http2Options` tests and reads it: an object, given by its own properties, or
any other value.  Each property carries what a read of it gives: a value, or
`none` when the read throws (a getter that throws). -/
inductive OptionsArg
  | object (properties : List (String × Option Value))
  | notObject
  deriving DecidableEq, Repr

/-- Modelled from the spec: the host's `Object::Get(key)`, which belongs to the
host's runtime.  The handle it returns is empty (`none`) only when the read
threw; a property the object does not have reads as `undefined`, as the read
of the unset properties of `retFlags` in `Http2DataProvider::on_read` takes for
granted. -/
def ObjectGet (properties : List (String × Option Value)) (name : String) : Option Value :=
  match properties.lookup name with
  | some read => read
  | none => some Value.undefined

/-- One call of a setter of `Http2Options`, named after the setter, with the
converted value it is handed.  The setters are defined in a header that is not
part of the sources at hand; each is recorded as the call it is. -/
inductive OptionCall
  | SetMaxDeflateDynamicTableSize (val : Nat)
  | SetMaxReservedRemoteStreams (val : Nat)
  | SetMaxSendHeaderBlockLength (val : Nat)
  | SetPeerMaxConcurrentStreams (val : Nat)
  | SetNoHttpMessaging (val : Bool)
  | SetNoRecvClientMagic (val : Bool)
  deriving DecidableEq, Repr

/-- The option `OptionCall` sets, by the name of its property in the options
bag. -/
def OptionCall.property : OptionCall → String
  | .SetMaxDeflateDynamicTableSize _ => "maxDeflateDynamicTableSize"
  | .SetMaxReservedRemoteStreams _ => "maxReservedRemoteStreams"
  | .SetMaxSendHeaderBlockLength _ => "maxSendHeaderBlockLength"
  | .SetPeerMaxConcurrentStreams _ => "peerMaxConcurrentStreams"
  | .SetNoHttpMessaging _ => "noHttpMessaging"
  | .SetNoRecvClientMagic _ => "noRecvClientMagic"

/-- The wrapper `Http2Options`: the setter calls made on the engine's option
record `options_` since `nghttp2_option_new` made it, in order.  With no call
made, every option of the engine has its default. -/
structure Http2Options where
  options_ : List OptionCall
  deriving DecidableEq, Repr

/-- The macro `V(obj, name, fn, type)` of the constructor: the property is
read, and unless the handle is empty the setter is called with the converted
value. -/
def Http2Options.V (obj : List (String × Option Value)) (name : String)
    (fn : Value → OptionCall) (self : Http2Options) : Http2Options :=
  match ObjectGet obj name with
  | none => self
  | some val => { options_ := self.options_ ++ [fn val] }

/-- The constructor `Http2Options::Http2Options(env, options)`. -/
def Http2Options.new (options : OptionsArg) : Http2Options :=
  let self : Http2Options := { options_ := [] }
  match options with
  | .notObject => self
  | .object opts =>
    let self := Http2Options.V opts "maxDeflateDynamicTableSize"
      (fun val => .SetMaxDeflateDynamicTableSize val.Uint32Value) self
    let self := Http2Options.V opts "maxReservedRemoteStreams"
      (fun val => .SetMaxReservedRemoteStreams val.Uint32Value) self
    let self := Http2Options.V opts "maxSendHeaderBlockLength"
      (fun val => .SetMaxSendHeaderBlockLength val.Uint32Value) self
    let self := Http2Options.V opts "peerMaxConcurrentStreams"
      (fun val => .SetPeerMaxConcurrentStreams val.Uint32Value) self
    let self := Http2Options.V opts "noHttpMessaging"
      (fun val => .SetNoHttpMessaging val.BooleanValue) self
    let self := Http2Options.V opts "noRecvClientMagic"
      (fun val => .SetNoRecvClientMagic val.BooleanValue) self
    self

/-! ## Constructing a session -/

/-- The enumerators of `enum http2_session_type`.  The enumeration is declared
in a header that is not part of the sources at hand, so the two numbers are
parameters. -/
structure SessionTypes where
  SESSION_TYPE_SERVER : Int
  SESSION_TYPE_CLIENT : Int
  deriving DecidableEq, Repr

/-- What the constructor of `Http2Session` leaves behind: the wrapper, its
member `root_` (which only `GetRootStream` reads) and the options the engine
was made with. -/
structure Http2SessionObject where
  session : Http2Session
  root_ : Http2Stream
  opts : Http2Options
  deriving DecidableEq, Repr

/-- The constructor `Http2Session::Http2Session(env, wrap, type, options)`: it
makes the options, makes the engine as a client for `SESSION_TYPE_CLIENT` and
as a server for every other type, and creates the stream with id 0, which it
keeps as `root_`.  The callback table is the fixed one of `dispatch`. -/
def Http2Session.new (T : SessionTypes) (type : Int) (options : OptionsArg) :
    Except Fault Http2SessionObject :=
  let opts := Http2Options.new options
  let session_ :=
    if type = T.SESSION_TYPE_CLIENT then nghttp2_session_client_new2
    else nghttp2_session_server_new2
  let self : Http2Session :=
    { type_ := type, session_ := some session_, emitted := [], objects := 0 }
  match self.create_stream 0 with
  | none => .error Fault.nullDereference
  | some (self, root) => .ok { session := self, root_ := root, opts := opts }

/-- The function `Http2Session::New`, given whether it is called with `new`,
its first argument and its second: it throws a `TypeError` with a message, or
constructs the session. -/
def Http2Session.New (T : SessionTypes) (isConstructCall : Bool) (arg0 : Value)
    (arg1 : OptionsArg) : Except Fault (Except String Http2SessionObject) :=
  if !isConstructCall then
    .ok (.error "Class constructor Http2Session cannot be invoked without 'new'")
  else
    let type := arg0.Int32Value
    if type ≠ T.SESSION_TYPE_SERVER ∧ type ≠ T.SESSION_TYPE_CLIENT then
      .ok (.error "Invalid HTTP/2 session type")
    else
      match Http2Session.new T type arg1 with
      | .error fault => .error fault
      | .ok object => .ok (.ok object)

/-! ## Http2Header -/

/-- Modelled from the spec: the engine's flag constant `NGHTTP2_NV_FLAG_NONE`,
declared in the engine's header: no flag set. -/
def NGHTTP2_NV_FLAG_NONE : Nat := 0

/-- Modelled from the spec: an argument of the constructor of `Http2Header` as
it is tested with `IsString`: a host string, given by the UTF-8 bytes that
`Utf8Value` reads from it, or a value that is no string. -/
inductive StringArg
  | string (utf8 : List Nat)
  | notString
  deriving DecidableEq, Repr

/-- The library function `memcpy(store + offset, src, n)` on a buffer given as
the list of its bytes: `n` bytes of `src` replace those from `offset` on. -/
def memcpy (store : List Nat) (offset : Nat) (src : List Nat) (n : Nat) : List Nat :=
  store.take offset ++ src.take n ++ store.drop (offset + n)

/-- The wrapper `Http2Header`: the buffer `store_` and the record `nv_`, whose
pointers `name` and `value` are offsets into the buffer. -/
structure Http2Header where
  store_ : List Nat
  name : Nat
  value : Nat
  namelen : Nat
  valuelen : Nat
  flags : Nat
  deriving DecidableEq, Repr

/-- The constructor `Http2Header::Http2Header(env, wrap, name, nlen, value,
vlen)`: one buffer of `nlen + vlen` bytes, the name copied to its start and
the value right behind it. -/
def Http2Header.new (name : List Nat) (nlen : Nat) (value : List Nat) (vlen : Nat) :
    Http2Header :=
  let store_ := List.replicate (nlen + vlen) 0
  let store_ := memcpy store_ 0 name nlen
  let store_ := memcpy store_ nlen value vlen
  { store_ := store_
    name := 0
    value := nlen
    namelen := nlen
    valuelen := vlen
    flags := NGHTTP2_NV_FLAG_NONE }

/-- The function `Http2Header::New`, given whether it is called with `new` and
its two arguments: it throws a `TypeError` with a message, or constructs the
header. -/
def Http2Header.New (isConstructCall : Bool) (arg0 arg1 : StringArg) :
    Except String Http2Header :=
  if !isConstructCall then
    .error "Class constructor Http2Header cannot be invoked without 'new'"
  else
    match arg0 with
    | .notString => .error "First argument must be a string"
    | .string key =>
      match arg1 with
      | .notString => .error "Second argument must be a string"
      | .string value =>
        if key.length = 0 then .error "First argument must not be an empty string"
        else .ok (Http2Header.new key key.length value value.length)

/-- The accessor `Http2Header::GetName`: the `namelen` bytes at `name`, made a
host string. -/
def Http2Header.GetName (header : Http2Header) : List Nat :=
  (header.store_.drop header.name).take header.namelen

/-- The accessor `Http2Header::GetValue`: the `valuelen` bytes at `value`, made
a host string. -/
def Http2Header.GetValue (header : Http2Header) : List Nat :=
  (header.store_.drop header.value).take header.valuelen

/-- The accessor `Http2Header::GetFlags`. -/
def Http2Header.GetFlags (header : Http2Header) : Nat :=
  header.flags

/-! ## Auxiliary facts about the ordered mapping -/

namespace Http2Settings

theorem find_insertEntry_same (id : nghttp2_settings_id) (value : Nat)
    (l : List (nghttp2_settings_id × Nat)) :
    ((insertEntry id value l).find? (fun e => e.1 = id)).map (fun e => e.2) = some value := by
  induction l with
  | nil => simp [insertEntry]
  | cons hd tl ih =>
    obtain ⟨k, v⟩ := hd
    unfold insertEntry
    split_ifs with h1 h2
    · simp
    · simp
    · have hk : ¬ k = id := fun h => h2 h.symm
      simpa [List.find?_cons, hk] using ih

theorem find_insertEntry_other (id : nghttp2_settings_id) (value : Nat)
    (j : nghttp2_settings_id) (hj : j ≠ id) (l : List (nghttp2_settings_id × Nat)) :
    (insertEntry id value l).find? (fun e => e.1 = j) = l.find? (fun e => e.1 = j) := by
  induction l with
  | nil => simp [insertEntry, List.find?_cons, Ne.symm hj]
  | cons hd tl ih =>
    obtain ⟨k, v⟩ := hd
    unfold insertEntry
    split_ifs with h1 h2
    · simp [List.find?_cons, Ne.symm hj]
    · subst h2
      simp [List.find?_cons, Ne.symm hj]
    · by_cases hk : k = j
      · simp [List.find?_cons, hk]
      · simp [List.find?_cons, hk, ih]

theorem Find_Set_same (settings : Http2Settings) (id : nghttp2_settings_id) (value : Nat) :
    (settings.Set id value).Find id = some value :=
  find_insertEntry_same id value settings.settings_

theorem Find_Set_other (settings : Http2Settings) (id : nghttp2_settings_id) (value : Nat)
    (j : nghttp2_settings_id) (hj : j ≠ id) :
    (settings.Set id value).Find j = settings.Find j := by
  simp [Find, Set, find_insertEntry_other id value j hj]

end Http2Settings

theorem Uint32Value_number_of_lt (v : Nat) (hv : v < 4294967296) :
    (Value.number (v : Int)).Uint32Value = v := by
  simp only [Value.Uint32Value]
  omega

/-! ## Auxiliary facts about the wire format -/

theorem toNat_lt (id : nghttp2_settings_id) : id.toNat < 65536 := by
  cases id <;> decide

theorem toNat_injective (a b : nghttp2_settings_id) (h : a.toNat = b.toNat) : a = b := by
  cases a <;> cases b <;> first | rfl | (exact absurd h (by decide))

theorem length_frame_pack (iv : List nghttp2_settings_entry) :
    (nghttp2_frame_pack_settings_payload iv).length = iv.length * 6 := by
  induction iv with
  | nil => rfl
  | cons e rest ih =>
    simp only [nghttp2_frame_pack_settings_payload, put_uint16be, put_uint32be,
      List.length_append, List.length_cons, List.length_nil, ih]
    omega

theorem unpack_frame_pack_cons (e : nghttp2_settings_entry)
    (rest : List nghttp2_settings_entry) :
    unpack_settings_payload (nghttp2_frame_pack_settings_payload (e :: rest)) =
      { settings_id := e.settings_id % 65536, value := e.value % 4294967296 } ::
        unpack_settings_payload (nghttp2_frame_pack_settings_payload rest) := by
  have h16 : e.settings_id / 256 % 256 * 256 + e.settings_id % 256
      = e.settings_id % 65536 := by omega
  have h32 : ((e.value / 16777216 % 256 * 256 + e.value / 65536 % 256) * 256
      + e.value / 256 % 256) * 256 + e.value % 256 = e.value % 4294967296 := by omega
  simp only [nghttp2_frame_pack_settings_payload, put_uint16be, put_uint32be,
    List.cons_append, List.nil_append, unpack_settings_payload, h16, h32]
  rfl

theorem payloadValue_frame_pack (id : nghttp2_settings_id)
    (l : List (nghttp2_settings_id × Nat)) :
    payloadValue (nghttp2_frame_pack_settings_payload
        (l.map (fun e => { settings_id := e.1.toNat, value := e.2 }))) id =
      (l.find? (fun e => e.1 = id)).map (fun e => e.2 % 4294967296) := by
  induction l with
  | nil => rfl
  | cons hd tl ih =>
    obtain ⟨k, v⟩ := hd
    have hk : k.toNat % 65536 = k.toNat := Nat.mod_eq_of_lt (toNat_lt k)
    unfold payloadValue at ih ⊢
    rw [List.map_cons, unpack_frame_pack_cons]
    by_cases h : k = id
    · subst h
      simp [List.find?_cons, hk]
    · have h2 : ¬ k.toNat = id.toNat := fun e => h (toNat_injective _ _ e)
      simpa [List.find?_cons, hk, h, h2] using ih

theorem insertEntry_ne_nil (id : nghttp2_settings_id) (value : Nat)
    (l : List (nghttp2_settings_id × Nat)) : Http2Settings.insertEntry id value l ≠ [] := by
  cases l with
  | nil => simp [Http2Settings.insertEntry]
  | cons hd tl =>
    obtain ⟨k, v⟩ := hd
    unfold Http2Settings.insertEntry
    split_ifs <;> simp

theorem Pack_of_nonempty (iv_check : List nghttp2_settings_entry → Bool)
    (settings : Http2Settings) (hne : settings.settings_ ≠ [])
    (hacc : iv_check settings.CollectSettings = true) :
    settings.Pack iv_check =
      .ok (some (nghttp2_frame_pack_settings_payload settings.CollectSettings)) := by
  obtain ⟨l⟩ := settings
  cases l with
  | nil => exact absurd rfl hne
  | cons hd tl =>
    have hlen := length_frame_pack
      (Http2Settings.CollectSettings { settings_ := hd :: tl })
    simp only [Http2Settings.Pack, vectorAt, nghttp2_pack_settings_payload, hacc]
    simp only [Http2Settings.CollectSettings, List.map_cons, List.get?_cons_zero,
      List.length_cons, List.length_map] at hlen ⊢
    simp [← hlen]

theorem setProperty_number (K : Constants) (id : nghttp2_settings_id)
    (settings : Http2Settings) (v : Nat) (hv : v < 4294967296)
    (hK : K.MIN_MAX_FRAME_SIZE ≤ K.MAX_MAX_FRAME_SIZE) :
    Http2Settings.setProperty K id settings (Value.number v) =
      settings.Set id (clampedForm K id v) := by
  have hu := Uint32Value_number_of_lt v hv
  cases id <;>
    simp only [Http2Settings.setProperty, Http2Settings.SetHeaderTableSize,
      Http2Settings.SetEnablePush, Http2Settings.SetMaxConcurrentStreams,
      Http2Settings.SetInitialWindowSize, Http2Settings.SetMaxFrameSize,
      Http2Settings.SetMaxHeaderListSize, Value.IsUndefined, hu, clampedForm,
      Bool.false_eq_true, if_false]
  · congr 1
    by_cases h0 : v = 0
    · subst h0; simp [Value.BooleanValue]
    · have : ¬ ((v : Int) = 0) := by omega
      simp [Value.BooleanValue, h0, this]
  · congr 1
    unfold MIN
    split_ifs <;> omega
  · congr 1
    unfold MAX MIN
    split_ifs <;> omega

/-! ## Auxiliary facts about the bounds invariant -/

theorem all_insertEntry (K : Constants) (id : nghttp2_settings_id) (value : Nat)
    (hval : entryWithinBounds K id value = true) (l : List (nghttp2_settings_id × Nat))
    (hl : l.all (fun e => entryWithinBounds K e.1 e.2) = true) :
    (Http2Settings.insertEntry id value l).all (fun e => entryWithinBounds K e.1 e.2)
      = true := by
  induction l with
  | nil => simpa [Http2Settings.insertEntry] using hval
  | cons hd tl ih =>
    obtain ⟨k, v⟩ := hd
    simp only [List.all_cons, Bool.and_eq_true] at hl
    unfold Http2Settings.insertEntry
    split_ifs with h1 h2
    · simp only [List.all_cons, Bool.and_eq_true]
      exact ⟨hval, hl.1, hl.2⟩
    · simp only [List.all_cons, Bool.and_eq_true]
      exact ⟨hval, hl.2⟩
    · simp only [List.all_cons, Bool.and_eq_true]
      exact ⟨hl.1, ih hl.2⟩

theorem withinBounds_Set (K : Constants) (settings : Http2Settings)
    (id : nghttp2_settings_id) (value : Nat)
    (hval : entryWithinBounds K id value = true) (h : withinBounds K settings = true) :
    withinBounds K (settings.Set id value) = true :=
  all_insertEntry K id value hval settings.settings_ h

theorem withinBounds_Erase (K : Constants) (settings : Http2Settings)
    (id : nghttp2_settings_id) (h : withinBounds K settings = true) :
    withinBounds K (settings.Erase id) = true := by
  unfold withinBounds Http2Settings.Erase at *
  rw [List.all_eq_true] at h ⊢
  intro e he
  exact h e (List.mem_of_mem_filter he)

theorem withinBounds_setProperty (K : Constants)
    (hK : K.MIN_MAX_FRAME_SIZE ≤ K.MAX_MAX_FRAME_SIZE)
    (id : nghttp2_settings_id) (settings : Http2Settings) (value : Value)
    (h : withinBounds K settings = true) :
    withinBounds K (Http2Settings.setProperty K id settings value) = true := by
  cases id <;>
    simp only [Http2Settings.setProperty, Http2Settings.SetHeaderTableSize,
      Http2Settings.SetEnablePush, Http2Settings.SetMaxConcurrentStreams,
      Http2Settings.SetInitialWindowSize, Http2Settings.SetMaxFrameSize,
      Http2Settings.SetMaxHeaderListSize] <;>
    split_ifs <;>
    first
      | exact withinBounds_Erase K settings _ h
      | exact withinBounds_Set K settings _ _ rfl h
      | skip
  · refine withinBounds_Set K settings _ _ ?_ h
    simp only [entryWithinBounds, decide_eq_true_eq]
    unfold MIN
    split_ifs <;> omega
  · refine withinBounds_Set K settings _ _ ?_ h
    simp only [entryWithinBounds, Bool.and_eq_true, decide_eq_true_eq]
    unfold MAX MIN
    split_ifs <;> omega

theorem Find_le_of_withinBounds (K : Constants) (settings : Http2Settings)
    (h : withinBounds K settings = true) (id : nghttp2_settings_id) (v : Nat)
    (hf : settings.Find id = some v) : entryWithinBounds K id v = true := by
  unfold Http2Settings.Find at hf
  unfold withinBounds at h
  rw [List.all_eq_true] at h
  cases hfind : settings.settings_.find? (fun e => e.1 = id) with
  | none => simp [hfind] at hf
  | some e =>
    rw [hfind] at hf
    simp only [Option.map_some', Option.some.injEq] at hf
    have hmem := List.mem_of_find?_eq_some hfind
    have hid := List.find?_some hfind
    simp only [decide_eq_true_eq] at hid
    have := h e hmem
    rw [hid, hf] at this
    exact this

/-! ## Auxiliary facts about the engine's stream table -/

theorem toInt32_toUint32 (x : Int) (hlo : -2147483648 ≤ x) (hhi : x < 2147483648) :
    toInt32 (toUint32 x) = x := by
  unfold toInt32 toUint32
  split_ifs <;> omega

theorem get_set_stream_user_data_same (session : nghttp2_session) (stream_id : Int)
    (stream : Http2Stream) (hholds : session.holds stream_id = true) :
    nghttp2_session_get_stream_user_data
      (nghttp2_session_set_stream_user_data session stream_id stream) stream_id
      = some stream := by
  obtain ⟨l, srv⟩ := session
  unfold nghttp2_session.holds at hholds
  unfold nghttp2_session_get_stream_user_data nghttp2_session_set_stream_user_data
  dsimp only at hholds ⊢
  induction l with
  | nil => simp at hholds
  | cons hd tl ih =>
    by_cases h : hd.1 = stream_id
    · simp [List.find?_cons, h]
    · have htl : tl.any (fun e => decide (e.1 = stream_id)) = true := by
        simpa [List.any_cons, h] using hholds
      simpa [List.find?_cons, h] using ih htl

theorem get_set_stream_user_data_other (session : nghttp2_session) (stream_id j : Int)
    (stream : Http2Stream) (hj : j ≠ stream_id) :
    nghttp2_session_get_stream_user_data
      (nghttp2_session_set_stream_user_data session stream_id stream) j
      = nghttp2_session_get_stream_user_data session j := by
  obtain ⟨l, srv⟩ := session
  unfold nghttp2_session_get_stream_user_data nghttp2_session_set_stream_user_data
  dsimp only
  induction l with
  | nil => rfl
  | cons hd tl ih =>
    by_cases h : hd.1 = stream_id
    · have hne : ¬ hd.1 = j := fun e => hj (e.symm.trans h)
      have hne2 : ¬ stream_id = j := fun e => hj e.symm
      simpa [List.find?_cons, h, hne, hne2] using ih
    · rw [List.map_cons, if_neg h]
      by_cases h2 : hd.1 = j
      · simp [List.find?_cons, h2]
      · simpa [List.find?_cons, h2] using ih

/-! ## Auxiliary facts about the callbacks -/

theorem dispatch_emits (s : Http2Session) (callback : Callback) (after : Http2Session)
    (r : Int) (h : s.dispatch callback = .ok (after, r)) :
    ∃ events, after.emitted = s.emitted ++ events ∧
      events.length = (if callback.emitsOn s then 1 else 0) ∧
      callback.accountsFor events := by
  unfold Http2Session.dispatch at h
  cases hs : s.session_ with
  | none => simp [hs] at h
  | some engine =>
    simp only [hs] at h
    cases callback with
    | send data flags =>
      simp only [Http2Session.send, Except.ok.injEq, Prod.mk.injEq] at h
      obtain ⟨rfl, rfl⟩ := h
      exact ⟨[Event.send data], rfl, rfl, by simp [Callback.accountsFor, Callback.neverEmits,
        Callback.derives]⟩
    | on_frame_recv frame =>
      dsimp only [Http2Session.on_frame_recv] at h
      split_ifs at h with h1 h2 h3 h4
      · simp only [Http2Session.on_rst_stream_frame, Except.ok.injEq, Prod.mk.injEq] at h
        obtain ⟨rfl, rfl⟩ := h
        exact ⟨[_], rfl, by simp [Callback.emitsOn, Callback.neverEmits, h1],
          by simp [Callback.accountsFor, Callback.neverEmits, Callback.derives, h1]⟩
      · simp only [Http2Session.on_goaway_frame, Except.ok.injEq, Prod.mk.injEq] at h
        obtain ⟨rfl, rfl⟩ := h
        exact ⟨[_], rfl, by simp [Callback.emitsOn, Callback.neverEmits, h2],
          by simp [Callback.accountsFor, Callback.neverEmits, Callback.derives, h2]⟩
      · cases hg : nghttp2_session_get_stream_user_data engine frame.hd.stream_id with
        | none => simp [Http2Session.on_data_frame, hg] at h
        | some stream =>
          simp only [Http2Session.on_data_frame, hg, Except.ok.injEq, Prod.mk.injEq] at h
          obtain ⟨rfl, rfl⟩ := h
          exact ⟨[_], rfl, by simp [Callback.emitsOn, Callback.neverEmits, h3],
            by simp [Callback.accountsFor, Callback.neverEmits, Callback.derives, h3]⟩
      · cases hg : nghttp2_session_get_stream_user_data engine frame.hd.stream_id with
        | none => simp [Http2Session.on_headers_frame, hg] at h
        | some stream =>
          simp only [Http2Session.on_headers_frame, hg, Except.ok.injEq, Prod.mk.injEq] at h
          obtain ⟨rfl, rfl⟩ := h
          exact ⟨[_], rfl, by simp [Callback.emitsOn, Callback.neverEmits, h4],
            by simp [Callback.accountsFor, Callback.neverEmits, Callback.derives, h4]⟩
      · simp only [Except.ok.injEq, Prod.mk.injEq] at h
        obtain ⟨rfl, rfl⟩ := h
        exact ⟨[], by simp, by simp [Callback.emitsOn, Callback.neverEmits, h1, h2, h3, h4],
          by simp [Callback.accountsFor, Callback.neverEmits, h1, h2, h3, h4]⟩
    | on_stream_close stream_id error_code =>
      unfold Http2Session.on_stream_close at h
      cases hg : nghttp2_session_get_stream_user_data engine stream_id with
      | none =>
        simp only [hg, Except.ok.injEq, Prod.mk.injEq] at h
        obtain ⟨rfl, rfl⟩ := h
        exact ⟨[], by simp,
          by simp [Callback.emitsOn, Http2Session.GetStream, Http2Session.sessionIsNull, hs, hg],
          by simp [Callback.accountsFor, Callback.neverEmits, Callback.isStreamClose]⟩
      | some stream =>
        simp only [hg, Except.ok.injEq, Prod.mk.injEq] at h
        obtain ⟨rfl, rfl⟩ := h
        exact ⟨[_], rfl,
          by simp [Callback.emitsOn, Http2Session.GetStream, Http2Session.sessionIsNull, hs, hg],
          by simp [Callback.accountsFor, Callback.neverEmits, Callback.derives]⟩
    | on_header frame name value flags =>
      unfold Http2Session.on_header at h
      cases hg : nghttp2_session_get_stream_user_data engine frame.hd.stream_id with
      | none => simp [hg] at h
      | some stream =>
        simp only [hg, Except.ok.injEq, Prod.mk.injEq] at h
        obtain ⟨rfl, rfl⟩ := h
        exact ⟨[_], rfl, by simp [Callback.emitsOn, Callback.neverEmits],
          by simp [Callback.accountsFor, Callback.neverEmits, Callback.derives]⟩
    | on_begin_headers frame =>
      cases hb : s.on_begin_headers frame with
      | none => simp [hb] at h
      | some result =>
        simp only [hb, Except.ok.injEq] at h
        subst h
        unfold Http2Session.on_begin_headers at hb
        simp only [hs] at hb
        cases hg : nghttp2_session_get_stream_user_data engine frame.hd.stream_id with
        | none =>
          simp only [hg, Http2Session.create_stream, hs, Http2Stream.AddStream, ite_self,
            Option.some.injEq, Prod.mk.injEq] at hb
          obtain ⟨rfl, rfl⟩ := hb
          exact ⟨[_], rfl, by simp [Callback.emitsOn, Callback.neverEmits],
            by simp [Callback.accountsFor, Callback.neverEmits, Callback.derives]⟩
        | some stream =>
          simp only [hg, Option.some.injEq, Prod.mk.injEq] at hb
          obtain ⟨rfl, rfl⟩ := hb
          exact ⟨[_], rfl, by simp [Callback.emitsOn, Callback.neverEmits],
            by simp [Callback.accountsFor, Callback.neverEmits, Callback.derives]⟩
    | on_data_chunk_recv flags stream_id data =>
      unfold Http2Session.on_data_chunk_recv at h
      cases hg : nghttp2_session_get_stream_user_data engine stream_id with
      | none => simp [hg] at h
      | some stream =>
        simp only [hg, Except.ok.injEq, Prod.mk.injEq] at h
        obtain ⟨rfl, rfl⟩ := h
        exact ⟨[_], rfl, by simp [Callback.emitsOn, Callback.neverEmits],
          by simp [Callback.accountsFor, Callback.neverEmits, Callback.derives]⟩
    | on_frame_send frame =>
      simp only [Http2Session.on_frame_send, Except.ok.injEq, Prod.mk.injEq] at h
      obtain ⟨rfl, rfl⟩ := h
      exact ⟨[_], rfl, by simp [Callback.emitsOn, Callback.neverEmits],
        by simp [Callback.accountsFor, Callback.neverEmits, Callback.derives]⟩
    | select_padding frame max_payloadlen =>
      simp only [Http2Session.select_padding, Except.ok.injEq, Prod.mk.injEq] at h
      obtain ⟨rfl, rfl⟩ := h
      exact ⟨[], by simp, by simp [Callback.emitsOn, Callback.neverEmits],
        by simp [Callback.accountsFor, Callback.neverEmits]⟩

theorem dispatchAll_emits (callbacks : List Callback) :
    ∀ (s after : Http2Session), s.dispatchAll callbacks = .ok after →
      ∃ shares : List (List Event),
        List.Forall₂ Callback.accountsFor callbacks shares ∧
        after.emitted = s.emitted ++ shares.flatten := by
  induction callbacks with
  | nil =>
    intro s after h
    simp only [Http2Session.dispatchAll, Except.ok.injEq] at h
    subst h
    exact ⟨[], List.Forall₂.nil, by simp⟩
  | cons callback rest ih =>
    intro s after h
    unfold Http2Session.dispatchAll at h
    cases hd : s.dispatch callback with
    | error fault => simp [hd] at h
    | ok result =>
      obtain ⟨mid, r⟩ := result
      simp only [hd] at h
      obtain ⟨events, hev, _, hacc⟩ := dispatch_emits s callback mid r hd
      obtain ⟨shares, hall, hrest⟩ := ih mid after h
      exact ⟨events :: shares, List.Forall₂.cons hacc hall, by
        rw [hrest, hev, List.flatten_cons, List.append_assoc]⟩

theorem dispatch_returns (s : Http2Session) (engine : nghttp2_session)
    (hs : s.session_ = some engine) (callback : Callback)
    (hstream : ∀ id, callback.needsStream = some id → (s.GetStream id).isSome = true) :
    ∃ after r, s.dispatch callback = .ok (after, r) := by
  have hget : ∀ id, s.GetStream id = nghttp2_session_get_stream_user_data engine id := by
    intro id
    simp [Http2Session.GetStream, Http2Session.sessionIsNull, hs]
  unfold Http2Session.dispatch
  simp only [hs]
  cases callback with
  | send data flags => exact ⟨_, _, rfl⟩
  | on_frame_recv frame =>
    dsimp only [Http2Session.on_frame_recv]
    simp only [Callback.needsStream] at hstream
    split_ifs with h1 h2 h3 h4
    · exact ⟨_, _, rfl⟩
    · exact ⟨_, _, rfl⟩
    · have := hstream frame.hd.stream_id (by rw [if_neg h1, if_neg h2, if_pos h3])
      rw [hget] at this
      obtain ⟨stream, hsome⟩ := Option.isSome_iff_exists.mp this
      simp only [hsome, Http2Session.on_data_frame]
      exact ⟨_, _, rfl⟩
    · have := hstream frame.hd.stream_id
        (by rw [if_neg h1, if_neg h2, if_neg h3, if_pos h4])
      rw [hget] at this
      obtain ⟨stream, hsome⟩ := Option.isSome_iff_exists.mp this
      simp only [hsome, Http2Session.on_headers_frame]
      exact ⟨_, _, rfl⟩
    · exact ⟨_, _, rfl⟩
  | on_stream_close stream_id error_code =>
    dsimp only [Http2Session.on_stream_close]
    cases nghttp2_session_get_stream_user_data engine stream_id with
    | none => exact ⟨_, _, rfl⟩
    | some stream => exact ⟨_, _, rfl⟩
  | on_header frame name value flags =>
    have := hstream frame.hd.stream_id rfl
    rw [hget] at this
    obtain ⟨stream, hsome⟩ := Option.isSome_iff_exists.mp this
    simp only [hsome, Http2Session.on_header]
    exact ⟨_, _, rfl⟩
  | on_begin_headers frame =>
    dsimp only [Http2Session.on_begin_headers]
    simp only [hs]
    cases nghttp2_session_get_stream_user_data engine frame.hd.stream_id with
    | none =>
      simp only [Http2Session.create_stream, hs]
      exact ⟨_, _, rfl⟩
    | some stream => exact ⟨_, _, rfl⟩
  | on_data_chunk_recv flags stream_id data =>
    have := hstream stream_id rfl
    rw [hget] at this
    obtain ⟨stream, hsome⟩ := Option.isSome_iff_exists.mp this
    simp only [hsome, Http2Session.on_data_chunk_recv]
    exact ⟨_, _, rfl⟩
  | on_frame_send frame => exact ⟨_, _, rfl⟩
  | select_padding frame max_payloadlen => exact ⟨_, _, rfl⟩

/-! ## Auxiliary facts about the methods -/

theorem sessionIsNull_of_live (session : Http2Session) (engine : nghttp2_session)
    (hlive : session.session_ = some engine) : session.sessionIsNull = false := by
  simp [Http2Session.sessionIsNull, hlive]

theorem sessionIsNull_of_null (session : Http2Session) (hnull : session.session_ = none) :
    session.sessionIsNull = true := by
  simp [Http2Session.sessionIsNull, hnull]

theorem firstElement_of_ne_nil {α : Type} (v : List α) (hne : v ≠ []) :
    ∃ a, firstElement v = .ok a := by
  cases v with
  | nil => exact absurd rfl hne
  | cons a rest => exact ⟨a, rfl⟩

theorem with_session_eq (session : Http2Session) (engine : nghttp2_session)
    (hlive : session.session_ = some engine) :
    { session with session_ := some engine } = session := by
  cases session
  simp only at hlive
  subst hlive
  rfl

theorem perform_of_null (session : Http2Session) (hnull : session.session_ = none)
    (step : Invocation) : session.perform step = .ok (Completion.nothing session) := by
  have h1 := sessionIsNull_of_null session hnull
  have h2 : session.session_.isNone = true := by simp [hnull]
  unfold Http2Session.perform
  cases step.operation <;>
    simp only [Http2Session.ReceiveData, Http2Session.SendData, Http2Session.Terminate,
      Http2Session.GracefulTerminate, Http2Session.CreateIdleStream,
      Http2Session.SetLocalSettings, Http2Session.SetNextStreamID,
      Http2Session.SetLocalWindowSize, Http2Session.Destroy,
      Http2Stream.SetLocalWindowSize, Http2Stream.SendTrailers, Http2Stream.SendContinue,
      Http2Stream.Respond, Http2Stream.SendDataFrame, Http2Stream.SendRstStream,
      Http2Stream.SendPriority, Http2Stream.ChangeStreamPriority, Http2Stream.ResumeData,
      Http2Stream.SendPushPromise, h1, h2, if_true]

theorem performAll_of_null (steps : List Invocation) :
    ∀ session : Http2Session, session.session_ = none →
      session.performAll steps = .ok session := by
  induction steps with
  | nil => intro session _; rfl
  | cons step rest ih =>
    intro session hnull
    unfold Http2Session.performAll
    rw [perform_of_null session hnull step]
    exact ih session hnull

theorem derives_canClose (callback : Callback) :
    callback.derives Event.canClose = false := by
  cases callback <;> rfl

theorem dispatchAll_count_canClose (callbacks : List Callback) (s after : Http2Session)
    (h : s.dispatchAll callbacks = .ok after) :
    after.emitted.count Event.canClose = s.emitted.count Event.canClose := by
  obtain ⟨shares, hall, hem⟩ := dispatchAll_emits callbacks s after h
  have hnot : ∀ (cbs : List Callback) (shs : List (List Event)),
      List.Forall₂ Callback.accountsFor cbs shs → Event.canClose ∉ shs.flatten := by
    intro cbs shs hf
    induction hf with
    | nil => simp
    | cons hacc _ ih =>
      rw [List.flatten_cons, List.mem_append]
      rintro (hm | hm)
      · have hd := hacc.2.2.2 _ hm
        rw [derives_canClose] at hd
        exact Bool.false_ne_true hd
      · exact ih hm
  rw [hem, List.count_append, List.count_eq_zero_of_not_mem (hnot _ _ hall), Nat.add_zero]

theorem WantReadOrWrite_eq_false (reply : EngineCall → Int) :
    Http2Session.WantReadOrWrite reply = false ↔
      (reply .nghttp2_session_want_read = 0 ∧ reply .nghttp2_session_want_write = 0) := by
  simp [Http2Session.WantReadOrWrite]

theorem ReceiveData_of_live (reply : EngineCall → Int) (dispatched : List Callback)
    (session mid : Http2Session) (engine : nghttp2_session) (data : List Nat)
    (hlive : session.session_ = some engine)
    (hcallbacks : session.dispatchAll dispatched = .ok mid) :
    session.ReceiveData reply dispatched (some data) =
      .ok (Completion.value
        (if Http2Session.WantReadOrWrite reply then mid else EMIT mid Event.canClose)
        (.unsigned (toUint32 (reply (.nghttp2_session_mem_recv data))))
        [.nghttp2_session_mem_recv data, .nghttp2_session_want_read,
          .nghttp2_session_want_write]) := by
  unfold Http2Session.ReceiveData
  simp only [hlive, Option.isNone_some, hcallbacks]
  cases Http2Session.WantReadOrWrite reply <;> rfl

theorem SendData_of_live (reply : EngineCall → Int) (dispatched : List Callback)
    (session mid : Http2Session) (engine : nghttp2_session)
    (hlive : session.session_ = some engine)
    (hcallbacks : session.dispatchAll dispatched = .ok mid) :
    session.SendData reply dispatched =
      .ok (Completion.value
        (if Http2Session.WantReadOrWrite reply then mid else EMIT mid Event.canClose)
        (.integer (reply .nghttp2_session_send))
        [.nghttp2_session_send, .nghttp2_session_want_read,
          .nghttp2_session_want_write]) := by
  unfold Http2Session.SendData
  simp only [hlive, Option.isNone_some, hcallbacks]
  cases Http2Session.WantReadOrWrite reply <;> rfl

theorem canClose_after_pump (reply : EngineCall → Int) (dispatched : List Callback)
    (session mid : Http2Session)
    (hcallbacks : session.dispatchAll dispatched = .ok mid) :
    (if Http2Session.WantReadOrWrite reply then mid else EMIT mid Event.canClose).emitted
        = mid.emitted ++
          (if reply .nghttp2_session_want_read = 0 ∧ reply .nghttp2_session_want_write = 0
            then [Event.canClose] else []) ∧
    (if Http2Session.WantReadOrWrite reply then mid else EMIT mid Event.canClose).emitted.count
        Event.canClose
        = session.emitted.count Event.canClose +
          (if reply .nghttp2_session_want_read = 0 ∧ reply .nghttp2_session_want_write = 0
            then 1 else 0) := by
  have hcount := dispatchAll_count_canClose dispatched session mid hcallbacks
  cases hw : Http2Session.WantReadOrWrite reply with
  | false =>
    have hboth := (WantReadOrWrite_eq_false reply).mp hw
    simp only [Bool.false_eq_true, if_false, if_pos hboth, EMIT, List.count_append, hcount]
    exact ⟨trivial, rfl⟩
  | true =>
    have hnot : ¬ (reply .nghttp2_session_want_read = 0 ∧
        reply .nghttp2_session_want_write = 0) := by
      intro hboth
      rw [(WantReadOrWrite_eq_false reply).mpr hboth] at hw
      exact Bool.false_ne_true hw
    simp only [if_true, if_neg hnot, List.append_nil, hcount, Nat.add_zero]
    exact ⟨trivial, trivial⟩

theorem store_of_new (name value : List Nat) :
    (Http2Header.new name name.length value value.length).store_ = name ++ value := by
  simp [Http2Header.new, memcpy]

theorem Int32Value_number_of_int32 (n : Int) (hlo : -2147483648 ≤ n) (hhi : n < 2147483648) :
    (Value.number n).Int32Value = n := by
  have h := toInt32_toUint32 n hlo hhi
  simpa [Value.Int32Value, Value.Uint32Value, toUint32] using h

theorem Find_Erase_same (settings : Http2Settings) (id : nghttp2_settings_id) :
    (settings.Erase id).Find id = none := by
  unfold Http2Settings.Find Http2Settings.Erase
  rw [Option.map_eq_none', List.find?_eq_none]
  intro e he
  have hne := (List.mem_filter.mp he).2
  simpa using hne

/-! ## Theorems -/

/-- C1: for every parent id, weight and exclusive flag the constructor stores
the default weight when the weight is negative, and otherwise the weight
clamped into the interval from `NGHTTP2_MIN_WEIGHT` to `NGHTTP2_MAX_WEIGHT`;
the three sample weights -1, 999999 and 0 give the default, the maximum and the
minimum. -/
theorem Http2Priority_weight_clamped (parent weight : Int) (exclusive : Bool) :
    (Http2Priority.new parent weight exclusive).spec_.weight =
      (if weight < 0 then NGHTTP2_DEFAULT_WEIGHT
       else if weight < NGHTTP2_MIN_WEIGHT then NGHTTP2_MIN_WEIGHT
       else if NGHTTP2_MAX_WEIGHT < weight then NGHTTP2_MAX_WEIGHT
       else weight) ∧
    (weight < 0 → (Http2Priority.new parent weight exclusive).spec_.weight
        = NGHTTP2_DEFAULT_WEIGHT) ∧
    (0 ≤ weight → weight < NGHTTP2_MIN_WEIGHT →
      (Http2Priority.new parent weight exclusive).spec_.weight = NGHTTP2_MIN_WEIGHT) ∧
    (0 ≤ weight → NGHTTP2_MAX_WEIGHT < weight →
      (Http2Priority.new parent weight exclusive).spec_.weight = NGHTTP2_MAX_WEIGHT) ∧
    (NGHTTP2_MIN_WEIGHT ≤ weight → weight ≤ NGHTTP2_MAX_WEIGHT →
      (Http2Priority.new parent weight exclusive).spec_.weight = weight) ∧
    (Http2Priority.new parent (-1) exclusive).spec_.weight = NGHTTP2_DEFAULT_WEIGHT ∧
    (Http2Priority.new parent 999999 exclusive).spec_.weight = NGHTTP2_MAX_WEIGHT ∧
    (Http2Priority.new parent 0 exclusive).spec_.weight = NGHTTP2_MIN_WEIGHT := by
  simp only [Http2Priority.new, nghttp2_priority_spec_init, MIN, MAX,
    NGHTTP2_DEFAULT_WEIGHT, NGHTTP2_MIN_WEIGHT, NGHTTP2_MAX_WEIGHT]
  refine ⟨?_, ?_, ?_, ?_, ?_, ?_, ?_, ?_⟩
  · split_ifs <;> omega
  · intro h
    simp [h]
  · intro h0 h1
    have : ¬ weight < 0 := by omega
    simp only [this, if_false]
    split_ifs <;> omega
  · intro h0 h1
    have : ¬ weight < 0 := by omega
    simp only [this, if_false]
    split_ifs <;> omega
  · intro h0 h1
    have : ¬ weight < 0 := by omega
    simp only [this, if_false]
    split_ifs <;> omega
  · decide
  · decide
  · decide

/-- C3: for every 32-bit value `v`, writing initial-window-size stores exactly
the smaller of `v` and `MAX_INITIAL_WINDOW_SIZE`; what is stored never exceeds
the maximum and is `v` itself whenever `v` does not exceed it. -/
theorem SetInitialWindowSize_stores_min (K : Constants) (settings : Http2Settings)
    (v : Nat) (hv : v < 4294967296) :
    ∃ stored,
      (settings.SetInitialWindowSize K (Value.number v)).Find
          NGHTTP2_SETTINGS_INITIAL_WINDOW_SIZE = some stored ∧
      stored = min v K.MAX_INITIAL_WINDOW_SIZE ∧
      stored ≤ K.MAX_INITIAL_WINDOW_SIZE ∧
      (v ≤ K.MAX_INITIAL_WINDOW_SIZE → stored = v) := by
  refine ⟨MIN K.MAX_INITIAL_WINDOW_SIZE v, ?_, ?_, ?_, ?_⟩
  · simp only [Http2Settings.SetInitialWindowSize, Value.IsUndefined,
      Uint32Value_number_of_lt v hv]
    exact Http2Settings.Find_Set_same _ _ _
  · unfold MIN
    split_ifs <;> omega
  · unfold MIN
    split_ifs <;> omega
  · intro h
    unfold MIN
    split_ifs <;> omega

/-- Witness of C3 at the RFC 7540 constants: writing 4294967295 over an empty
collection stores 2147483647. -/
theorem SetInitialWindowSize_stores_min_witness :
    ∃ stored,
      (Http2Settings.empty.SetInitialWindowSize rfc7540 (Value.number 4294967295)).Find
          NGHTTP2_SETTINGS_INITIAL_WINDOW_SIZE = some stored ∧
      stored = min 4294967295 rfc7540.MAX_INITIAL_WINDOW_SIZE ∧
      stored ≤ rfc7540.MAX_INITIAL_WINDOW_SIZE ∧
      (4294967295 ≤ rfc7540.MAX_INITIAL_WINDOW_SIZE → stored = 4294967295) :=
  SetInitialWindowSize_stores_min rfc7540 Http2Settings.empty 4294967295 (by decide)

/-- C4: for every 32-bit value `v`, writing max-frame-size stores `v` clamped
into the interval from `MIN_MAX_FRAME_SIZE` to `MAX_MAX_FRAME_SIZE` (the
interval being non-empty): what is stored lies in the interval, is `v` when
`v` lies in it, the lower bound when `v` is below and the upper bound when `v`
is above. -/
theorem SetMaxFrameSize_stores_clamp (K : Constants) (settings : Http2Settings)
    (v : Nat) (hv : v < 4294967296)
    (hK : K.MIN_MAX_FRAME_SIZE ≤ K.MAX_MAX_FRAME_SIZE) :
    ∃ stored,
      (settings.SetMaxFrameSize K (Value.number v)).Find
          NGHTTP2_SETTINGS_MAX_FRAME_SIZE = some stored ∧
      K.MIN_MAX_FRAME_SIZE ≤ stored ∧ stored ≤ K.MAX_MAX_FRAME_SIZE ∧
      (K.MIN_MAX_FRAME_SIZE ≤ v → v ≤ K.MAX_MAX_FRAME_SIZE → stored = v) ∧
      (v < K.MIN_MAX_FRAME_SIZE → stored = K.MIN_MAX_FRAME_SIZE) ∧
      (K.MAX_MAX_FRAME_SIZE < v → stored = K.MAX_MAX_FRAME_SIZE) := by
  refine ⟨MAX (MIN v K.MAX_MAX_FRAME_SIZE) K.MIN_MAX_FRAME_SIZE, ?_, ?_, ?_, ?_, ?_, ?_⟩
  · simp only [Http2Settings.SetMaxFrameSize, Value.IsUndefined,
      Uint32Value_number_of_lt v hv]
    exact Http2Settings.Find_Set_same _ _ _
  all_goals
    unfold MAX MIN
    split_ifs <;> omega

/-- Witness of C4 at the RFC 7540 constants: writing 0 over an empty collection. -/
theorem SetMaxFrameSize_stores_clamp_witness :
    ∃ stored,
      (Http2Settings.empty.SetMaxFrameSize rfc7540 (Value.number 0)).Find
          NGHTTP2_SETTINGS_MAX_FRAME_SIZE = some stored ∧
      rfc7540.MIN_MAX_FRAME_SIZE ≤ stored ∧ stored ≤ rfc7540.MAX_MAX_FRAME_SIZE ∧
      (rfc7540.MIN_MAX_FRAME_SIZE ≤ 0 → 0 ≤ rfc7540.MAX_MAX_FRAME_SIZE → stored = 0) ∧
      (0 < rfc7540.MIN_MAX_FRAME_SIZE → stored = rfc7540.MIN_MAX_FRAME_SIZE) ∧
      (rfc7540.MAX_MAX_FRAME_SIZE < 0 → stored = rfc7540.MAX_MAX_FRAME_SIZE) :=
  SetMaxFrameSize_stores_clamp rfc7540 Http2Settings.empty 0 (by decide) (by decide)

/-- Counterexample to C5: `undefined` is not truthy, and writing it to
enable-push over a collection that holds enable-push 1 stores no number at
all: the entry is erased, where the claim has 0 stored. -/
theorem SetEnablePush_undefined_stores_nothing :
    Value.undefined.BooleanValue = false ∧
    ((Http2Settings.empty.Set NGHTTP2_SETTINGS_ENABLE_PUSH 1).SetEnablePush
        Value.undefined).Find NGHTTP2_SETTINGS_ENABLE_PUSH = none ∧
    ((Http2Settings.empty.Set NGHTTP2_SETTINGS_ENABLE_PUSH 1).SetEnablePush
        Value.undefined).Find NGHTTP2_SETTINGS_ENABLE_PUSH ≠ some 0 :=
  ⟨rfl, rfl, by decide⟩

/-- C5, amended: writing a value other than `undefined` to enable-push stores 1
when the value is truthy and 0 otherwise, never another number; writing
`undefined` erases the entry, so that no number is stored, and so it does for
header-table-size, max-concurrent-streams and max-header-list-size; writing a
32-bit value to one of these three stores that value unchanged. -/
theorem SetEnablePush_and_passthrough (settings : Http2Settings) (value : Value)
    (v : Nat) (hv : v < 4294967296) :
    (value.IsUndefined = false →
      (settings.SetEnablePush value).Find NGHTTP2_SETTINGS_ENABLE_PUSH
          = some (if value.BooleanValue then 1 else 0) ∧
      ((settings.SetEnablePush value).Find NGHTTP2_SETTINGS_ENABLE_PUSH = some 0 ∨
        (settings.SetEnablePush value).Find NGHTTP2_SETTINGS_ENABLE_PUSH = some 1)) ∧
    (value.IsUndefined = true →
      value = Value.undefined ∧
      (settings.SetEnablePush value).Find NGHTTP2_SETTINGS_ENABLE_PUSH = none ∧
      (settings.SetHeaderTableSize value).Find NGHTTP2_SETTINGS_HEADER_TABLE_SIZE = none ∧
      (settings.SetMaxConcurrentStreams value).Find
          NGHTTP2_SETTINGS_MAX_CONCURRENT_STREAMS = none ∧
      (settings.SetMaxHeaderListSize value).Find
          NGHTTP2_SETTINGS_MAX_HEADER_LIST_SIZE = none) ∧
    (settings.SetHeaderTableSize (Value.number v)).Find
        NGHTTP2_SETTINGS_HEADER_TABLE_SIZE = some v ∧
    (settings.SetMaxConcurrentStreams (Value.number v)).Find
        NGHTTP2_SETTINGS_MAX_CONCURRENT_STREAMS = some v ∧
    (settings.SetMaxHeaderListSize (Value.number v)).Find
        NGHTTP2_SETTINGS_MAX_HEADER_LIST_SIZE = some v := by
  refine ⟨?_, ?_, ?_, ?_, ?_⟩
  · intro hdef
    have hpush : (settings.SetEnablePush value).Find NGHTTP2_SETTINGS_ENABLE_PUSH
        = some (if value.BooleanValue then 1 else 0) := by
      simp only [Http2Settings.SetEnablePush, hdef]
      exact Http2Settings.Find_Set_same _ _ _
    refine ⟨hpush, ?_⟩
    rw [hpush]
    cases value.BooleanValue <;> simp
  · intro hundef
    refine ⟨?_, ?_, ?_, ?_, ?_⟩
    · cases value with
      | undefined => rfl
      | number n => cases hundef
      | boolean b => cases hundef
    · simp only [Http2Settings.SetEnablePush, hundef, if_true]
      exact Find_Erase_same _ _
    · simp only [Http2Settings.SetHeaderTableSize, hundef, if_true]
      exact Find_Erase_same _ _
    · simp only [Http2Settings.SetMaxConcurrentStreams, hundef, if_true]
      exact Find_Erase_same _ _
    · simp only [Http2Settings.SetMaxHeaderListSize, hundef, if_true]
      exact Find_Erase_same _ _
  · simp only [Http2Settings.SetHeaderTableSize, Value.IsUndefined,
      Uint32Value_number_of_lt v hv]
    exact Http2Settings.Find_Set_same _ _ _
  · simp only [Http2Settings.SetMaxConcurrentStreams, Value.IsUndefined,
      Uint32Value_number_of_lt v hv]
    exact Http2Settings.Find_Set_same _ _ _
  · simp only [Http2Settings.SetMaxHeaderListSize, Value.IsUndefined,
      Uint32Value_number_of_lt v hv]
    exact Http2Settings.Find_Set_same _ _ _

/-- Witness of C5: the number 7 is truthy and is written over an empty
collection; 4294967295 is the pass-through value. -/
theorem SetEnablePush_and_passthrough_witness :
    (Http2Settings.empty.SetEnablePush (Value.number 7)).Find NGHTTP2_SETTINGS_ENABLE_PUSH
        = some 1 ∧
    (Http2Settings.empty.SetHeaderTableSize (Value.number 4294967295)).Find
        NGHTTP2_SETTINGS_HEADER_TABLE_SIZE = some 4294967295 :=
  ⟨((SetEnablePush_and_passthrough Http2Settings.empty (Value.number 7)
      4294967295 (by decide)).1 rfl).1,
   (SetEnablePush_and_passthrough Http2Settings.empty (Value.number 7)
      4294967295 (by decide)).2.2.1⟩

/-- C7: whatever the collection held before, after `Defaults` it holds
header-table-size, enable-push, initial-window-size and max-frame-size at
their default constants, and max-concurrent-streams and max-header-list-size
are absent. -/
theorem Defaults_sets_four_defaults (K : Constants) (settings : Http2Settings) :
    (settings.Defaults K).Find NGHTTP2_SETTINGS_HEADER_TABLE_SIZE
        = some K.DEFAULT_SETTINGS_HEADER_TABLE_SIZE ∧
    (settings.Defaults K).Find NGHTTP2_SETTINGS_ENABLE_PUSH
        = some K.DEFAULT_SETTINGS_ENABLE_PUSH ∧
    (settings.Defaults K).Find NGHTTP2_SETTINGS_INITIAL_WINDOW_SIZE
        = some K.DEFAULT_SETTINGS_INITIAL_WINDOW_SIZE ∧
    (settings.Defaults K).Find NGHTTP2_SETTINGS_MAX_FRAME_SIZE
        = some K.DEFAULT_SETTINGS_MAX_FRAME_SIZE ∧
    (settings.Defaults K).Find NGHTTP2_SETTINGS_MAX_CONCURRENT_STREAMS = none ∧
    (settings.Defaults K).Find NGHTTP2_SETTINGS_MAX_HEADER_LIST_SIZE = none := by
  refine ⟨?_, ?_, ?_, ?_, ?_, ?_⟩ <;> rfl

/-- C2: for each of the six settings and every 32-bit value written through
its property setter, a pack the engine accepts returns a payload whose entry
for that setting decodes to the clamped form of the value; in particular an
initial-window-size above `MAX_INITIAL_WINDOW_SIZE` decodes to exactly
`MAX_INITIAL_WINDOW_SIZE`, and an out-of-bounds value never decodes to
itself. -/
theorem set_then_Pack_yields_clamped (K : Constants)
    (iv_check : List nghttp2_settings_entry → Bool) (settings : Http2Settings)
    (id : nghttp2_settings_id) (v : Nat) (hv : v < 4294967296)
    (hK : K.MIN_MAX_FRAME_SIZE ≤ K.MAX_MAX_FRAME_SIZE)
    (hK32 : K.MIN_MAX_FRAME_SIZE < 4294967296)
    (hacc : iv_check
      (Http2Settings.setProperty K id settings (Value.number v)).CollectSettings = true) :
    ∃ payload,
      (Http2Settings.setProperty K id settings (Value.number v)).Pack iv_check
        = .ok (some payload) ∧
      payloadValue payload id = some (clampedForm K id v) ∧
      (id = NGHTTP2_SETTINGS_INITIAL_WINDOW_SIZE → K.MAX_INITIAL_WINDOW_SIZE < v →
        payloadValue payload id = some K.MAX_INITIAL_WINDOW_SIZE) ∧
      (clampedForm K id v ≠ v → payloadValue payload id ≠ some v) := by
  have hset := setProperty_number K id settings v hv hK
  have hval : payloadValue (nghttp2_frame_pack_settings_payload
      (Http2Settings.setProperty K id settings (Value.number v)).CollectSettings) id
      = some (clampedForm K id v) := by
    have hlt : clampedForm K id v < 4294967296 := by
      cases id <;> simp only [clampedForm] <;> first | omega | (split_ifs <;> omega)
    rw [hset]
    unfold Http2Settings.CollectSettings Http2Settings.Set
    rw [payloadValue_frame_pack]
    have hfs := Http2Settings.find_insertEntry_same id (clampedForm K id v) settings.settings_
    rw [Option.map_eq_some'] at hfs
    obtain ⟨e, he, hev⟩ := hfs
    dsimp only
    rw [he, Option.map_some', hev, Nat.mod_eq_of_lt hlt]
  refine ⟨_, Pack_of_nonempty iv_check _ ?_ hacc, hval, ?_, ?_⟩
  · rw [hset]
    exact insertEntry_ne_nil _ _ _
  · intro hid hbig
    rw [hval, hid]
    simp only [clampedForm]
    congr 1
    omega
  · intro hne
    rw [hval]
    intro h
    exact hne (Option.some.inj h)

/-- Witness of C2 at the RFC 7540 constants with an engine that accepts every
entry list: initial-window-size 4294967295 is written over the defaults. -/
theorem set_then_Pack_yields_clamped_witness :
    ∃ payload,
      (Http2Settings.setProperty rfc7540 NGHTTP2_SETTINGS_INITIAL_WINDOW_SIZE
          (Http2Settings.empty.Defaults rfc7540) (Value.number 4294967295)).Pack acceptAll
        = .ok (some payload) ∧
      payloadValue payload NGHTTP2_SETTINGS_INITIAL_WINDOW_SIZE
        = some (clampedForm rfc7540 NGHTTP2_SETTINGS_INITIAL_WINDOW_SIZE 4294967295) ∧
      (NGHTTP2_SETTINGS_INITIAL_WINDOW_SIZE = NGHTTP2_SETTINGS_INITIAL_WINDOW_SIZE →
        rfc7540.MAX_INITIAL_WINDOW_SIZE < 4294967295 →
        payloadValue payload NGHTTP2_SETTINGS_INITIAL_WINDOW_SIZE
          = some rfc7540.MAX_INITIAL_WINDOW_SIZE) ∧
      (clampedForm rfc7540 NGHTTP2_SETTINGS_INITIAL_WINDOW_SIZE 4294967295 ≠ 4294967295 →
        payloadValue payload NGHTTP2_SETTINGS_INITIAL_WINDOW_SIZE ≠ some 4294967295) :=
  set_then_Pack_yields_clamped rfc7540 acceptAll (Http2Settings.empty.Defaults rfc7540)
    NGHTTP2_SETTINGS_INITIAL_WINDOW_SIZE 4294967295 (by decide) (by decide) (by decide) rfl

/-- C6: whatever the collection held before, `Defaults` followed by a pack the
engine accepts returns a payload of 24 bytes that holds exactly four entries
of six bytes, for header-table-size, enable-push, initial-window-size and
max-frame-size in this order; the payload depends on the constants only, so
the order is the same on every run. -/
theorem Defaults_then_Pack_four_entries (K : Constants)
    (iv_check : List nghttp2_settings_entry → Bool) (settings : Http2Settings)
    (hacc : iv_check (settings.Defaults K).CollectSettings = true) :
    ∃ payload,
      (settings.Defaults K).Pack iv_check = .ok (some payload) ∧
      payload =
        put_uint16be 1 ++ put_uint32be K.DEFAULT_SETTINGS_HEADER_TABLE_SIZE ++
        (put_uint16be 2 ++ put_uint32be K.DEFAULT_SETTINGS_ENABLE_PUSH ++
        (put_uint16be 4 ++ put_uint32be K.DEFAULT_SETTINGS_INITIAL_WINDOW_SIZE ++
        (put_uint16be 5 ++ put_uint32be K.DEFAULT_SETTINGS_MAX_FRAME_SIZE ++ []))) ∧
      payload.length = 24 ∧
      (unpack_settings_payload payload).map (fun e => e.settings_id) =
        [NGHTTP2_SETTINGS_HEADER_TABLE_SIZE.toNat, NGHTTP2_SETTINGS_ENABLE_PUSH.toNat,
          NGHTTP2_SETTINGS_INITIAL_WINDOW_SIZE.toNat, NGHTTP2_SETTINGS_MAX_FRAME_SIZE.toNat] ∧
      ∀ other : Http2Settings, (other.Defaults K).Pack iv_check = .ok (some payload) := by
  have hne : (settings.Defaults K).settings_ ≠ [] :=
    insertEntry_ne_nil NGHTTP2_SETTINGS_MAX_FRAME_SIZE K.DEFAULT_SETTINGS_MAX_FRAME_SIZE _
  refine ⟨_, Pack_of_nonempty iv_check _ hne hacc, rfl, ?_, ?_, ?_⟩
  · rw [length_frame_pack]
    rfl
  · have hc : (settings.Defaults K).CollectSettings =
        [{ settings_id := 1, value := K.DEFAULT_SETTINGS_HEADER_TABLE_SIZE },
         { settings_id := 2, value := K.DEFAULT_SETTINGS_ENABLE_PUSH },
         { settings_id := 4, value := K.DEFAULT_SETTINGS_INITIAL_WINDOW_SIZE },
         { settings_id := 5, value := K.DEFAULT_SETTINGS_MAX_FRAME_SIZE }] := rfl
    rw [hc]
    simp only [unpack_frame_pack_cons, nghttp2_frame_pack_settings_payload,
      unpack_settings_payload, List.map_cons, List.map_nil, nghttp2_settings_id.toNat]
  · intro other
    exact Pack_of_nonempty iv_check _ hne hacc

/-- Witness of C6 at the RFC 7540 constants with an engine that accepts every
entry list, starting from a collection that already held
max-concurrent-streams. -/
theorem Defaults_then_Pack_four_entries_witness :
    ∃ payload,
      ((Http2Settings.empty.SetMaxConcurrentStreams (Value.number 100)).Defaults
          rfc7540).Pack acceptAll = .ok (some payload) ∧
      payload.length = 24 ∧
      (unpack_settings_payload payload).map (fun e => e.settings_id) = [1, 2, 4, 5] :=
  (Defaults_then_Pack_four_entries rfc7540 acceptAll
      (Http2Settings.empty.SetMaxConcurrentStreams (Value.number 100)) rfl).imp
    (fun _ h => ⟨h.1, h.2.2.1, h.2.2.2.1⟩)

/-- C9 (evaluation at the failing input): on a collection with no entries,
freshly constructed or just reset, `Pack` evaluates `entries[0]` on the empty
entry vector, whatever the engine would answer; nothing in `Pack` treats the
zero-entries case apart. -/
theorem Pack_without_entries_indexes_first (iv_check : List nghttp2_settings_entry → Bool)
    (localSettings : Bool) (settings : Http2Settings) :
    (Http2Settings.new none localSettings).Pack iv_check
        = .error (VectorFault.indexOutOfRange 0 0) ∧
    settings.Reset.Pack iv_check = .error (VectorFault.indexOutOfRange 0 0) :=
  ⟨rfl, rfl⟩

/-- C8 (as stated, refuted): a collection snapshotted from a session whose
engine reports 4294967295 for every remote setting is reachable by
construction, yet at the RFC 7540 constants it holds an initial-window-size
above `MAX_INITIAL_WINDOW_SIZE` and a max-frame-size above
`MAX_MAX_FRAME_SIZE`. -/
theorem snapshot_stores_reported_values_unclamped :
    Reachable rfc7540 anySnapshot (Http2Settings.new (some reportsAllOnes) false) ∧
    (Http2Settings.new (some reportsAllOnes) false).Find
        NGHTTP2_SETTINGS_INITIAL_WINDOW_SIZE = some 4294967295 ∧
    ¬ (4294967295 ≤ rfc7540.MAX_INITIAL_WINDOW_SIZE) ∧
    (Http2Settings.new (some reportsAllOnes) false).Find
        NGHTTP2_SETTINGS_MAX_FRAME_SIZE = some 4294967295 ∧
    ¬ (4294967295 ≤ rfc7540.MAX_MAX_FRAME_SIZE) ∧
    withinBounds rfc7540 (Http2Settings.new (some reportsAllOnes) false) = false :=
  ⟨Reachable.construct_snapshot reportsAllOnes false trivial, by decide, by decide,
    by decide, by decide, by decide⟩

/-- C8 (amended): when the default constants respect the bounds, every
collection reachable by construction without a session, by a snapshot whose
reported initial-window-size and max-frame-size respect the bounds, by
`Defaults`, by `Reset` and by property writes and erasures keeps every entry
within its bounds: an initial-window-size that is present is at most
`MAX_INITIAL_WINDOW_SIZE`, a max-frame-size that is present lies between
`MIN_MAX_FRAME_SIZE` and `MAX_MAX_FRAME_SIZE`, and the entries handed to the
engine by `CollectSettings` are the stored ones. -/
theorem reachable_settings_withinBounds (K : Constants)
    (hwin : K.DEFAULT_SETTINGS_INITIAL_WINDOW_SIZE ≤ K.MAX_INITIAL_WINDOW_SIZE)
    (hlo : K.MIN_MAX_FRAME_SIZE ≤ K.DEFAULT_SETTINGS_MAX_FRAME_SIZE)
    (hhi : K.DEFAULT_SETTINGS_MAX_FRAME_SIZE ≤ K.MAX_MAX_FRAME_SIZE)
    (settings : Http2Settings) (hreach : Reachable K (boundedSnapshot K) settings) :
    withinBounds K settings = true ∧
    (∀ v, settings.Find NGHTTP2_SETTINGS_INITIAL_WINDOW_SIZE = some v →
      v ≤ K.MAX_INITIAL_WINDOW_SIZE) ∧
    (∀ v, settings.Find NGHTTP2_SETTINGS_MAX_FRAME_SIZE = some v →
      K.MIN_MAX_FRAME_SIZE ≤ v ∧ v ≤ K.MAX_MAX_FRAME_SIZE) ∧
    settings.CollectSettings.map (fun e => e.value) = settings.settings_.map (fun e => e.2) := by
  have hinv : withinBounds K settings = true := by
    induction hreach with
    | construct_empty localSettings => rfl
    | construct_snapshot session localSettings hallowed =>
      obtain ⟨h1, h2, h3⟩ := hallowed
      simp only [Http2Settings.new]
      refine withinBounds_Set K _ _ _ rfl ?_
      refine withinBounds_Set K _ _ _ ?_ ?_
      · simp only [entryWithinBounds, Bool.and_eq_true, decide_eq_true_eq]
        exact ⟨h2, h3⟩
      refine withinBounds_Set K _ _ _ ?_ ?_
      · simp only [entryWithinBounds, decide_eq_true_eq]
        exact h1
      refine withinBounds_Set K _ _ _ rfl ?_
      refine withinBounds_Set K _ _ _ rfl ?_
      exact withinBounds_Set K _ _ _ rfl rfl
    | defaults s _ _ =>
      simp only [Http2Settings.Defaults]
      refine withinBounds_Set K _ _ _ ?_ ?_
      · simp only [entryWithinBounds, Bool.and_eq_true, decide_eq_true_eq]
        exact ⟨hlo, hhi⟩
      refine withinBounds_Set K _ _ _ ?_ ?_
      · simp only [entryWithinBounds, decide_eq_true_eq]
        exact hwin
      refine withinBounds_Set K _ _ _ rfl ?_
      exact withinBounds_Set K _ _ _ rfl rfl
    | reset s _ _ => rfl
    | write s id value _ ih =>
      exact withinBounds_setProperty K (le_trans hlo hhi) id s value ih
  refine ⟨hinv, ?_, ?_, ?_⟩
  · intro v hf
    have := Find_le_of_withinBounds K settings hinv _ v hf
    simpa [entryWithinBounds] using this
  · intro v hf
    have := Find_le_of_withinBounds K settings hinv _ v hf
    simpa [entryWithinBounds] using this
  · simp [Http2Settings.CollectSettings]

/-- Witness of C8 (amended) at the RFC 7540 constants: a snapshot of an engine
that reports the initial values, then a max-frame-size write of 0 and an
initial-window-size write of 4294967295. -/
theorem reachable_settings_withinBounds_witness :
    withinBounds rfc7540
      (Http2Settings.setProperty rfc7540 NGHTTP2_SETTINGS_INITIAL_WINDOW_SIZE
        (Http2Settings.setProperty rfc7540 NGHTTP2_SETTINGS_MAX_FRAME_SIZE
          (Http2Settings.new (some reportsInitialValues) true) (Value.number 0))
        (Value.number 4294967295)) = true :=
  (reachable_settings_withinBounds rfc7540 (by decide) (by decide) (by decide) _
    (Reachable.write _ _ _ (Reachable.write _ _ _
      (Reachable.construct_snapshot reportsInitialValues true
        ⟨by decide, by decide, by decide⟩)))).1

/-- C10: a begin-headers callback for a stream the engine holds (as it does
for the stream of every callback it dispatches) and to which no wrapper is
attached constructs exactly one wrapper, with that stream id, attaches it so
that `GetStream` of the id returns it as soon as the callback has returned,
leaves every other id as it was, and emits begin-headers with the new wrapper;
when a wrapper is already attached the callback constructs none, leaves the
engine's table unchanged and emits begin-headers with the attached wrapper. -/
theorem on_begin_headers_create_if_absent (session_obj : Http2Session)
    (session : nghttp2_session) (frame : nghttp2_frame)
    (hlive : session_obj.session_ = some session)
    (hholds : session.holds frame.hd.stream_id = true)
    (hlo : -2147483648 ≤ frame.hd.stream_id) (hhi : frame.hd.stream_id < 2147483648) :
    match nghttp2_session_get_stream_user_data session frame.hd.stream_id with
    | none =>
      ∃ after stream,
        session_obj.on_begin_headers frame = some (after, 0) ∧
        stream = { object := session_obj.objects, stream_id_ := frame.hd.stream_id } ∧
        after.objects = session_obj.objects + 1 ∧
        after.GetStream frame.hd.stream_id = some stream ∧
        (∀ j, j ≠ frame.hd.stream_id → after.GetStream j = session_obj.GetStream j) ∧
        after.emitted =
          session_obj.emitted ++ [Event.begin_headers stream frame.headers_cat]
    | some existing =>
      ∃ after,
        session_obj.on_begin_headers frame = some (after, 0) ∧
        after.objects = session_obj.objects ∧
        after.session_ = session_obj.session_ ∧
        after.GetStream frame.hd.stream_id = some existing ∧
        after.emitted =
          session_obj.emitted ++ [Event.begin_headers existing frame.headers_cat] := by
  have hconv := toInt32_toUint32 frame.hd.stream_id hlo hhi
  cases hreg : nghttp2_session_get_stream_user_data session frame.hd.stream_id with
  | none =>
    have hrun : session_obj.on_begin_headers frame =
        some (EMIT { session_obj with
            objects := session_obj.objects + 1
            session_ := some (nghttp2_session_set_stream_user_data session frame.hd.stream_id
              { object := session_obj.objects, stream_id_ := frame.hd.stream_id }) }
          (Event.begin_headers
            { object := session_obj.objects, stream_id_ := frame.hd.stream_id }
            frame.headers_cat), 0) := by
      simp only [Http2Session.on_begin_headers, hlive, hreg, Http2Session.create_stream,
        hconv, Http2Stream.AddStream, ite_self]
    refine ⟨_, { object := session_obj.objects, stream_id_ := frame.hd.stream_id }, hrun, rfl,
      rfl, ?_, ?_, rfl⟩
    · simp only [Http2Session.GetStream, Http2Session.sessionIsNull, EMIT, Option.isNone_some,
        Bool.false_eq_true, if_false]
      exact get_set_stream_user_data_same session frame.hd.stream_id _ hholds
    · intro j hj
      simp only [Http2Session.GetStream, Http2Session.sessionIsNull, EMIT, hlive,
        Option.isNone_some, Bool.false_eq_true, if_false]
      exact get_set_stream_user_data_other session frame.hd.stream_id j _ hj
  | some existing =>
    have hrun : session_obj.on_begin_headers frame =
        some (EMIT session_obj (Event.begin_headers existing frame.headers_cat), 0) := by
      simp only [Http2Session.on_begin_headers, hlive, hreg]
    refine ⟨_, hrun, rfl, rfl, ?_, rfl⟩
    simp only [Http2Session.GetStream, Http2Session.sessionIsNull, EMIT, hlive,
      Option.isNone_some, Bool.false_eq_true, if_false, hreg]

/-- Witness of C10 on a session whose engine holds stream 1 with nothing
attached and stream 3 with a wrapper attached: the callback for stream 1
constructs and attaches a wrapper, the callback for stream 3 reuses the
attached one. -/
theorem on_begin_headers_create_if_absent_witness :
    (∃ after stream,
      sampleSession.on_begin_headers (sampleFrame 1) = some (after, 0) ∧
      stream = { object := 1, stream_id_ := 1 } ∧
      after.objects = 2 ∧
      after.GetStream 1 = some stream ∧
      (∀ j, j ≠ 1 → after.GetStream j = sampleSession.GetStream j) ∧
      after.emitted = [Event.begin_headers stream 0]) ∧
    (∃ after,
      sampleSession.on_begin_headers (sampleFrame 3) = some (after, 0) ∧
      after.objects = 1 ∧
      after.session_ = sampleSession.session_ ∧
      after.GetStream 3 = some { object := 0, stream_id_ := 3 } ∧
      after.emitted = [Event.begin_headers { object := 0, stream_id_ := 3 } 0]) :=
  ⟨on_begin_headers_create_if_absent sampleSession
      { streams := [(1, none), (3, some { object := 0, stream_id_ := 3 })], server := true }
      (sampleFrame 1) rfl (by decide) (by decide) (by decide),
   on_begin_headers_create_if_absent sampleSession
      { streams := [(1, none), (3, some { object := 0, stream_id_ := 3 })], server := true }
      (sampleFrame 3) rfl (by decide) (by decide) (by decide)⟩

/-- The attachment goes through the engine: for a stream the engine does not
hold (stream 5 of the sample session) the callback still constructs a wrapper
and emits the event, and `GetStream` finds nothing afterwards. -/
theorem on_begin_headers_stream_not_held :
    ∃ after,
      sampleSession.on_begin_headers (sampleFrame 5) = some (after, 0) ∧
      after.objects = 2 ∧
      after.GetStream 5 = none :=
  ⟨_, rfl, rfl, by decide⟩

/-- C11: a header callback for a stream to which no wrapper is attached fails
the `CHECK`, which aborts the process: no event is emitted and no wrapper is
constructed or attached.  With a wrapper attached the callback emits `header`
with that wrapper, the name and the value, constructs nothing and leaves the
engine's table as it was; and a header callback that returns has found a
wrapper attached. -/
theorem on_header_requires_attached_stream (session : nghttp2_session)
    (session_obj : Http2Session) (frame : nghttp2_frame) (name value : List Nat)
    (flags : Nat) :
    (match nghttp2_session_get_stream_user_data session frame.hd.stream_id with
      | none =>
        Http2Session.on_header session frame name value flags session_obj
          = .error Fault.checkFailed
      | some stream =>
        ∃ after,
          Http2Session.on_header session frame name value flags session_obj
            = .ok (after, 0) ∧
          after.emitted = session_obj.emitted ++ [Event.header stream name value] ∧
          after.objects = session_obj.objects ∧
          after.session_ = session_obj.session_) ∧
    (∀ after r,
      Http2Session.on_header session frame name value flags session_obj = .ok (after, r) →
      ∃ stream,
        nghttp2_session_get_stream_user_data session frame.hd.stream_id = some stream ∧
        after.emitted = session_obj.emitted ++ [Event.header stream name value]) := by
  cases hg : nghttp2_session_get_stream_user_data session frame.hd.stream_id with
  | none =>
    refine ⟨by simp only [Http2Session.on_header, hg], ?_⟩
    intro after r h
    simp [Http2Session.on_header, hg] at h
  | some stream =>
    refine ⟨⟨EMIT session_obj (Event.header stream name value),
      by simp only [Http2Session.on_header, hg], rfl, rfl, rfl⟩, ?_⟩
    intro after r h
    simp only [Http2Session.on_header, hg, Except.ok.injEq, Prod.mk.injEq] at h
    obtain ⟨rfl, rfl⟩ := h
    exact ⟨stream, rfl, rfl⟩

/-- C12 (evaluation at the failing input): on a session whose engine holds
stream 1 with no wrapper attached, a received DATA frame, a received HEADERS
frame and a data chunk for stream 1 each reach `stream->object()` through the
null pointer; no `CHECK` stands before that use.  The header callback, on the
same input, does fail its `CHECK`. -/
theorem frame_and_chunk_callbacks_use_null_stream :
    sampleSession.dispatch (Callback.on_frame_recv (sampleDataFrame 1))
      = .error Fault.nullDereference ∧
    sampleSession.dispatch (Callback.on_frame_recv (sampleFrame 1))
      = .error Fault.nullDereference ∧
    sampleSession.dispatch (Callback.on_data_chunk_recv 0 1 [104, 105])
      = .error Fault.nullDereference ∧
    sampleSession.dispatch (Callback.on_header (sampleFrame 1) [97] [98] 0)
      = .error Fault.checkFailed :=
  ⟨rfl, rfl, rfl, rfl⟩

/-- C13 (as stated, refuted): a received SETTINGS frame, and a stream close for
stream 1, to which no wrapper is attached, each return without emitting any
event. -/
theorem callbacks_without_event :
    sampleSession.dispatch (Callback.on_frame_recv sampleSettingsFrame)
      = .ok (sampleSession, 0) ∧
    sampleSession.dispatch (Callback.on_stream_close 1 0) = .ok (sampleSession, 0) ∧
    sampleSession.emitted = [] :=
  ⟨rfl, rfl, rfl⟩

/-- C13 (amended): every invocation that returns appends its own share of
events to the emitted ones and changes none of the earlier: exactly one event,
derived from the invocation, for send, on-header, on-begin-headers, data-chunk
received, frame sent, a received RST_STREAM, GOAWAY, DATA or HEADERS frame, and
a stream close with a wrapper attached; none for select-padding, for a stream
close with nothing attached and for a received frame of another type.  For
every sequence of invocations that returns, the emitted events are the shares
of the invocations in the order of the invocations.  On a live session an
invocation returns whenever the wrapper it needs is attached. -/
theorem callbacks_emit_in_order (s : Http2Session) :
    (∀ callback after r, s.dispatch callback = .ok (after, r) →
      ∃ events, after.emitted = s.emitted ++ events ∧
        events.length = (if callback.emitsOn s then 1 else 0) ∧
        callback.accountsFor events) ∧
    (∀ callbacks after, s.dispatchAll callbacks = .ok after →
      ∃ shares : List (List Event),
        List.Forall₂ Callback.accountsFor callbacks shares ∧
        after.emitted = s.emitted ++ shares.flatten) ∧
    (∀ callback, s.session_.isSome = true →
      (∀ id, callback.needsStream = some id → (s.GetStream id).isSome = true) →
      ∃ after r, s.dispatch callback = .ok (after, r)) := by
  refine ⟨fun callback after r h => dispatch_emits s callback after r h,
    fun callbacks after h => dispatchAll_emits callbacks s after h, ?_⟩
  intro callback hlive hstream
  obtain ⟨engine, hs⟩ := Option.isSome_iff_exists.mp hlive
  exact dispatch_returns s engine hs callback hstream

/-- A sequence of eight invocations on the sample session, evaluated: the six
that emit do so in the order of the invocations, the received SETTINGS frame
and select-padding leave no trace. -/
theorem dispatchAll_sample_sequence :
    (sampleSession.dispatchAll
      [Callback.on_begin_headers (sampleFrame 1),
       Callback.on_header (sampleFrame 1) [97] [98] 0,
       Callback.on_frame_recv sampleSettingsFrame,
       Callback.on_frame_recv (sampleFrame 1),
       Callback.on_data_chunk_recv 0 1 [104, 105],
       Callback.select_padding (sampleDataFrame 1) 100,
       Callback.on_frame_send (sampleDataFrame 1),
       Callback.on_stream_close 1 0]).map (fun after => after.emitted) =
    .ok [Event.begin_headers { object := 1, stream_id_ := 1 } 0,
      Event.header { object := 1, stream_id_ := 1 } [97] [98],
      Event.headers_complete { object := 1, stream_id_ := 1 } 4,
      Event.data_chunk { object := 1, stream_id_ := 1 } 0 [104, 105],
      Event.frame_sent 1 0 1,
      Event.stream_close { object := 1, stream_id_ := 1 } 0] :=
  rfl

/-- C14: on a stream of a live session, `ResumeData` returns 0 and makes no
call into the engine when the local side of the stream is closed; when it is
open it calls the engine's resume function for the id of the stream and
returns the number the engine answers, unchanged. -/
theorem ResumeData_closed_zero_open_engine_result (reply : EngineCall → Int)
    (stream : Http2Stream) (session : Http2Session) (engine : nghttp2_session)
    (hlive : session.session_ = some engine) :
    stream.ResumeData reply false session
      = .ok { session := session, returned := some (.integer 0), thrown := none,
              calls := [] } ∧
    stream.ResumeData reply true session
      = .ok { session := session
              returned := some (.integer (reply (.nghttp2_session_resume_data stream.stream_id_)))
              thrown := none
              calls := [.nghttp2_stream_get_state stream.stream_id_,
                .nghttp2_session_resume_data stream.stream_id_] } := by
  have h := sessionIsNull_of_live session engine hlive
  constructor <;> simp [Http2Stream.ResumeData, h, Completion.value]

/-- Witness of C14 on stream 3 of the sample session, with an engine that
answers -510 to every call. -/
theorem ResumeData_closed_zero_open_engine_result_witness :
    Http2Stream.ResumeData (constantReply (-510)) false { object := 0, stream_id_ := 3 }
        sampleSession
      = .ok { session := sampleSession, returned := some (.integer 0), thrown := none,
              calls := [] } ∧
    Http2Stream.ResumeData (constantReply (-510)) true { object := 0, stream_id_ := 3 }
        sampleSession
      = .ok { session := sampleSession, returned := some (.integer (-510)), thrown := none,
              calls := [.nghttp2_stream_get_state 3, .nghttp2_session_resume_data 3] } :=
  ResumeData_closed_zero_open_engine_result (constantReply (-510))
    { object := 0, stream_id_ := 3 } sampleSession _ rfl

/-- C15 (evaluation at the failing input): on a session whose engine handle is
null, `GetWantRead` and `GetWantWrite` call the engine with the null handle;
neither has the test the other accessors start with.  The outbound queue size
and `GetStream`, for comparison, return nothing and make no call. -/
theorem want_accessors_call_engine_with_null_handle (reply : EngineCall → Int)
    (session : Http2Session) (id : Int) :
    Http2Session.GetWantRead reply { session with session_ := none }
      = .error Fault.nullHandle ∧
    Http2Session.GetWantWrite reply { session with session_ := none }
      = .error Fault.nullHandle ∧
    Http2Session.GetOutboundQueueSize reply { session with session_ := none }
      = .ok (Completion.nothing { session with session_ := none }) ∧
    Http2Session.GetStream { session with session_ := none } id = none :=
  ⟨rfl, rfl, rfl, rfl⟩

/-- C16 (evaluation at the failing input): for a stream whose session has a
null engine handle, `GetState`, `GetSumDependencyWeight` and `GetWeight` hand
the stream pointer of the released engine to the engine; none of the three has
the test the other stream methods start with.  `GetLocalWindowSize`, for
comparison, returns nothing and makes no call. -/
theorem stream_state_accessors_use_released_stream (reply : EngineCall → Int)
    (stream : Http2Stream) (session : Http2Session) :
    stream.GetState reply { session with session_ := none }
      = .error Fault.releasedStream ∧
    stream.GetSumDependencyWeight reply { session with session_ := none }
      = .error Fault.releasedStream ∧
    stream.GetWeight reply { session with session_ := none }
      = .error Fault.releasedStream ∧
    stream.GetLocalWindowSize reply { session with session_ := none }
      = .ok (Completion.nothing { session with session_ := none }) :=
  ⟨rfl, rfl, rfl, rfl⟩

/-- C17: once `Destroy` has returned, the engine handle of the session is
null, and every operation on the session or on one of its streams
(`receiveData`, `sendData`, `terminate`, `gracefulTerminate`,
`createIdleStream`, the settings and window writes, `destroy`, the stream
submissions, `resumeData`, `sendPushPromise`), whatever the engine would
answer, returns at once: no call into the engine, nothing returned, the
session as it was.  So after every sequence of such operations the handle is
still null. -/
theorem destroyed_session_stays_destroyed (session : Http2Session)
    (completion : Completion) (hdestroy : session.Destroy = .ok completion)
    (steps : List Invocation) :
    completion.session.session_ = none ∧
    completion.session.performAll steps = .ok completion.session ∧
    (∀ step : Invocation,
      completion.session.perform step = .ok (Completion.nothing completion.session)) := by
  have hnull : completion.session.session_ = none := by
    unfold Http2Session.Destroy at hdestroy
    split_ifs at hdestroy with h
    · simp only [Except.ok.injEq] at hdestroy
      subst hdestroy
      simpa [Http2Session.sessionIsNull, Completion.nothing] using h
    · simp only [Except.ok.injEq] at hdestroy
      subst hdestroy
      rfl
  exact ⟨hnull, performAll_of_null steps _ hnull, fun step => perform_of_null _ hnull step⟩

/-- Witness of C17: the sample session is destroyed, then data is received, a
push promise is sent on stream 3, the session is terminated and destroyed
again, with an engine that would answer 0 to every call. -/
theorem destroyed_session_stays_destroyed_witness :
    ({ type_ := 0, session_ := none, emitted := [Event.destroy], objects := 1 } :
      Http2Session).performAll
      [{ operation := .receiveData (some [80, 82, 73]), reply := constantReply 0,
         dispatched := [Callback.on_begin_headers (sampleFrame 5)] },
       { operation := .sendPushPromise { object := 0, stream_id_ := 3 } sampleHeaders,
         reply := constantReply 0, dispatched := [] },
       { operation := .terminate (Value.number 0), reply := constantReply 0,
         dispatched := [] },
       { operation := .destroy, reply := constantReply 0, dispatched := [] }]
      = .ok { type_ := 0, session_ := none, emitted := [Event.destroy], objects := 1 } :=
  (destroyed_session_stays_destroyed sampleSession
    { session := { type_ := 0, session_ := none, emitted := [Event.destroy], objects := 1 }
      returned := none, thrown := none, calls := [.nghttp2_session_del] } rfl _).2.1

/-- C18: on a live session each submission (`SendTrailers` and `Respond` with
a header list that is not empty, `SendContinue`, `SendDataFrame` with a
provider, `SendRstStream`, `SendPriority`, `ChangeStreamPriority`) makes
exactly one call into the engine, the submission, and returns the number the
engine answers to that call, whatever that number is. -/
theorem submissions_return_engine_result (reply : EngineCall → Int) (stream : Http2Stream)
    (session : Http2Session) (engine : nghttp2_session)
    (hlive : session.session_ = some engine)
    (arg0 : HeaderList) (hheaders : GetHeaders arg0 [] ≠ [])
    (provider : Nat) (a0 a1 a2 : Value) :
    stream.SendTrailers reply session arg0
      = .ok (Completion.value session
          (.integer (reply (.nghttp2_submit_trailer stream.stream_id_ (GetHeaders arg0 []))))
          [.nghttp2_submit_trailer stream.stream_id_ (GetHeaders arg0 [])]) ∧
    stream.SendContinue reply session
      = .ok (Completion.value session
          (.integer (reply (.nghttp2_submit_headers stream.stream_id_
            Http2Stream.continueHeaders)))
          [.nghttp2_submit_headers stream.stream_id_ Http2Stream.continueHeaders]) ∧
    stream.Respond reply session arg0 none
      = .ok (Completion.value session
          (.integer (reply
            (.nghttp2_submit_response stream.stream_id_ (GetHeaders arg0 []) none)))
          [.nghttp2_submit_response stream.stream_id_ (GetHeaders arg0 []) none]) ∧
    stream.Respond reply session arg0 (some (.provider provider))
      = .ok (Completion.value session
          (.integer (reply
            (.nghttp2_submit_response stream.stream_id_ (GetHeaders arg0 []) (some provider))))
          [.nghttp2_submit_response stream.stream_id_ (GetHeaders arg0 [])
            (some provider)]) ∧
    stream.SendDataFrame reply session a0 (.provider provider)
      = .ok (Completion.value session
          (.integer (reply (.nghttp2_submit_data
            (if a0.BooleanValue then 0 ||| Http2Stream.NGHTTP2_FLAG_END_STREAM else 0)
            stream.stream_id_ provider)))
          [.nghttp2_submit_data
            (if a0.BooleanValue then 0 ||| Http2Stream.NGHTTP2_FLAG_END_STREAM else 0)
            stream.stream_id_ provider]) ∧
    stream.SendRstStream reply session a0
      = .ok (Completion.value session
          (.integer (reply (.nghttp2_submit_rst_stream stream.stream_id_ a0.Uint32Value)))
          [.nghttp2_submit_rst_stream stream.stream_id_ a0.Uint32Value]) ∧
    stream.SendPriority reply session a0 a1 a2
      = .ok (Completion.value session
          (.integer (reply (.nghttp2_submit_priority stream.stream_id_
            (Http2Priority.new a0.Int32Value a1.Int32Value a2.BooleanValue).spec_)))
          [.nghttp2_submit_priority stream.stream_id_
            (Http2Priority.new a0.Int32Value a1.Int32Value a2.BooleanValue).spec_]) ∧
    stream.ChangeStreamPriority reply session a0 a1 a2
      = .ok (Completion.value session
          (.integer (reply (.nghttp2_session_change_stream_priority stream.stream_id_
            (Http2Priority.new a0.Int32Value a1.Int32Value a2.BooleanValue).spec_)))
          [.nghttp2_session_change_stream_priority stream.stream_id_
            (Http2Priority.new a0.Int32Value a1.Int32Value a2.BooleanValue).spec_]) := by
  have h := sessionIsNull_of_live session engine hlive
  obtain ⟨first, hfirst⟩ := firstElement_of_ne_nil _ hheaders
  refine ⟨?_, ?_, ?_, ?_, ?_, ?_, ?_, ?_⟩
  · simp only [Http2Stream.SendTrailers, h, hfirst, Bool.false_eq_true, if_false]
  · simp only [Http2Stream.SendContinue, h, Bool.false_eq_true, if_false]
  · simp only [Http2Stream.Respond, h, hfirst, Bool.false_eq_true, if_false]
  · simp only [Http2Stream.Respond, h, hfirst, Bool.false_eq_true, if_false]
  · simp only [Http2Stream.SendDataFrame, h, Bool.false_eq_true, if_false]
  · simp only [Http2Stream.SendRstStream, h, Bool.false_eq_true, if_false]
  · simp only [Http2Stream.SendPriority, h, Bool.false_eq_true, if_false]
  · simp only [Http2Stream.ChangeStreamPriority, h, Bool.false_eq_true, if_false]

/-- Witness of C18 on stream 3 of the sample session with an engine that
answers the error code -510 to every call: the trailers and the reset return
-510. -/
theorem submissions_return_engine_result_witness :
    (Http2Stream.SendTrailers (constantReply (-510)) { object := 0, stream_id_ := 3 }
        sampleSession sampleHeaders).map (fun c => (c.returned, c.calls.length))
      = .ok (some (.integer (-510)), 1) ∧
    (Http2Stream.SendRstStream (constantReply (-510)) { object := 0, stream_id_ := 3 }
        sampleSession (Value.number 8)).map (fun c => (c.returned, c.calls))
      = .ok (some (.integer (-510)), [.nghttp2_submit_rst_stream 3 8]) :=
  ⟨congrArg (Except.map (fun c => (c.returned, c.calls.length)))
      (submissions_return_engine_result (constantReply (-510))
        { object := 0, stream_id_ := 3 } sampleSession _ rfl sampleHeaders (by decide) 0
        (Value.number 8) (Value.number 0) (Value.number 0)).1,
   congrArg (Except.map (fun c => (c.returned, c.calls)))
      (submissions_return_engine_result (constantReply (-510))
        { object := 0, stream_id_ := 3 } sampleSession _ rfl sampleHeaders (by decide) 0
        (Value.number 8) (Value.number 0) (Value.number 0)).2.2.2.2.2.1⟩

/-- C19: on a stream of a live session whose engine is a client's (as
`nghttp2_session_client_new2` makes it), `SendPushPromise` throws the error
and does nothing else: the one call into the engine is the test for a server,
no push promise is submitted, no wrapper is constructed or attached, nothing
is returned and the session is as it was.  Whenever `SendPushPromise` returns,
it has thrown if and only if the engine is not a server's; on a server's it
returns without throwing for every header list that is not empty. -/
theorem SendPushPromise_throws_iff_not_server (reply : EngineCall → Int)
    (stream : Http2Stream) (session : Http2Session) (engine : nghttp2_session)
    (hlive : session.session_ = some engine) (arg0 : HeaderList) :
    (engine.server = false →
      stream.SendPushPromise reply session arg0
        = .ok { session := session, returned := none
                thrown := some "Client Http2Session instances cannot use push"
                calls := [.nghttp2_session_check_server_session] }) ∧
    (∀ completion, stream.SendPushPromise reply session arg0 = .ok completion →
      (completion.thrown.isSome = true ↔ engine.server = false)) ∧
    (engine.server = true → GetHeaders arg0 [] ≠ [] →
      ∃ completion, stream.SendPushPromise reply session arg0 = .ok completion ∧
        completion.thrown = none) ∧
    nghttp2_session_client_new2.server = false ∧
    nghttp2_session_server_new2.server = true := by
  have h := sessionIsNull_of_live session engine hlive
  have hclient : engine.server = false →
      stream.SendPushPromise reply session arg0
        = .ok { session := session, returned := none
                thrown := some "Client Http2Session instances cannot use push"
                calls := [.nghttp2_session_check_server_session] } := by
    intro hs
    simp [Http2Stream.SendPushPromise, h, hlive, nghttp2_session_check_server_session, hs,
      Completion.error]
  have hserver : engine.server = true →
      ∀ completion, stream.SendPushPromise reply session arg0 = .ok completion →
        completion.thrown = none := by
    intro hs completion hrun
    simp only [Http2Stream.SendPushPromise, h, hlive, nghttp2_session_check_server_session,
      hs, Bool.false_eq_true, if_false, if_true, one_ne_zero] at hrun
    cases hf : firstElement (GetHeaders arg0 []) with
    | error fault => simp [hf] at hrun
    | ok first =>
      simp only [hf, Http2Session.create_stream, Http2Stream.AddStream, ite_self] at hrun
      split_ifs at hrun with hpos
      · simp only [Except.ok.injEq] at hrun
        subst hrun
        rfl
      · simp only [Except.ok.injEq] at hrun
        subst hrun
        rfl
  refine ⟨hclient, ?_, ?_, rfl, rfl⟩
  · intro completion hrun
    cases hs : engine.server with
    | false =>
      rw [hclient hs] at hrun
      simp only [Except.ok.injEq] at hrun
      subst hrun
      simp
    | true =>
      have := hserver hs completion hrun
      simp [this]
  · intro hs hheaders
    obtain ⟨first, hf⟩ := firstElement_of_ne_nil _ hheaders
    have hrun : ∃ completion, stream.SendPushPromise reply session arg0 = .ok completion := by
      simp only [Http2Stream.SendPushPromise, h, hlive, nghttp2_session_check_server_session,
        hs, Bool.false_eq_true, if_false, if_true, one_ne_zero, hf,
        Http2Session.create_stream]
      split_ifs <;> exact ⟨_, rfl⟩
    obtain ⟨completion, hc⟩ := hrun
    exact ⟨completion, hc, hserver hs completion hc⟩

/-- Witness of C19 on the sample client session: the push promise on stream 1
throws, whatever the engine would answer to a submission. -/
theorem SendPushPromise_throws_iff_not_server_witness :
    Http2Stream.SendPushPromise (constantReply 2) { object := 0, stream_id_ := 1 }
        sampleClientSession sampleHeaders
      = .ok { session := sampleClientSession, returned := none
              thrown := some "Client Http2Session instances cannot use push"
              calls := [.nghttp2_session_check_server_session] } :=
  (SendPushPromise_throws_iff_not_server (constantReply 2) { object := 0, stream_id_ := 1 }
    sampleClientSession _ rfl sampleHeaders).1 rfl

/-- C20: on a stream of a live server session, with a header list that is not
empty: when the engine answers the submission with a positive number (the id
of the promised stream, which it has then reserved), `SendPushPromise`
constructs exactly one wrapper, with that id, attaches it so that `GetStream`
of the id returns it, and returns its host object; when the engine answers
with any other number, no wrapper is constructed, the session is as it was and
that number is returned. -/
theorem SendPushPromise_returns_promised_stream (reply : EngineCall → Int)
    (stream : Http2Stream) (session : Http2Session) (engine : nghttp2_session)
    (hlive : session.session_ = some engine) (hserver : engine.server = true)
    (arg0 : HeaderList) (hheaders : GetHeaders arg0 [] ≠ []) :
    (0 < reply (.nghttp2_submit_push_promise stream.stream_id_ (GetHeaders arg0 [])) →
      reply (.nghttp2_submit_push_promise stream.stream_id_ (GetHeaders arg0 []))
        < 2147483648 →
      ∃ completion created,
        stream.SendPushPromise reply session arg0 = .ok completion ∧
        completion.returned = some (.stream created) ∧
        completion.thrown = none ∧
        created = { object := session.objects
                    stream_id_ := reply (.nghttp2_submit_push_promise stream.stream_id_
                      (GetHeaders arg0 [])) } ∧
        completion.session.objects = session.objects + 1 ∧
        completion.session.GetStream
          (reply (.nghttp2_submit_push_promise stream.stream_id_ (GetHeaders arg0 [])))
          = some created) ∧
    (reply (.nghttp2_submit_push_promise stream.stream_id_ (GetHeaders arg0 [])) ≤ 0 →
      stream.SendPushPromise reply session arg0
        = .ok { session := session
                returned := some (.integer
                  (reply (.nghttp2_submit_push_promise stream.stream_id_ (GetHeaders arg0 []))))
                thrown := none
                calls := [.nghttp2_session_check_server_session,
                  .nghttp2_submit_push_promise stream.stream_id_ (GetHeaders arg0 [])] }) := by
  have h := sessionIsNull_of_live session engine hlive
  obtain ⟨first, hf⟩ := firstElement_of_ne_nil _ hheaders
  constructor
  · intro hpos hint
    have hconv := toInt32_toUint32 _ (by omega) hint
    refine ⟨
      { session :=
          { type_ := session.type_
            session_ := some (nghttp2_session_set_stream_user_data
              (nghttp2_submit_push_promise engine
                (reply (.nghttp2_submit_push_promise stream.stream_id_ (GetHeaders arg0 [])))
                stream)
              (reply (.nghttp2_submit_push_promise stream.stream_id_ (GetHeaders arg0 [])))
              { object := session.objects
                stream_id_ := reply (.nghttp2_submit_push_promise stream.stream_id_
                  (GetHeaders arg0 [])) })
            emitted := session.emitted
            objects := session.objects + 1 }
        returned := some (.stream
          { object := session.objects
            stream_id_ := reply (.nghttp2_submit_push_promise stream.stream_id_
              (GetHeaders arg0 [])) })
        thrown := none
        calls := [.nghttp2_session_check_server_session,
          .nghttp2_submit_push_promise stream.stream_id_ (GetHeaders arg0 []),
          .nghttp2_session_find_stream
            (reply (.nghttp2_submit_push_promise stream.stream_id_ (GetHeaders arg0 []))),
          .nghttp2_session_set_stream_user_data
            (reply (.nghttp2_submit_push_promise stream.stream_id_ (GetHeaders arg0 [])))] },
      { object := session.objects
        stream_id_ := reply (.nghttp2_submit_push_promise stream.stream_id_
          (GetHeaders arg0 [])) }, ?_, rfl, rfl, rfl, rfl, ?_⟩
    · simp only [Http2Stream.SendPushPromise, h, hlive, nghttp2_session_check_server_session,
        hserver, Bool.false_eq_true, if_false, if_true, one_ne_zero, hf,
        Http2Session.create_stream, gt_iff_lt, hpos, hconv, Http2Stream.AddStream, ite_self,
        Completion.value]
    · simp only [Http2Session.GetStream, Http2Session.sessionIsNull,
        Option.isNone_some, Bool.false_eq_true, if_false]
      apply get_set_stream_user_data_same
      simp [nghttp2_session.holds, nghttp2_submit_push_promise, hpos]
  · intro hneg
    have hnot : ¬ 0 < reply (.nghttp2_submit_push_promise stream.stream_id_
        (GetHeaders arg0 [])) := by omega
    simp only [Http2Stream.SendPushPromise, h, hlive, nghttp2_session_check_server_session,
      hserver, Bool.false_eq_true, if_false, if_true, one_ne_zero, hf, gt_iff_lt, hnot,
      nghttp2_submit_push_promise, with_session_eq session engine hlive, Completion.value]

/-- Witness of C20 on stream 3 of the sample server session: an engine that
answers 2 promises stream 2, an engine that answers -510 refuses. -/
theorem SendPushPromise_returns_promised_stream_witness :
    (∃ completion created,
      Http2Stream.SendPushPromise (constantReply 2) { object := 0, stream_id_ := 3 }
        sampleSession sampleHeaders = .ok completion ∧
      completion.returned = some (.stream created) ∧
      completion.thrown = none ∧
      created = { object := 1, stream_id_ := 2 } ∧
      completion.session.objects = 2 ∧
      completion.session.GetStream 2 = some created) ∧
    (Http2Stream.SendPushPromise (constantReply (-510)) { object := 0, stream_id_ := 3 }
        sampleSession sampleHeaders).map (fun c => (c.session, c.returned))
      = .ok (sampleSession, some (.integer (-510))) :=
  ⟨(SendPushPromise_returns_promised_stream (constantReply 2)
      { object := 0, stream_id_ := 3 } sampleSession _ rfl rfl sampleHeaders
      (by decide)).1 (by decide) (by decide),
   congrArg (Except.map (fun c => (c.session, c.returned)))
     ((SendPushPromise_returns_promised_stream (constantReply (-510))
      { object := 0, stream_id_ := 3 } sampleSession _ rfl rfl sampleHeaders
      (by decide)).2 (by decide))⟩

/-- C21: on a live session, `ReceiveData` with a buffer and `SendData` each
return after the engine call and the callbacks it invoked, and the events then
are those the callbacks left followed by one `canClose` when the engine
answers 0 to both `nghttp2_session_want_read` and `nghttp2_session_want_write`
and by nothing otherwise, so the number of `canClose` events grows by exactly
one in the first case and not at all in the second.  On a session whose handle
is null both return at once: no call into the engine, nothing emitted. -/
theorem pump_emits_canClose_iff_wants_neither (reply : EngineCall → Int)
    (dispatched : List Callback) (session mid : Http2Session) (engine : nghttp2_session)
    (data : List Nat)
    (hlive : session.session_ = some engine)
    (hcallbacks : session.dispatchAll dispatched = .ok mid) :
    (∃ done, session.ReceiveData reply dispatched (some data) = .ok done ∧
      done.calls = [.nghttp2_session_mem_recv data, .nghttp2_session_want_read,
        .nghttp2_session_want_write] ∧
      done.session.emitted = mid.emitted ++
        (if reply .nghttp2_session_want_read = 0 ∧ reply .nghttp2_session_want_write = 0
          then [Event.canClose] else []) ∧
      done.session.emitted.count Event.canClose = session.emitted.count Event.canClose +
        (if reply .nghttp2_session_want_read = 0 ∧ reply .nghttp2_session_want_write = 0
          then 1 else 0)) ∧
    (∃ done, session.SendData reply dispatched = .ok done ∧
      done.calls = [.nghttp2_session_send, .nghttp2_session_want_read,
        .nghttp2_session_want_write] ∧
      done.session.emitted = mid.emitted ++
        (if reply .nghttp2_session_want_read = 0 ∧ reply .nghttp2_session_want_write = 0
          then [Event.canClose] else []) ∧
      done.session.emitted.count Event.canClose = session.emitted.count Event.canClose +
        (if reply .nghttp2_session_want_read = 0 ∧ reply .nghttp2_session_want_write = 0
          then 1 else 0)) ∧
    (∀ arg0 : Option (List Nat),
      Http2Session.ReceiveData reply dispatched { session with session_ := none } arg0
        = .ok (Completion.nothing { session with session_ := none })) ∧
    Http2Session.SendData reply dispatched { session with session_ := none }
      = .ok (Completion.nothing { session with session_ := none }) := by
  obtain ⟨hem, hcount⟩ := canClose_after_pump reply dispatched session mid hcallbacks
  refine ⟨⟨_, ReceiveData_of_live reply dispatched session mid engine data hlive hcallbacks,
    rfl, hem, hcount⟩,
    ⟨_, SendData_of_live reply dispatched session mid engine hlive hcallbacks,
    rfl, hem, hcount⟩, ?_, rfl⟩
  intro arg0
  rfl

/-- Witness of C21: the sample session receives three bytes while the engine
announces the headers of stream 3, and the engine then wants neither to read
nor to write. -/
theorem pump_emits_canClose_iff_wants_neither_witness :
    ∃ done, sampleSession.ReceiveData (constantReply 0)
        [Callback.on_begin_headers (sampleFrame 3)] (some [80, 82, 73]) = .ok done ∧
      done.session.emitted.count Event.canClose = 1 :=
  match pump_emits_canClose_iff_wants_neither (constantReply 0)
      [Callback.on_begin_headers (sampleFrame 3)] sampleSession
      (EMIT sampleSession (Event.begin_headers { object := 0, stream_id_ := 3 } 0))
      { streams := [(1, none), (3, some { object := 0, stream_id_ := 3 })], server := true }
      [80, 82, 73] rfl rfl with
  | ⟨⟨done, hdone, _, _, hcount⟩, _⟩ => ⟨done, hdone, hcount⟩

/-- Counterexample to C22: the sample session is terminated with error code 0
while the engine has processed no stream and refuses the submission with -901.
The binding asks for the last processed stream id, submits the generic
termination and returns -901; it does not call `nghttp2_session_send`. -/
theorem Terminate_refused_submission_not_sent :
    sampleSession.Terminate refusingReply [] (Value.number 0)
      = .ok (Completion.value sampleSession (.integer (-901))
          [.nghttp2_session_get_last_proc_stream_id,
            .nghttp2_session_terminate_session 0]) ∧
    EngineCall.nghttp2_session_send ∉
      [EngineCall.nghttp2_session_get_last_proc_stream_id,
        EngineCall.nghttp2_session_terminate_session 0] :=
  ⟨rfl, by decide⟩

/-- C22, amended: on a live session `Terminate` asks the engine for the last
processed stream id and submits `nghttp2_session_terminate_session2` with that
id when it is greater than 0 (as a `uint32_t`) and
`nghttp2_session_terminate_session` otherwise, in both cases with the
`Uint32Value` of the argument as error code.  When the engine answers 0 to the
submission, `nghttp2_session_send` is called in the same call and its answer
is returned; when the engine answers anything else, that answer is returned,
`nghttp2_session_send` is not called and the session is as it was. -/
theorem Terminate_sends_iff_submission_accepted (reply : EngineCall → Int)
    (dispatched : List Callback) (session mid : Http2Session) (engine : nghttp2_session)
    (arg0 : Value)
    (hlive : session.session_ = some engine)
    (hcallbacks : session.dispatchAll dispatched = .ok mid) :
    ∃ submit : EngineCall,
      submit =
        (if toUint32 (reply .nghttp2_session_get_last_proc_stream_id) > 0 then
          EngineCall.nghttp2_session_terminate_session2
            (toUint32 (reply .nghttp2_session_get_last_proc_stream_id)) arg0.Uint32Value
        else EngineCall.nghttp2_session_terminate_session arg0.Uint32Value) ∧
      (reply submit = 0 →
        session.Terminate reply dispatched arg0
          = .ok (Completion.value mid (.integer (reply .nghttp2_session_send))
              [.nghttp2_session_get_last_proc_stream_id, submit, .nghttp2_session_send])) ∧
      (reply submit ≠ 0 →
        session.Terminate reply dispatched arg0
          = .ok (Completion.value session (.integer (reply submit))
              [.nghttp2_session_get_last_proc_stream_id, submit]) ∧
        EngineCall.nghttp2_session_send ∉
          [EngineCall.nghttp2_session_get_last_proc_stream_id, submit]) := by
  refine ⟨_, rfl, ?_, ?_⟩
  · intro hzero
    unfold Http2Session.Terminate
    simp only [sessionIsNull_of_live session engine hlive, Bool.false_eq_true, if_false,
      hzero, if_true, hcallbacks]
  · intro hne
    refine ⟨?_, ?_⟩
    · unfold Http2Session.Terminate
      simp only [sessionIsNull_of_live session engine hlive, Bool.false_eq_true, if_false,
        if_neg hne]
    · split_ifs <;> simp

/-- Witness of C22: the sample session is terminated with error code 2 while
the engine reports stream 7 as the last processed one and accepts the
submission. -/
theorem Terminate_sends_iff_submission_accepted_witness :
    sampleSession.Terminate processedReply [] (Value.number 2)
      = .ok (Completion.value sampleSession (.integer 0)
          [.nghttp2_session_get_last_proc_stream_id,
            .nghttp2_session_terminate_session2 7 2, .nghttp2_session_send]) :=
  match Terminate_sends_iff_submission_accepted processedReply [] sampleSession
      sampleSession
      { streams := [(1, none), (3, some { object := 0, stream_id_ := 3 })], server := true }
      (Value.number 2) rfl rfl with
  | ⟨_, hsubmit, hsent, _⟩ => by
    subst hsubmit
    exact hsent (by decide)

/-- Counterexample to C24: the host's `_read` function throws.  The call gives
back an empty handle, the assertion `CHECK(!ret.IsEmpty())` fails and the
process is aborted; no number is returned to the engine. -/
theorem on_read_host_throw_fails_check :
    Http2DataProvider.on_read true HostRead.threw 0 = .error Fault.checkFailed ∧
    ∀ result : Int × Nat, Http2DataProvider.on_read true HostRead.threw 0 ≠ .ok result :=
  ⟨rfl, fun _ h => by cases h⟩

/-- C24, amended: when the host's `_read` function throws, or the property
`_read` is no function, the assertion of `on_read` fails, which ends the
process.  When the function returns, `on_read` returns the `Int32Value` of
what it returned, so the engine is handed `NGHTTP2_ERR_DEFERRED` when the host
function returns that number, and only when the host function returns a value
whose `Int32Value` is that number. -/
theorem on_read_defers_only_by_host_result (flags : Nat) :
    Http2DataProvider.on_read true HostRead.threw flags = .error Fault.checkFailed ∧
    (∀ host, Http2DataProvider.on_read false host flags = .error Fault.checkFailed) ∧
    (∀ ret endStream endData noEndStream, ∃ after,
      Http2DataProvider.on_read true (.returned ret endStream endData noEndStream) flags
        = .ok (ret.Int32Value, after)) ∧
    (∀ endStream endData noEndStream, ∃ after,
      Http2DataProvider.on_read true
          (.returned (Value.number NGHTTP2_ERR_DEFERRED) endStream endData noEndStream) flags
        = .ok (NGHTTP2_ERR_DEFERRED, after)) ∧
    (∀ host after,
      Http2DataProvider.on_read true host flags = .ok (NGHTTP2_ERR_DEFERRED, after) →
      ∃ ret endStream endData noEndStream,
        host = .returned ret endStream endData noEndStream ∧
        ret.Int32Value = NGHTTP2_ERR_DEFERRED) := by
  refine ⟨rfl, fun _ => rfl, fun _ _ _ _ => ⟨_, rfl⟩, fun _ _ _ => ⟨_, rfl⟩, ?_⟩
  intro host after h
  cases host with
  | threw => cases h
  | returned ret endStream endData noEndStream =>
    refine ⟨ret, endStream, endData, noEndStream, rfl, ?_⟩
    simp only [Http2DataProvider.on_read, Bool.not_true, Bool.false_eq_true, if_false,
      Except.ok.injEq, Prod.mk.injEq] at h
    exact h.1

/-- C25: for every flags word `f`, every value the host function returns and
every content of the three output properties, `on_read` returns the
`Int32Value` of the returned value (the number itself when it is a signed
32-bit integer) and leaves the flags word equal to `f`, or-ed with
`NGHTTP2_FLAG_END_STREAM` when the end-stream property is true, with
`NGHTTP2_DATA_FLAG_EOF` when the end-of-data property is true and with
`NGHTTP2_DATA_FLAG_NO_END_STREAM` when the no-end-stream property is true.
Bit by bit: a bit is set afterwards exactly when it was set in `f` or belongs
to one of the constants whose property is true, so no bit of `f` is cleared
and no other bit is added. -/
theorem on_read_ors_host_flags (f : Nat) (ret endStream endData noEndStream : Value) :
    ∃ after,
      Http2DataProvider.on_read true (.returned ret endStream endData noEndStream) f
        = .ok (ret.Int32Value, after) ∧
      after = f ||| (if endStream.BooleanValue then Http2Stream.NGHTTP2_FLAG_END_STREAM else 0)
        ||| (if endData.BooleanValue then NGHTTP2_DATA_FLAG_EOF else 0)
        ||| (if noEndStream.BooleanValue then NGHTTP2_DATA_FLAG_NO_END_STREAM else 0) ∧
      (∀ i, after.testBit i =
        (f.testBit i ||
          (endStream.BooleanValue && Http2Stream.NGHTTP2_FLAG_END_STREAM.testBit i) ||
          (endData.BooleanValue && NGHTTP2_DATA_FLAG_EOF.testBit i) ||
          (noEndStream.BooleanValue && NGHTTP2_DATA_FLAG_NO_END_STREAM.testBit i))) ∧
      (∀ i, f.testBit i = true → after.testBit i = true) ∧
      (∀ n : Int, -2147483648 ≤ n → n < 2147483648 → ret = Value.number n →
        ret.Int32Value = n) := by
  have hform : ∀ (a : Nat) (b : Bool) (c : Nat),
      (if b = true then a ||| c else a) = a ||| (if b = true then c else 0) := by
    intro a b c
    cases b <;> simp
  refine ⟨_, rfl, ?_, ?_, ?_, ?_⟩
  · simp only [hform]
  · intro i
    simp only [hform, Nat.testBit_or]
    cases endStream.BooleanValue <;> cases endData.BooleanValue <;>
      cases noEndStream.BooleanValue <;> simp
  · intro i hi
    simp only [hform, Nat.testBit_or, hi, Bool.true_or]
  · intro n hlo hhi hret
    subst hret
    exact Int32Value_number_of_int32 n hlo hhi

/-- C26, as the code behaves: constructed from an options bag that has none of
the six options, `Http2Options` calls every one of the six setters, the four
numeric ones with 0 and the two boolean ones with false.  The read of a
property the bag does not have gives `undefined`, a handle that is not empty,
so the test before the setter does not hold the call back.  Only when the
argument is no object is no setter called. -/
theorem Http2Options_calls_setters_for_absent_options :
    Http2Options.new (.object []) =
      { options_ :=
          [.SetMaxDeflateDynamicTableSize 0, .SetMaxReservedRemoteStreams 0,
            .SetMaxSendHeaderBlockLength 0, .SetPeerMaxConcurrentStreams 0,
            .SetNoHttpMessaging false, .SetNoRecvClientMagic false] } ∧
    Http2Options.new .notObject = { options_ := [] } ∧
    (∀ (properties : List (String × Option Value)) (name : String)
        (fn : Value → OptionCall) (self : Http2Options),
      properties.lookup name = none →
        Http2Options.V properties name fn self
          = { options_ := self.options_ ++ [fn Value.undefined] }) ∧
    (∀ properties : List (String × Option Value),
      (∀ name, properties.lookup name ≠ some none) →
        (Http2Options.new (.object properties)).options_.map OptionCall.property =
          ["maxDeflateDynamicTableSize", "maxReservedRemoteStreams",
            "maxSendHeaderBlockLength", "peerMaxConcurrentStreams",
            "noHttpMessaging", "noRecvClientMagic"]) := by
  refine ⟨rfl, rfl, ?_, ?_⟩
  · intro properties name fn self habsent
    simp only [Http2Options.V, ObjectGet, habsent]
  · intro properties hreads
    have hget : ∀ name, ∃ val, ObjectGet properties name = some val := by
      intro name
      unfold ObjectGet
      cases hl : properties.lookup name with
      | none => exact ⟨_, rfl⟩
      | some read =>
        cases read with
        | none => exact absurd hl (hreads name)
        | some val => exact ⟨val, rfl⟩
    obtain ⟨v1, h1⟩ := hget "maxDeflateDynamicTableSize"
    obtain ⟨v2, h2⟩ := hget "maxReservedRemoteStreams"
    obtain ⟨v3, h3⟩ := hget "maxSendHeaderBlockLength"
    obtain ⟨v4, h4⟩ := hget "peerMaxConcurrentStreams"
    obtain ⟨v5, h5⟩ := hget "noHttpMessaging"
    obtain ⟨v6, h6⟩ := hget "noRecvClientMagic"
    simp only [Http2Options.new, Http2Options.V, h1, h2, h3, h4, h5, h6, List.nil_append,
      List.cons_append, List.map_cons, List.map_nil, OptionCall.property]

/-- C27: for every sequence of headers, `GetHeaders` on the host array of the
objects that wrap them appends the headers to the vector in the order of the
array: collected into an empty vector, the vector is the sequence itself, it
has as many entries as the array, and entry `i` of the vector is the header of
element `i` of the array.  Elements of the array that are no objects are
passed over without changing the order of the others. -/
theorem GetHeaders_keeps_entries_in_order (entries : List nghttp2_nv)
    (vector : List nghttp2_nv) :
    GetHeaders (.array (entries.map HeaderItem.header)) vector = vector ++ entries ∧
    GetHeaders (.array (entries.map HeaderItem.header)) [] = entries ∧
    (GetHeaders (.array (entries.map HeaderItem.header)) []).length = entries.length ∧
    (∀ i : Nat, (GetHeaders (.array (entries.map HeaderItem.header)) [])[i]? = entries[i]? ∧
      ((entries.map HeaderItem.header)[i]?).map
          (fun item => GetHeaders (.array [item]) [])
        = (entries[i]?).map (fun nv => [nv])) ∧
    (∀ items : List HeaderItem, HeaderItem.otherObject ∉ items →
      GetHeaders (.array items) vector = vector ++ items.filterMap (fun item =>
        match item with
        | .header nv => some nv
        | _ => none)) := by
  have hloop : ∀ (es : List nghttp2_nv) (v : List nghttp2_nv),
      GetHeadersLoop (es.map HeaderItem.header) v = v ++ es := by
    intro es
    induction es with
    | nil => intro v; simp [GetHeadersLoop]
    | cons e rest ih =>
      intro v
      simp only [List.map_cons, GetHeadersLoop, ih, List.append_assoc, List.singleton_append]
  have hall : GetHeaders (.array (entries.map HeaderItem.header)) [] = entries := by
    simp only [GetHeaders, hloop, List.nil_append]
  refine ⟨by simp only [GetHeaders, hloop], hall, by rw [hall], ?_, ?_⟩
  · intro i
    refine ⟨by rw [hall], ?_⟩
    rw [List.getElem?_map]
    cases entries[i]? with
    | none => rfl
    | some nv => rfl
  · intro items
    induction items generalizing vector with
    | nil => intro _; simp [GetHeaders, GetHeadersLoop]
    | cons item rest ih =>
      intro hnot
      have hrest : HeaderItem.otherObject ∉ rest := fun h => hnot (List.mem_cons_of_mem _ h)
      cases item with
      | header nv =>
        have h := ih (vector ++ [nv]) hrest
        simp only [GetHeaders] at h ⊢
        simp only [GetHeadersLoop, h, List.filterMap_cons, List.append_assoc,
          List.singleton_append]
      | otherObject => exact absurd (List.mem_cons_self _ _) hnot
      | notObject =>
        have h := ih vector hrest
        simp only [GetHeaders] at h ⊢
        simp only [GetHeadersLoop, h, List.filterMap_cons]

/-- C28: for every name that is not empty and every value, `Http2Header::New`
constructs a header whose name reads back as the name, whose value reads back
as the value and whose flags are `NGHTTP2_NV_FLAG_NONE`; the two are stored in
one buffer, the value right behind the name, with their lengths.  An empty
name, a name that is no string and a value that is no string are each rejected
with a `TypeError`, and nothing is constructed; so no header that `New`
constructs has an empty name. -/
theorem Http2Header_New_name_not_empty (n v : List Nat) (hne : n ≠ []) :
    (∃ header, Http2Header.New true (.string n) (.string v) = .ok header ∧
      header.GetName = n ∧ header.GetValue = v ∧
      header.GetFlags = NGHTTP2_NV_FLAG_NONE ∧
      header.store_ = n ++ v ∧ header.name = 0 ∧ header.value = n.length ∧
      header.namelen = n.length ∧ header.valuelen = v.length) ∧
    Http2Header.New true (.string []) (.string v)
      = .error "First argument must not be an empty string" ∧
    (∀ arg1, Http2Header.New true .notString arg1
      = .error "First argument must be a string") ∧
    Http2Header.New true (.string n) .notString
      = .error "Second argument must be a string" ∧
    (∀ (isConstructCall : Bool) (arg0 arg1 : StringArg) (header : Http2Header),
      Http2Header.New isConstructCall arg0 arg1 = .ok header →
        header.GetName ≠ [] ∧ header.namelen ≠ 0 ∧
        arg0 = .string header.GetName ∧ arg1 = .string header.GetValue) := by
  have hlen : n.length ≠ 0 := fun h => hne (List.length_eq_zero.mp h)
  have hread : ∀ key value : List Nat,
      (Http2Header.new key key.length value value.length).GetName = key ∧
      (Http2Header.new key key.length value value.length).GetValue = value := by
    intro key value
    have hs := store_of_new key value
    constructor
    · unfold Http2Header.GetName
      rw [hs]
      simp [Http2Header.new]
    · unfold Http2Header.GetValue
      rw [hs]
      simp [Http2Header.new]
  refine ⟨⟨Http2Header.new n n.length v v.length, ?_, (hread n v).1, (hread n v).2, rfl,
    store_of_new n v, rfl, rfl, rfl, rfl⟩, rfl, fun _ => rfl, rfl, ?_⟩
  · simp only [Http2Header.New, Bool.not_true, Bool.false_eq_true, if_false, if_neg hlen]
  · intro isConstructCall arg0 arg1 header h
    unfold Http2Header.New at h
    cases isConstructCall with
    | false => simp at h
    | true =>
      cases arg0 with
      | notString => simp at h
      | string key =>
        cases arg1 with
        | notString => simp at h
        | string value =>
          by_cases hk : key.length = 0
          · simp [hk] at h
          · simp only [Bool.not_true, Bool.false_eq_true, if_false, if_neg hk,
              Except.ok.injEq] at h
            subst h
            rw [(hread key value).1, (hread key value).2]
            exact ⟨fun h0 => hk (by rw [h0]; rfl), hk, rfl, rfl⟩

/-- Witness of C28: the header `:status` with the value `200`. -/
theorem Http2Header_New_name_not_empty_witness :
    ∃ header, Http2Header.New true (.string [58, 115, 116, 97, 116, 117, 115])
        (.string [50, 48, 48]) = .ok header ∧
      header.GetName = [58, 115, 116, 97, 116, 117, 115] ∧ header.GetValue = [50, 48, 48] :=
  match (Http2Header_New_name_not_empty [58, 115, 116, 97, 116, 117, 115] [50, 48, 48]
      (by decide)).1 with
  | ⟨header, hnew, hname, hvalue, _⟩ => ⟨header, hnew, hname, hvalue⟩

/-- C29: on a live session `ReceiveData` with a buffer returns the number the
engine answers to `nghttp2_session_mem_recv`, converted to `uint32_t`: the
number modulo 2^32.  That is the engine's number itself when it lies in
[0, 2^32), and 2^32 + e, which is not negative, for a negative number e from
-2^32 on. -/
theorem ReceiveData_returns_result_mod_2_32 (reply : EngineCall → Int)
    (dispatched : List Callback) (session mid : Http2Session) (engine : nghttp2_session)
    (data : List Nat)
    (hlive : session.session_ = some engine)
    (hcallbacks : session.dispatchAll dispatched = .ok mid) :
    ∃ done n, session.ReceiveData reply dispatched (some data) = .ok done ∧
      done.returned = some (.unsigned n) ∧ done.thrown = none ∧
      (n : Int) = reply (.nghttp2_session_mem_recv data) % 4294967296 ∧
      (0 ≤ reply (.nghttp2_session_mem_recv data) →
        reply (.nghttp2_session_mem_recv data) < 4294967296 →
        (n : Int) = reply (.nghttp2_session_mem_recv data)) ∧
      (-4294967296 ≤ reply (.nghttp2_session_mem_recv data) →
        reply (.nghttp2_session_mem_recv data) < 0 →
        (n : Int) = 4294967296 + reply (.nghttp2_session_mem_recv data)) := by
  have hn : ((toUint32 (reply (.nghttp2_session_mem_recv data)) : Nat) : Int)
      = reply (.nghttp2_session_mem_recv data) % 4294967296 := by
    unfold toUint32
    exact Int.toNat_of_nonneg (Int.emod_nonneg _ (by decide))
  refine ⟨_, _, ReceiveData_of_live reply dispatched session mid engine data hlive hcallbacks,
    rfl, rfl, hn, ?_, ?_⟩
  · intro hlo hhi
    rw [hn]
    omega
  · intro hlo hhi
    rw [hn]
    omega

/-- Witness of C29: the sample session receives three bytes and the engine
answers -902 (`NGHTTP2_ERR_CALLBACK_FAILURE`); the method returns
4294966394. -/
theorem ReceiveData_returns_result_mod_2_32_witness :
    ∃ done, sampleSession.ReceiveData (constantReply (-902)) [] (some [80, 82, 73])
        = .ok done ∧
      done.returned = some (.unsigned 4294966394) :=
  match ReceiveData_returns_result_mod_2_32 (constantReply (-902)) [] sampleSession
      sampleSession
      { streams := [(1, none), (3, some { object := 0, stream_id_ := 3 })], server := true }
      [80, 82, 73] rfl rfl with
  | ⟨done, n, hdone, hret, _, _, _, hneg⟩ =>
    ⟨done, hdone, by
      have h := hneg (by decide) (by decide)
      have hn : n = 4294966394 := by
        simp only [constantReply] at h
        omega
      rw [hret, hn]⟩

/-- C30: the first `Destroy` on a live session calls `nghttp2_session_del`,
sets the engine handle to null and emits `destroy` once, changing nothing
else.  `Destroy` on the session it leaves returns at once, and so does every
later one: no call into the engine, no event, the session unchanged, however
often it is repeated. -/
theorem Destroy_twice_same_as_once (session : Http2Session) (engine : nghttp2_session)
    (hlive : session.session_ = some engine) :
    ∃ first, session.Destroy = .ok first ∧
      first.calls = [.nghttp2_session_del] ∧
      first.session = { session with session_ := none,
                                     emitted := session.emitted ++ [Event.destroy] } ∧
      first.session.emitted.count Event.destroy = session.emitted.count Event.destroy + 1 ∧
      first.session.Destroy = .ok (Completion.nothing first.session) ∧
      (∀ (n : Nat) (reply : EngineCall → Int) (dispatched : List Callback),
        first.session.performAll
            (List.replicate n { operation := .destroy, reply := reply, dispatched := dispatched })
          = .ok first.session) := by
  have hfirst : session.Destroy = .ok { Completion.nothing
      { session with session_ := none, emitted := session.emitted ++ [Event.destroy] } with
      calls := [.nghttp2_session_del] } := by
    unfold Http2Session.Destroy
    simp only [sessionIsNull_of_live session engine hlive, Bool.false_eq_true, if_false]
    rfl
  refine ⟨_, hfirst, rfl, rfl, ?_, rfl, ?_⟩
  · simp [Completion.nothing, List.count_append]
  · intro n reply dispatched
    exact performAll_of_null _ _ rfl

/-- Witness of C30: the sample session is destroyed. -/
theorem Destroy_twice_same_as_once_witness :
    ∃ first, sampleSession.Destroy = .ok first ∧
      first.session.Destroy = .ok (Completion.nothing first.session) :=
  match Destroy_twice_same_as_once sampleSession
      { streams := [(1, none), (3, some { object := 0, stream_id_ := 3 })], server := true }
      rfl with
  | ⟨first, hfirst, _, _, _, hsecond, _⟩ => ⟨first, hfirst, hsecond⟩

end Http2
